import Mathlib

/-!
# QUDA host interface: a shallow embedding

Embedding of `invert_quda.cpp` (context initialisation, gauge load, solver
entry point) and of the kernel benchmark driver `blas_test.c`.

Conventions.
* Real-valued quantities (`kappa`, `spinorGiB`, ...) are rationals: the
  embedding describes the exact-arithmetic behaviour of the host code.
* A parity spinor on the device is a handle into `QudaState.spinor`; its
  contents are an element of a type `V` of parity vectors.
* Functions that are called by the embedded code but are not defined in the
  embedded files (device kernels, solvers, gauge creation) are fields of
  `Extern`; every call of one of them is also recorded in `QudaState.trace`.
* `exit(code)` ends a run as `Outcome.exited code s`, where `s` is the state
  at the moment of the call.
-/

namespace Quda

/-! ## Enumerations named by the source -/

/-- Numeric precision of a field; `unlisted` is any value of the C enum that
the embedded files do not name. -/
inductive Precision where
  | QUDA_HALF_PRECISION
  | QUDA_SINGLE_PRECISION
  | QUDA_DOUBLE_PRECISION
  | unlisted (code : Int)
  deriving DecidableEq, Repr

/-- Link reconstruction type. -/
inductive ReconstructType where
  | QUDA_RECONSTRUCT_8
  | unlisted (code : Int)
  deriving DecidableEq, Repr

/-- Solver kind selector. -/
inductive QudaInverterType where
  | QUDA_CG_INVERTER
  | QUDA_BICGSTAB_INVERTER
  | unlisted (code : Int)
  deriving DecidableEq, Repr

/-- Which system the caller wants solved. -/
inductive QudaSolutionType where
  | QUDA_MAT_SOLUTION
  | QUDA_MATPC_SOLUTION
  | QUDA_MATPCDAG_MATPC_SOLUTION
  | unlisted (code : Int)
  deriving DecidableEq, Repr

/-- Which parity the preconditioned operator acts on. -/
inductive QudaMatPCType where
  | QUDA_MATPC_EVEN_EVEN
  | unlisted (code : Int)
  deriving DecidableEq, Repr

/-- Source preservation flag. -/
inductive QudaPreserveSource where
  | QUDA_PRESERVE_SOURCE_NO
  | QUDA_PRESERVE_SOURCE_YES
  | unlisted (code : Int)
  deriving DecidableEq, Repr

/-- Mass normalisation mode. -/
inductive QudaMassNormalization where
  | QUDA_MASS_NORMALIZATION
  | unlisted (code : Int)
  deriving DecidableEq, Repr

/-- Verbosity level. -/
inductive QudaVerbosity where
  | QUDA_VERBOSE
  | unlisted (code : Int)
  deriving DecidableEq, Repr

/-- Dagger selector handed to the BiCGstab solver. -/
inductive DagType where
  | QUDA_DAG_NO
  | QUDA_DAG_YES
  deriving DecidableEq, Repr

/-! ## Parameter blocks -/

/-- Gauge parameter block (`QudaGaugeParam`), with the fields that
`printGaugeParam` lists. -/
structure QudaGaugeParam where
  X : Int
  Y : Int
  Z : Int
  T : Int
  anisotropy : ℚ
  gauge_order : Int
  cpu_prec : Precision
  cuda_prec_precise : Precision
  reconstruct_precise : ReconstructType
  cuda_prec_sloppy : Precision
  reconstruct_sloppy : ReconstructType
  gauge_fix : Int
  t_boundary : Int
  packed_size : Int
  gaugeGiB : ℚ
  deriving DecidableEq

/-- Solver parameter block (`QudaInvertParam`), with the fields that
`printInvertParam` lists and the `verbosity` field that `blas_test.c` sets. -/
structure QudaInvertParam where
  kappa : ℚ
  mass_normalization : QudaMassNormalization
  inv_type : QudaInverterType
  tol : ℚ
  iter : Int
  maxiter : Int
  matpc_type : QudaMatPCType
  solution_type : QudaSolutionType
  preserve_source : QudaPreserveSource
  cpu_prec : Precision
  cuda_prec : Precision
  dirac_order : Int
  spinorGiB : ℚ
  gflops : ℚ
  secs : ℚ
  verbosity : QudaVerbosity
  deriving DecidableEq

/-! ## Device and host objects -/

/-- Device handle of one parity of a spinor field. -/
abbrev ParitySpinor := Nat

/-- Pair of parity spinors (`FullSpinor`). -/
structure FullSpinor where
  even : ParitySpinor
  odd : ParitySpinor
  deriving DecidableEq, Repr

/-- Resident gauge field (`FullGauge`): device addresses of the two parities
(`none` is `NULL`) and the byte count of one packed parity. -/
structure FullGauge where
  even : Option Nat
  odd : Option Nat
  packedGaugeBytes : Int
  deriving DecidableEq, Repr

/-- Host spinor buffer: the parity-sized block a host pointer addresses and
the block that follows it (full fields are even-odd ordered). -/
structure HostSpinor (V : Type) where
  even : V
  odd : V

/-- Host staging buffer (`hSpinor1`, `hSpinor2`). -/
structure HostStaging where
  spinor : Option Nat
  spinorNorm : Option Nat
  deriving DecidableEq, Repr

/-- The two resident gauge fields, as named at a call site. -/
inductive GaugeRef where
  | cudaGaugePrecise
  | cudaGaugeSloppy
  deriving DecidableEq, Repr

/-- Host spinor buffers, as named at a call site: the pointer parameters
`h_x`, `h_b` of `invertQuda` and `h_out`, `h_in` of the operator entry
points. -/
inductive HostRef where
  | h_x
  | h_b
  | h_out
  | h_in
  deriving DecidableEq, Repr

/-- Argument of a formatted print. -/
inductive Arg where
  | int (i : Int)
  | str (s : String)
  | real (q : ℚ)
  deriving DecidableEq, Repr

/-- Vector kernels timed by the benchmark driver. -/
inductive BlasKernel where
  | axpbyCuda | xpyCuda | axpyCuda | xpayCuda | mxpyCuda | axCuda
  | caxpyCuda | caxpbyCuda | cxpaypbzCuda | axpyZpbxCuda | caxpbypzYmbwCuda
  | sumCuda | normCuda | reDotProductCuda | axpyNormCuda | xmyNormCuda
  | cDotProductCuda | xpayDotzyCuda | cDotProductNormACuda
  | cDotProductNormBCuda | caxpbypzYmbwcDotProductWYNormYQuda
  deriving DecidableEq, Repr

/-- Observable actions of a run, in program order. -/
inductive Event where
  /-- Formatted print to standard output. -/
  | printf (format : String) (args : List Arg)
  /-- Formatted print to the error stream. -/
  | fprintf_stderr (format : String) (args : List Arg)
  | cudaGetDeviceCount
  | cudaGetDeviceProperties (dev : Int)
  | cudaSetDevice (dev : Int)
  | setCudaGaugeParam
  | createGaugeField (target : GaugeRef) (reconstruct : ReconstructType) (precision : Precision)
  | freeGaugeField (target : GaugeRef)
  | freeSpinorBuffer
  | allocateParitySpinor (handle : ParitySpinor) (precision : Precision)
  | freeParitySpinor (handle : ParitySpinor)
  | freeSpinorField (field : FullSpinor)
  | loadSpinorField (dst : FullSpinor) (host : HostRef)
  | loadParitySpinor (dst : ParitySpinor) (host : HostRef)
  | retrieveSpinorField (host : HostRef) (src : FullSpinor)
  | retrieveParitySpinor (host : HostRef) (src : ParitySpinor)
  | axCuda (a : ℚ) (x : ParitySpinor)
  | copyCuda (dst src : ParitySpinor)
  | xpayCuda (x : ParitySpinor) (a : ℚ) (y : ParitySpinor)
  | dslashCuda (out : ParitySpinor) (gauge : GaugeRef) (inp : ParitySpinor) (parity dagger : Int)
  | dslashXpaySCuda (out : ParitySpinor) (gauge : GaugeRef) (inp : ParitySpinor)
      (parity dagger : Int) (x : ParitySpinor) (a : ℚ)
  | MatPCDagCuda (out : ParitySpinor) (gauge : GaugeRef) (inp : ParitySpinor) (kappa : ℚ)
      (tmp : ParitySpinor) (matpc_type : QudaMatPCType)
  | MatPCCuda (out : ParitySpinor) (gauge : GaugeRef) (inp : ParitySpinor) (kappa : ℚ)
      (tmp : ParitySpinor) (matpc_type : QudaMatPCType)
  | MatPCDagMatPCCuda (out : ParitySpinor) (gauge : GaugeRef) (inp : ParitySpinor) (kappa : ℚ)
      (tmp : ParitySpinor) (matpc_type : QudaMatPCType)
  | normCuda (x : ParitySpinor) (len : Int)
  | invertCgCuda (out inp : ParitySpinor) (gaugeSloppy : GaugeRef) (tmp : ParitySpinor)
  | invertBiCGstabCuda (out inp : ParitySpinor) (gaugeSloppy gaugePrecise : GaugeRef)
      (tmp : ParitySpinor) (dag_type : DagType)
  | stopwatchStart
  | stopwatchReadSeconds
  | blas (kernel : BlasKernel)
  deriving DecidableEq

/-- Result of a run: normal return with a value, or process termination by
`exit`; either way with the state reached. -/
inductive Outcome (ρ σ : Type) where
  | returned (value : ρ) (s : σ)
  | exited (code : Int) (s : σ)

/-- State at the end of a run, however it ended. -/
def Outcome.state {ρ σ : Type} : Outcome ρ σ → σ
  | .returned _ s => s
  | .exited _ s => s

/-- Value of `EXIT_FAILURE`. -/
def EXIT_FAILURE : Int := 1

/-! ## Process state and external collaborators -/

/-- Compile-time lattice configuration (`L1`..`L4`, `Nh`, `spinorSiteSize`);
the header that fixes it is not part of the embedded files. -/
structure Lattice where
  L1 : Int
  L2 : Int
  L3 : Int
  L4 : Int
  Nh : Int
  spinorSiteSize : Int

/-- What the CUDA runtime reports: the device count, and for each index the
major capability and name that `cudaGetDeviceProperties` leaves in the
property struct. -/
structure CudaRuntime where
  deviceCount : Int
  major : Int → Int
  name : Int → String

/-- Global and caller-visible state of the library. `gauge_param` and
`invert_param` are the blocks the global pointers of those names address;
`h_x` is the host solution buffer. -/
structure QudaState (V : Type) where
  cudaGaugePrecise : FullGauge
  cudaGaugeSloppy : FullGauge
  hSpinor1 : HostStaging
  hSpinor2 : HostStaging
  gauge_param : QudaGaugeParam
  invert_param : QudaInvertParam
  device : Option Int
  spinor : ParitySpinor → V
  brk : ParitySpinor
  h_x : HostSpinor V
  trace : List Event

/-- Modelled from the spec: the Krylov solvers are not in the embedded files.
A solver call leaves behind the three vectors it was handed and its report;
the parameter block is "mutated only by the solver to report results"
(iteration count, elapsed time, operation count), its other fields being
read-only configuration. -/
structure SolverResult (V : Type) where
  out : V
  inp : V
  tmp : V
  iter : Int
  secs : ℚ
  gflops : ℚ

/-- Device code called by the embedded files but defined elsewhere. `G` is the
type of host gauge buffers.
* `createGaugeField h r p old` is the resident field after creation.
* `dslash g parity dagger v` is the single-parity operator applied to `v`.
* `MatPCDagCuda g kappa matpc out inp tmp` gives the new `out` and `tmp`.
* the solvers map the contents of `out`, `inp`, `tmp` to a `SolverResult`. -/
structure Extern (V G : Type) where
  createGaugeField : G → ReconstructType → Precision → FullGauge → FullGauge
  dslash : FullGauge → Int → Int → V → V
  MatPCDagCuda : FullGauge → ℚ → QudaMatPCType → V → V → V → V × V
  invertCgCuda : FullGauge → QudaInvertParam → V → V → V → SolverResult V
  invertBiCGstabCuda :
    FullGauge → FullGauge → QudaInvertParam → DagType → V → V → V → SolverResult V

/-- Further device code called by the embedded files but defined elsewhere.
* `MatPCCuda g kappa matpc out inp tmp` and `MatPCDagMatPCCuda` give the new
  `out` and `tmp`, like `Extern.MatPCDagCuda`.
* `normCuda v` is the value the reduction returns for the contents `v`.
* `freeGaugeField g` is what the call leaves in the struct it was handed. -/
structure ExternOps (V : Type) where
  MatPCCuda : FullGauge → ℚ → QudaMatPCType → V → V → V → V × V
  MatPCDagMatPCCuda : FullGauge → ℚ → QudaMatPCType → V → V → V → V × V
  normCuda : V → ℚ
  freeGaugeField : FullGauge → FullGauge

section Primitives

variable {V G : Type}

/-- Append one event to the trace. -/
def QudaState.emit (s : QudaState V) (e : Event) : QudaState V :=
  { s with trace := s.trace ++ [e] }

/-- Overwrite the contents of one device spinor. -/
def QudaState.store (s : QudaState V) (h : ParitySpinor) (v : V) : QudaState V :=
  { s with spinor := Function.update s.spinor h v }

/-- Value of a resident gauge field named at a call site. -/
def QudaState.gauge (s : QudaState V) : GaugeRef → FullGauge
  | .cudaGaugePrecise => s.cudaGaugePrecise
  | .cudaGaugeSloppy => s.cudaGaugeSloppy

/-- Overwrite a resident gauge field. -/
def QudaState.setGauge (s : QudaState V) (r : GaugeRef) (g : FullGauge) : QudaState V :=
  match r with
  | .cudaGaugePrecise => { s with cudaGaugePrecise := g }
  | .cudaGaugeSloppy => { s with cudaGaugeSloppy := g }

/-- Model of `allocateParitySpinor`: hands out the next unused handle; the
contents of the new buffer are whatever the device held. -/
def allocateParitySpinor (precision : Precision) (s : QudaState V) :
    ParitySpinor × QudaState V :=
  (s.brk, { s with brk := s.brk + 1,
                   trace := s.trace ++ [.allocateParitySpinor s.brk precision] })

/-- Model of `freeParitySpinor`. -/
def freeParitySpinor (h : ParitySpinor) (s : QudaState V) : QudaState V :=
  s.emit (.freeParitySpinor h)

/-- Model of `freeSpinorField`. -/
def freeSpinorField (b : FullSpinor) (s : QudaState V) : QudaState V :=
  s.emit (.freeSpinorField b)

/-- Modelled from the spec: `loadSpinorField(b, h, ...)` (host to device
marshaling, not in the embedded files) copies the even block of the host field
into `b.even` and the odd block into `b.odd`. `r` names the host buffer the
call is handed and `h` is what that buffer holds. -/
def loadSpinorField (b : FullSpinor) (r : HostRef) (h : HostSpinor V) (s : QudaState V) :
    QudaState V :=
  (((s.emit (.loadSpinorField b r)).store b.even h.even).store b.odd h.odd)

/-- Modelled from the spec: `loadParitySpinor(d, h, ...)` copies the
parity-sized block at the host pointer into the device spinor. `r` names the
host buffer the call is handed and `h` is what that buffer holds. -/
def loadParitySpinor (d : ParitySpinor) (r : HostRef) (h : HostSpinor V) (s : QudaState V) :
    QudaState V :=
  (s.emit (.loadParitySpinor d r)).store d h.even

/-- Modelled from the spec: `retrieveSpinorField(h, x, ...)` copies both
parities of a device field into the host buffer `r` it is handed. The state
keeps the contents of the output buffer of the running entry point (`h_x`,
`h_out`) in `h_x`; a copy into a source buffer would show in the trace. -/
def retrieveSpinorField (r : HostRef) (x : FullSpinor) (s : QudaState V) : QudaState V :=
  match r with
  | .h_x | .h_out =>
    { s.emit (.retrieveSpinorField r x) with h_x := ⟨s.spinor x.even, s.spinor x.odd⟩ }
  | .h_b | .h_in => s.emit (.retrieveSpinorField r x)

/-- Modelled from the spec: `retrieveParitySpinor(h, o, ...)` copies one
device parity into the parity-sized block at the host buffer `r` it is handed;
the state keeps the output buffer as for `retrieveSpinorField`. -/
def retrieveParitySpinor (r : HostRef) (o : ParitySpinor) (s : QudaState V) : QudaState V :=
  match r with
  | .h_x | .h_out => { s.emit (.retrieveParitySpinor r o) with h_x := ⟨s.spinor o, s.h_x.odd⟩ }
  | .h_b | .h_in => s.emit (.retrieveParitySpinor r o)

/-- Modelled from the spec: `axCuda` is the kernel `x = a x`. -/
def axCuda [SMul ℚ V] (a : ℚ) (x : ParitySpinor) (s : QudaState V) : QudaState V :=
  (s.emit (.axCuda a x)).store x (a • s.spinor x)

/-- Modelled from the spec: `copyCuda` is the kernel `dst = src`. -/
def copyCuda (dst src : ParitySpinor) (s : QudaState V) : QudaState V :=
  (s.emit (.copyCuda dst src)).store dst (s.spinor src)

/-- Modelled from the spec: `xpayCuda(x, a, y)` is the kernel `y = x + a y`. -/
def xpayCuda [Add V] [SMul ℚ V] (x : ParitySpinor) (a : ℚ) (y : ParitySpinor)
    (s : QudaState V) : QudaState V :=
  (s.emit (.xpayCuda x a y)).store y (s.spinor x + a • s.spinor y)

/-- Call of `dslashCuda(out, gauge, in, parity, dagger)`. -/
def dslashCuda (E : Extern V G) (out : ParitySpinor) (g : GaugeRef) (inp : ParitySpinor)
    (parity dagger : Int) (s : QudaState V) : QudaState V :=
  (s.emit (.dslashCuda out g inp parity dagger)).store out
    (E.dslash (s.gauge g) parity dagger (s.spinor inp))

/-- Modelled from the spec: `dslashXpaySCuda(out, gauge, in, parity, dagger,
x, a)` is `out = x + a D(in)`, with `D` the operator of `dslashCuda`. -/
def dslashXpaySCuda [Add V] [SMul ℚ V] (E : Extern V G) (out : ParitySpinor) (g : GaugeRef)
    (inp : ParitySpinor) (parity dagger : Int) (x : ParitySpinor) (a : ℚ)
    (s : QudaState V) : QudaState V :=
  (s.emit (.dslashXpaySCuda out g inp parity dagger x a)).store out
    (s.spinor x + a • E.dslash (s.gauge g) parity dagger (s.spinor inp))

/-- Call of `MatPCDagCuda(out, gauge, in, kappa, tmp, matpc_type)`. -/
def MatPCDagCuda (E : Extern V G) (out : ParitySpinor) (g : GaugeRef) (inp : ParitySpinor)
    (kappa : ℚ) (tmp : ParitySpinor) (matpc_type : QudaMatPCType)
    (s : QudaState V) : QudaState V :=
  let r := E.MatPCDagCuda (s.gauge g) kappa matpc_type (s.spinor out) (s.spinor inp)
    (s.spinor tmp)
  ((s.emit (.MatPCDagCuda out g inp kappa tmp matpc_type)).store tmp r.2).store out r.1

/-- Write a solver result back: vectors into the device, report into the
parameter block. -/
def QudaState.applySolver (s : QudaState V) (out inp tmp : ParitySpinor)
    (r : SolverResult V) : QudaState V :=
  { ((s.store inp r.inp).store tmp r.tmp).store out r.out with
    invert_param := { s.invert_param with iter := r.iter, secs := r.secs, gflops := r.gflops } }

/-- Call of `invertCgCuda(out, in, gaugeSloppy, tmp, invert_param)`. -/
def invertCgCuda (E : Extern V G) (out inp : ParitySpinor) (gS : GaugeRef) (tmp : ParitySpinor)
    (s : QudaState V) : QudaState V :=
  (s.emit (.invertCgCuda out inp gS tmp)).applySolver out inp tmp
    (E.invertCgCuda (s.gauge gS) s.invert_param (s.spinor out) (s.spinor inp) (s.spinor tmp))

/-- Call of `invertBiCGstabCuda(out, in, gaugeSloppy, gaugePrecise, tmp,
invert_param, dag_type)`. -/
def invertBiCGstabCuda (E : Extern V G) (out inp : ParitySpinor) (gS gP : GaugeRef)
    (tmp : ParitySpinor) (dag : DagType) (s : QudaState V) : QudaState V :=
  (s.emit (.invertBiCGstabCuda out inp gS gP tmp dag)).applySolver out inp tmp
    (E.invertBiCGstabCuda (s.gauge gS) (s.gauge gP) s.invert_param dag
      (s.spinor out) (s.spinor inp) (s.spinor tmp))

/-- Call of `createGaugeField(&target, h_gauge, reconstruct, precision)`. -/
def createGaugeField (E : Extern V G) (target : GaugeRef) (h_gauge : G)
    (reconstruct : ReconstructType) (precision : Precision) (s : QudaState V) : QudaState V :=
  (s.emit (.createGaugeField target reconstruct precision)).setGauge target
    (E.createGaugeField h_gauge reconstruct precision (s.gauge target))

/-- Call of `MatPCCuda(out, gauge, in, kappa, tmp, matpc_type)`. -/
def MatPCCuda (O : ExternOps V) (out : ParitySpinor) (g : GaugeRef) (inp : ParitySpinor)
    (kappa : ℚ) (tmp : ParitySpinor) (matpc_type : QudaMatPCType)
    (s : QudaState V) : QudaState V :=
  let r := O.MatPCCuda (s.gauge g) kappa matpc_type (s.spinor out) (s.spinor inp)
    (s.spinor tmp)
  ((s.emit (.MatPCCuda out g inp kappa tmp matpc_type)).store tmp r.2).store out r.1

/-- Call of `MatPCDagMatPCCuda(out, gauge, in, kappa, tmp, matpc_type)`. -/
def MatPCDagMatPCCuda (O : ExternOps V) (out : ParitySpinor) (g : GaugeRef)
    (inp : ParitySpinor) (kappa : ℚ) (tmp : ParitySpinor) (matpc_type : QudaMatPCType)
    (s : QudaState V) : QudaState V :=
  let r := O.MatPCDagMatPCCuda (s.gauge g) kappa matpc_type (s.spinor out) (s.spinor inp)
    (s.spinor tmp)
  ((s.emit (.MatPCDagMatPCCuda out g inp kappa tmp matpc_type)).store tmp r.2).store out r.1

/-- Call of `normCuda(x.spinor, len)`: the value returned and the state after
the call. -/
def normCuda (O : ExternOps V) (x : ParitySpinor) (len : Int) (s : QudaState V) :
    ℚ × QudaState V :=
  (O.normCuda (s.spinor x), s.emit (.normCuda x len))

/-- Call of `freeSpinorBuffer()`. -/
def freeSpinorBuffer (s : QudaState V) : QudaState V :=
  s.emit .freeSpinorBuffer

/-- Call of `freeGaugeField(&target)`: the callee is handed the address of one
resident field and can rewrite that struct. -/
def freeGaugeField (O : ExternOps V) (target : GaugeRef) (s : QudaState V) : QudaState V :=
  (s.emit (.freeGaugeField target)).setGauge target (O.freeGaugeField (s.gauge target))

end Primitives

/-! ## `invert_quda.cpp` -/

section InvertQuda

variable {V G : Type}

/-- Embedding of `initQuda(dev)`. -/
def initQuda (rt : CudaRuntime) (dev : Int) (s : QudaState V) : Outcome Unit (QudaState V) :=
  let deviceCount := rt.deviceCount
  let s := s.emit .cudaGetDeviceCount
  if deviceCount = 0 then
    .exited EXIT_FAILURE (s.emit (.fprintf_stderr "No devices supporting CUDA.\n" []))
  else
    let s := (List.range deviceCount.toNat).foldl
      (fun s i => (s.emit (.cudaGetDeviceProperties i)).emit
        (.fprintf_stderr "found device %d: %s\n" [.int i, .str (rt.name i)])) s
    let dev := if dev < 0 then deviceCount - 1 else dev
    let s := s.emit (.cudaGetDeviceProperties dev)
    if rt.major dev < 1 then
      .exited EXIT_FAILURE
        (s.emit (.fprintf_stderr "Device %d does not support CUDA.\n" [.int dev]))
    else
      let s := s.emit (.fprintf_stderr "Using device %d: %s\n" [.int dev, .str (rt.name dev)])
      let s := s.emit (.cudaSetDevice dev)
      .returned ()
        { s with
          device := some dev
          cudaGaugePrecise := { s.cudaGaugePrecise with even := none, odd := none }
          cudaGaugeSloppy := { s.cudaGaugeSloppy with even := none, odd := none }
          hSpinor1 := { spinor := none, spinorNorm := none }
          hSpinor2 := { spinor := none, spinorNorm := none } }

/-- Embedding of `loadGaugeQuda(h_gauge, param)`. -/
def loadGaugeQuda (E : Extern V G) (L : Lattice) (h_gauge : G) (param : QudaGaugeParam)
    (s : QudaState V) : Outcome Unit (QudaState V) :=
  let s := { s with gauge_param := param }
  let s := s.emit .setCudaGaugeParam
  if s.gauge_param.X ≠ L.L1 ∨ s.gauge_param.Y ≠ L.L2 ∨ s.gauge_param.Z ≠ L.L3 ∨
      s.gauge_param.T ≠ L.L4 then
    .exited (-1)
      (s.emit (.printf "QUDA error: dimensions do not match: %d=%d, %d=%d, %d=%d, %d=%d\n"
        [.int s.gauge_param.X, .int L.L1, .int s.gauge_param.Y, .int L.L2,
         .int s.gauge_param.Z, .int L.L3, .int s.gauge_param.T, .int L.L4]))
  else
    let s := { s with gauge_param := { s.gauge_param with
      packed_size := if s.gauge_param.reconstruct_precise = .QUDA_RECONSTRUCT_8 then 8 else 12 } }
    let s := createGaugeField E .cudaGaugePrecise h_gauge s.gauge_param.reconstruct_precise
      s.gauge_param.cuda_prec_precise s
    let s := { s with gauge_param := { s.gauge_param with
      gaugeGiB := 2 * (s.cudaGaugePrecise.packedGaugeBytes : ℚ) / 2 ^ 30 } }
    if s.gauge_param.cuda_prec_sloppy ≠ s.gauge_param.cuda_prec_precise then
      let s := createGaugeField E .cudaGaugeSloppy h_gauge s.gauge_param.reconstruct_sloppy
        s.gauge_param.cuda_prec_sloppy s
      .returned () { s with gauge_param := { s.gauge_param with
        gaugeGiB := 2 * (s.cudaGaugeSloppy.packedGaugeBytes : ℚ) / 2 ^ 30 } }
    else
      .returned () { s with cudaGaugeSloppy := s.cudaGaugePrecise }

/-- Embedding of `endQuda()`. -/
def endQuda (O : ExternOps V) (s : QudaState V) : QudaState V :=
  let s := freeSpinorBuffer s
  let s := freeGaugeField O .cudaGaugePrecise s
  freeGaugeField O .cudaGaugeSloppy s

/-- Embedding of `dslashQuda(h_out, h_in, inv_param, parity, dagger)`; the
host output buffer `h_out` is the field `h_x` of the state. -/
def dslashQuda (E : Extern V G) (O : ExternOps V) (L : Lattice) (h_in : HostSpinor V)
    (inv_param : QudaInvertParam) (parity dagger : Int) (s : QudaState V) : QudaState V :=
  let (inp, s) := allocateParitySpinor inv_param.cuda_prec s
  let (out, s) := allocateParitySpinor inv_param.cuda_prec s
  let s := loadParitySpinor inp .h_in h_in s
  let (norm, s) := normCuda O inp (L.Nh * 24) s
  let s := s.emit (.printf "\nnorm = %e\n" [.real norm])
  let s := dslashCuda E out .cudaGaugePrecise inp parity dagger s
  let s := retrieveParitySpinor .h_out out s
  let s := freeParitySpinor out s
  freeParitySpinor inp s

/-- Embedding of `MatPCQuda(h_out, h_in, inv_param)`; the host output buffer
`h_out` is the field `h_x` of the state. -/
def MatPCQuda (O : ExternOps V) (h_in : HostSpinor V) (inv_param : QudaInvertParam)
    (s : QudaState V) : QudaState V :=
  let (inp, s) := allocateParitySpinor inv_param.cuda_prec s
  let (out, s) := allocateParitySpinor inv_param.cuda_prec s
  let (tmp, s) := allocateParitySpinor inv_param.cuda_prec s
  let s := loadParitySpinor inp .h_in h_in s
  let s := MatPCCuda O out .cudaGaugePrecise inp inv_param.kappa tmp inv_param.matpc_type s
  let s := retrieveParitySpinor .h_out out s
  let s := freeParitySpinor tmp s
  let s := freeParitySpinor out s
  freeParitySpinor inp s

/-- Embedding of `MatPCDagQuda(h_out, h_in, inv_param)`; the host output
buffer `h_out` is the field `h_x` of the state. -/
def MatPCDagQuda (E : Extern V G) (h_in : HostSpinor V) (inv_param : QudaInvertParam)
    (s : QudaState V) : QudaState V :=
  let (inp, s) := allocateParitySpinor inv_param.cuda_prec s
  let (out, s) := allocateParitySpinor inv_param.cuda_prec s
  let (tmp, s) := allocateParitySpinor inv_param.cuda_prec s
  let s := loadParitySpinor inp .h_in h_in s
  let s := MatPCDagCuda E out .cudaGaugePrecise inp inv_param.kappa tmp inv_param.matpc_type s
  let s := retrieveParitySpinor .h_out out s
  let s := freeParitySpinor tmp s
  let s := freeParitySpinor out s
  freeParitySpinor inp s

/-- Embedding of `MatPCDagMatPCQuda(h_out, h_in, inv_param)`; the host output
buffer `h_out` is the field `h_x` of the state. -/
def MatPCDagMatPCQuda (O : ExternOps V) (h_in : HostSpinor V) (inv_param : QudaInvertParam)
    (s : QudaState V) : QudaState V :=
  let (inp, s) := allocateParitySpinor inv_param.cuda_prec s
  let (out, s) := allocateParitySpinor inv_param.cuda_prec s
  let (tmp, s) := allocateParitySpinor inv_param.cuda_prec s
  let s := loadParitySpinor inp .h_in h_in s
  let s := MatPCDagMatPCCuda O out .cudaGaugePrecise inp inv_param.kappa tmp
    inv_param.matpc_type s
  let s := retrieveParitySpinor .h_out out s
  let s := freeParitySpinor tmp s
  let s := freeParitySpinor out s
  freeParitySpinor inp s

/-- Local variables of `invertQuda` (`inp` is the C variable `in`). `b` and
`x` are assigned only when the solution type is `QUDA_MAT_SOLUTION` and are
not read otherwise. -/
structure InvertLocals where
  kappa : ℚ
  slenh : Int
  inp : ParitySpinor
  out : ParitySpinor
  tmp : ParitySpinor
  b : FullSpinor
  x : FullSpinor

/-- Lines 250-268 of `invertQuda`: the size report, the zeroed counters and
the three work vectors. -/
def invertQuda_setup (L : Lattice) (s : QudaState V) : InvertLocals × QudaState V :=
  let param := s.invert_param
  let slenh := L.Nh * L.spinorSiteSize
  let spinorGiB : ℚ := (slenh : ℚ) * 4 / 2 ^ 30
  let spinorGiB :=
    if param.preserve_source = .QUDA_PRESERVE_SOURCE_NO then
      spinorGiB * (if param.inv_type = .QUDA_CG_INVERTER then 5 else 7)
    else
      spinorGiB * (if param.inv_type = .QUDA_CG_INVERTER then 8 else 9)
  let s := { s with invert_param := { s.invert_param with spinorGiB := spinorGiB } }
  let s := { s with invert_param := { s.invert_param with secs := 0 } }
  let s := { s with invert_param := { s.invert_param with gflops := 0 } }
  let s := { s with invert_param := { s.invert_param with iter := 0 } }
  let kappa := s.invert_param.kappa
  let (inp, s) := allocateParitySpinor s.invert_param.cuda_prec s
  let (out, s) := allocateParitySpinor s.invert_param.cuda_prec s
  let (tmp, s) := allocateParitySpinor s.invert_param.cuda_prec s
  ({ kappa := kappa, slenh := slenh, inp := inp, out := out, tmp := tmp,
     b := ⟨0, 0⟩, x := ⟨0, 0⟩ }, s)

/-- Lines 270-306 of `invertQuda`: load the host source and form the source
of the preconditioned system in `inp`. -/
def invertQuda_source [Add V] [SMul ℚ V] (E : Extern V G) (h_b : HostSpinor V)
    (l : InvertLocals) (s : QudaState V) : InvertLocals × QudaState V :=
  let param := s.invert_param
  if param.solution_type = .QUDA_MAT_SOLUTION then
    let (b, s) :=
      if param.preserve_source = .QUDA_PRESERVE_SOURCE_YES then
        let (be, s) := allocateParitySpinor s.invert_param.cuda_prec s
        let (bo, s) := allocateParitySpinor s.invert_param.cuda_prec s
        ((⟨be, bo⟩ : FullSpinor), s)
      else
        ((⟨l.out, l.tmp⟩ : FullSpinor), s)
    let x : FullSpinor :=
      if param.matpc_type = .QUDA_MATPC_EVEN_EVEN then ⟨l.out, l.tmp⟩ else ⟨l.tmp, l.out⟩
    let s := loadSpinorField b .h_b h_b s
    let s :=
      if param.mass_normalization = .QUDA_MASS_NORMALIZATION then
        axCuda (2 * l.kappa) b.odd (axCuda (2 * l.kappa) b.even s)
      else s
    let s :=
      if param.matpc_type = .QUDA_MATPC_EVEN_EVEN then
        dslashXpaySCuda E l.inp .cudaGaugePrecise b.odd 0 0 b.even l.kappa s
      else
        dslashXpaySCuda E l.inp .cudaGaugePrecise b.even 1 0 b.odd l.kappa s
    ({ l with b := b, x := x }, s)
  else if param.solution_type = .QUDA_MATPC_SOLUTION ∨
      param.solution_type = .QUDA_MATPCDAG_MATPC_SOLUTION then
    let s := loadParitySpinor l.inp .h_b h_b s
    let s :=
      if param.mass_normalization = .QUDA_MASS_NORMALIZATION then
        if param.solution_type = .QUDA_MATPC_SOLUTION then
          axCuda (4 * l.kappa * l.kappa) l.inp s
        else
          axCuda (16 * l.kappa ^ 4) l.inp s
      else s
    (l, s)
  else
    (l, s)

/-- Lines 308-326 of `invertQuda`: the solver switch. -/
def invertQuda_solve (E : Extern V G) (l : InvertLocals) (s : QudaState V) :
    Outcome Unit (QudaState V) :=
  let param := s.invert_param
  match param.inv_type with
  | .QUDA_CG_INVERTER =>
    let s :=
      if param.solution_type ≠ .QUDA_MATPCDAG_MATPC_SOLUTION then
        MatPCDagCuda E l.inp .cudaGaugePrecise l.out l.kappa l.tmp param.matpc_type
          (copyCuda l.out l.inp s)
      else s
    .returned () (invertCgCuda E l.out l.inp .cudaGaugeSloppy l.tmp s)
  | .QUDA_BICGSTAB_INVERTER =>
    let s :=
      if param.solution_type = .QUDA_MATPCDAG_MATPC_SOLUTION then
        copyCuda l.inp l.out
          (invertBiCGstabCuda E l.out l.inp .cudaGaugeSloppy .cudaGaugePrecise l.tmp
            .QUDA_DAG_YES s)
      else s
    .returned ()
      (invertBiCGstabCuda E l.out l.inp .cudaGaugeSloppy .cudaGaugePrecise l.tmp .QUDA_DAG_NO s)
  | .unlisted code =>
    .exited (-1) (s.emit (.printf "Inverter type %d not implemented\n" [.int code]))

/-- Lines 328-352 of `invertQuda`: rebuild the full solution (or hand back the
parity solution), copy it to the host and release the work vectors. -/
def invertQuda_solution [Add V] [SMul ℚ V] (E : Extern V G) (h_b : HostSpinor V)
    (l : InvertLocals) (s : QudaState V) : QudaState V :=
  let param := s.invert_param
  let s :=
    if param.solution_type = .QUDA_MAT_SOLUTION then
      let (l, s) :=
        if param.preserve_source = .QUDA_PRESERVE_SOURCE_NO then
          let l := { l with b := { l.b with even := l.inp } }
          (l, loadSpinorField l.b .h_b h_b s)
        else (l, s)
      let s :=
        if param.matpc_type = .QUDA_MATPC_EVEN_EVEN then
          dslashXpaySCuda E l.x.odd .cudaGaugePrecise l.out 1 0 l.b.odd l.kappa s
        else
          dslashXpaySCuda E l.x.even .cudaGaugePrecise l.out 0 0 l.b.even l.kappa s
      let s := retrieveSpinorField .h_x l.x s
      if param.preserve_source = .QUDA_PRESERVE_SOURCE_YES then freeSpinorField l.b s else s
    else
      retrieveParitySpinor .h_x l.out s
  let s := freeParitySpinor l.tmp s
  let s := freeParitySpinor l.inp s
  freeParitySpinor l.out s

/-- Embedding of `invertQuda(h_x, h_b, param)`; the host solution buffer is
the field `h_x` of the state. -/
def invertQuda [Add V] [SMul ℚ V] (E : Extern V G) (L : Lattice) (h_b : HostSpinor V)
    (param : QudaInvertParam) (s : QudaState V) : Outcome Unit (QudaState V) :=
  let s := { s with invert_param := param }
  if param.cuda_prec = .QUDA_DOUBLE_PRECISION then
    .exited (-1) (s.emit (.printf "Sorry, only double precision not yet supported\n" []))
  else if param.cpu_prec = .QUDA_HALF_PRECISION then
    .exited (-1) (s.emit (.printf "Half precision not supported on cpu\n" []))
  else
    let (l, s) := invertQuda_setup L s
    let (l, s) := invertQuda_source E h_b l s
    match invertQuda_solve E l s with
    | .exited code s => .exited code s
    | .returned _ s => .returned () (invertQuda_solution E h_b l s)

/-- Embedding of `MatQuda(h_out, h_in, inv_param)`; the host output buffer
`h_out` is the field `h_x` of the state. -/
def MatQuda [Add V] [SMul ℚ V] (E : Extern V G) (h_in : HostSpinor V)
    (inv_param : QudaInvertParam) (s : QudaState V) : QudaState V :=
  let (ie, s) := allocateParitySpinor inv_param.cuda_prec s
  let (io, s) := allocateParitySpinor inv_param.cuda_prec s
  let (oe, s) := allocateParitySpinor inv_param.cuda_prec s
  let (oo, s) := allocateParitySpinor inv_param.cuda_prec s
  let inp : FullSpinor := ⟨ie, io⟩
  let out : FullSpinor := ⟨oe, oo⟩
  let s := loadSpinorField inp .h_in h_in s
  let s := dslashCuda E out.odd .cudaGaugePrecise inp.even 1 0 s
  let s := dslashCuda E out.even .cudaGaugePrecise inp.odd 0 0 s
  let s := xpayCuda inp.even (-inv_param.kappa) out.even s
  let s := xpayCuda inp.odd (-inv_param.kappa) out.odd s
  let s := retrieveSpinorField .h_out out s
  let s := freeParitySpinor inp.even s
  let s := freeParitySpinor inp.odd s
  let s := freeParitySpinor out.even s
  freeParitySpinor out.odd s

/-- Embedding of `MatDagQuda(h_out, h_in, inv_param)`; the host output buffer
`h_out` is the field `h_x` of the state. -/
def MatDagQuda [Add V] [SMul ℚ V] (E : Extern V G) (h_in : HostSpinor V)
    (inv_param : QudaInvertParam) (s : QudaState V) : QudaState V :=
  let (ie, s) := allocateParitySpinor inv_param.cuda_prec s
  let (io, s) := allocateParitySpinor inv_param.cuda_prec s
  let (oe, s) := allocateParitySpinor inv_param.cuda_prec s
  let (oo, s) := allocateParitySpinor inv_param.cuda_prec s
  let inp : FullSpinor := ⟨ie, io⟩
  let out : FullSpinor := ⟨oe, oo⟩
  let s := loadSpinorField inp .h_in h_in s
  let s := dslashCuda E out.odd .cudaGaugePrecise inp.even 1 1 s
  let s := dslashCuda E out.even .cudaGaugePrecise inp.odd 0 1 s
  let s := xpayCuda inp.even (-inv_param.kappa) out.even s
  let s := xpayCuda inp.odd (-inv_param.kappa) out.odd s
  let s := retrieveSpinorField .h_out out s
  let s := freeParitySpinor inp.even s
  let s := freeParitySpinor inp.odd s
  let s := freeParitySpinor out.even s
  freeParitySpinor out.odd s

end InvertQuda

/-! ## `blas_test.c` -/

section BlasTest

variable {V : Type}

/-- What the benchmark driver gets from code defined elsewhere: the effect of
each vector kernel on the device spinors, the amount it adds to
`blas_quda_flops`, and the stopwatch reading after a given history. -/
structure BlasExtern (V : Type) where
  kernel : BlasKernel → (ParitySpinor → V) → (ParitySpinor → V)
  flops : BlasKernel → ℚ
  stopwatchReadSeconds : List Event → ℚ

/-- Globals of `blas_test.c` on top of the library state. -/
structure BlasTest (V : Type) where
  quda : QudaState V
  inv_param : QudaInvertParam
  x : ParitySpinor
  y : ParitySpinor
  z : ParitySpinor
  w : ParitySpinor
  v : ParitySpinor
  nIters : Int
  blas_quda_flops : ℚ

/-- Initial value of `nIters`. -/
def nIters_initial : Int := 1000

/-- The `case` labels of the switch in `benchmark`: the kernel a selector
stands for, `none` for the `default` label. -/
def benchmark_case (kernel : Int) : Option BlasKernel :=
  match kernel with
  | 0 => some .axpbyCuda
  | 1 => some .xpyCuda
  | 2 => some .axpyCuda
  | 3 => some .xpayCuda
  | 4 => some .mxpyCuda
  | 5 => some .axCuda
  | 6 => some .caxpyCuda
  | 7 => some .caxpbyCuda
  | 8 => some .cxpaypbzCuda
  | 9 => some .axpyZpbxCuda
  | 10 => some .caxpbypzYmbwCuda
  | 11 => some .sumCuda
  | 12 => some .normCuda
  | 13 => some .reDotProductCuda
  | 14 => some .axpyNormCuda
  | 15 => some .xmyNormCuda
  | 16 => some .cDotProductCuda
  | 17 => some .xpayDotzyCuda
  | 18 => some .cDotProductNormACuda
  | 19 => some .cDotProductNormBCuda
  | 20 => some .caxpbypzYmbwcDotProductWYNormYQuda
  | _ => none

/-- Append one event to the process trace. -/
def BlasTest.emit (t : BlasTest V) (e : Event) : BlasTest V :=
  { t with quda := t.quda.emit e }

/-- One kernel launch: recorded in the trace, applied to the device spinors,
counted in `blas_quda_flops`. -/
def BlasTest.launch (B : BlasExtern V) (k : BlasKernel) (t : BlasTest V) : BlasTest V :=
  { t with
    quda := { t.quda.emit (.blas k) with spinor := B.kernel k t.quda.spinor }
    blas_quda_flops := t.blas_quda_flops + B.flops k }

/-- The `for` loop of `benchmark` with `n` iterations left. -/
def benchmark_loop (B : BlasExtern V) (kernel : Int) :
    Nat → BlasTest V → Outcome Unit (BlasTest V)
  | 0, t => .returned () t
  | n + 1, t =>
    match benchmark_case kernel with
    | some k => benchmark_loop B kernel n (t.launch B k)
    | none =>
      .exited 1 (t.emit (.printf "Undefined blas kernel %d\n" [.int kernel]))

/-- Embedding of `benchmark(kernel)`. -/
def benchmark (B : BlasExtern V) (kernel : Int) (t : BlasTest V) : Outcome ℚ (BlasTest V) :=
  let t := t.emit .stopwatchStart
  match benchmark_loop B kernel t.nIters.toNat t with
  | .exited code t => .exited code t
  | .returned _ t =>
    let secs := B.stopwatchReadSeconds t.quda.trace / t.nIters
    .returned secs (t.emit .stopwatchReadSeconds)

/-- Embedding of `init()`. -/
def init (rt : CudaRuntime) (t : BlasTest V) : Outcome Unit (BlasTest V) :=
  let t := { t with inv_param := { t.inv_param with cpu_prec := .QUDA_DOUBLE_PRECISION } }
  let t := { t with inv_param := { t.inv_param with cuda_prec := .QUDA_HALF_PRECISION } }
  let t := { t with inv_param := { t.inv_param with verbosity := .QUDA_VERBOSE } }
  let t := { t with quda := { t.quda with invert_param := t.inv_param } }
  let dev : Int := 0
  match initQuda rt dev t.quda with
  | .exited code q => .exited code { t with quda := q }
  | .returned _ q =>
    let (v, q) := allocateParitySpinor t.inv_param.cuda_prec q
    let (w, q) := allocateParitySpinor t.inv_param.cuda_prec q
    let (x, q) := allocateParitySpinor t.inv_param.cuda_prec q
    let (y, q) := allocateParitySpinor t.inv_param.cuda_prec q
    let (z, q) := allocateParitySpinor t.inv_param.cuda_prec q
    .returned () { t with quda := q, v := v, w := w, x := x, y := y, z := z }

/-- The array `kernels` of `main`. -/
def kernels : List Int :=
  [0, 1, 2, 3, 4, 5, 6, 7, 8, 9, 10, 11, 12, 13, 14, 15, 16, 17, 18, 19, 20]

/-- Upper bound of both loops of `main`. -/
def main_loop_bound : Nat := 19

/-- The warm-up loop of `main` over the indices in `is`. -/
def main_warmup (B : BlasExtern V) : List Nat → BlasTest V → Outcome Unit (BlasTest V)
  | [], t => .returned () t
  | i :: is, t =>
    match benchmark B (kernels.getD i 0) t with
    | .exited code t => .exited code t
    | .returned _ t => main_warmup B is t

/-- The timed loop of `main` over the indices in `is`. -/
def main_timed (B : BlasExtern V) : List Nat → BlasTest V → Outcome Unit (BlasTest V)
  | [], t => .returned () t
  | i :: is, t =>
    let t := { t with blas_quda_flops := 0 }
    match benchmark B (kernels.getD i 0) t with
    | .exited code t => .exited code t
    | .returned secs t =>
      let flops := t.blas_quda_flops / t.nIters
      let t := t.emit (.printf "Average time: %f s, flops = %e, Gflops/s = %f\n"
        [.real secs, .real flops, .real (flops / secs * (1 / 10 ^ 9))])
      main_timed B is t

/-- Embedding of `main`. -/
def main (rt : CudaRuntime) (B : BlasExtern V) (t : BlasTest V) : Outcome Int (BlasTest V) :=
  match init rt t with
  | .exited code t => .exited code t
  | .returned _ t =>
    let t := { t with nIters := 1 }
    match main_warmup B (List.range main_loop_bound) t with
    | .exited code t => .exited code t
    | .returned _ t =>
      let t := { t with nIters := 1000 }
      match main_timed B (List.range main_loop_bound) t with
      | .exited code t => .exited code t
      | .returned _ t => .returned 0 t

end BlasTest

/-! ## `blas_param.h` -/

/-- The table `blas_threads[23][3]`: one row per kernel id, one entry per
precision class. -/
def blas_threads : List (List Int) :=
  [[64, 96, 64], [96, 992, 64], [128, 128, 128], [128, 128, 128], [128, 128, 128],
   [128, 128, 128], [128, 128, 128], [192, 224, 160], [128, 128, 128], [128, 160, 96],
   [128, 96, 96], [96, 64, 64], [64, 64, 64], [64, 96, 64], [256, 256, 256],
   [128, 128, 128], [128, 256, 128], [128, 256, 128], [128, 128, 128], [128, 128, 128],
   [128, 128, 128], [128, 128, 128], [128, 128, 256]]

/-- The table `blas_blocks[23][3]`. -/
def blas_blocks : List (List Int) :=
  [[2048, 2048, 16384], [32768, 65536, 8192], [1024, 4096, 8192], [1024, 4096, 32768],
   [1024, 4096, 32768], [1024, 4096, 32768], [1024, 4096, 16384], [1024, 2048, 16384],
   [1024, 4096, 32768], [1024, 4096, 65536], [1024, 65536, 16384], [2048, 8192, 8192],
   [2048, 8192, 8192], [2048, 32768, 16384], [64, 64, 64], [256, 64, 64], [512, 64, 64],
   [64, 64, 64], [256, 64, 64], [64, 64, 64], [64, 64, 64], [64, 64, 64], [128, 64, 256]]

/-! ## `blas_3d.h`

The header only declares the timeslice operations. A 4-d field is the list of
its timeslices, a 3-d field is the content of one timeslice. -/

namespace blas3d

/-- The enum `copyType`. -/
inductive copyType where
  | COPY_TO_3D
  | COPY_FROM_3D
  | SWAP_3D
  deriving DecidableEq, Repr

/-- Modelled from the spec: `blas3d::copy(slice, type, x, y)` is declared but
not defined in the embedded files. Between the 3-d field `x` and the 4-d field
`y` it extracts timeslice `slice` of `y` into `x` (`COPY_TO_3D`), inserts `x`
as timeslice `slice` of `y` (`COPY_FROM_3D`), or exchanges the two
(`SWAP_3D`). The result is the pair of fields after the call; for a slice
outside `y` both are left as they were. -/
def copy {W : Type} (slice : Nat) (type : copyType) (x : W) (y : List W) : W × List W :=
  match type with
  | .COPY_TO_3D => (y.getD slice x, y)
  | .COPY_FROM_3D => (x, y.set slice x)
  | .SWAP_3D => (y.getD slice x, y.set slice x)

/-- Modelled from the spec: `blas3d::swap(slice, x, y)` is declared but not
defined in the embedded files. It exchanges timeslice `slice` of the field `x`
with timeslice `slice` of the field `y`, in place; for a slice outside either
field both are left as they were. -/
def swap {W : Type} (slice : Nat) (x y : List W) : List W × List W :=
  match x.get? slice, y.get? slice with
  | some a, some b => (x.set slice b, y.set slice a)
  | _, _ => (x, y)

end blas3d

/-! ## Vocabulary of the statements -/

section Vocabulary

variable {V G : Type}

/-- Calls of a Krylov solver. -/
def Event.isSolverCall : Event → Bool
  | .invertCgCuda .. => true
  | .invertBiCGstabCuda .. => true
  | _ => false

/-- Prints to standard output. -/
def Event.isStdout : Event → Bool
  | .printf .. => true
  | _ => false

/-- Prints to the error stream. -/
def Event.isStderr : Event → Bool
  | .fprintf_stderr .. => true
  | _ => false

/-- State and locals of `invertQuda` on entry to the solver switch, for a
parameter block that passed the precision checks. -/
def invertQuda_prepared [Add V] [SMul ℚ V] (E : Extern V G) (L : Lattice) (h_b : HostSpinor V)
    (param : QudaInvertParam) (s : QudaState V) : InvertLocals × QudaState V :=
  let r := invertQuda_setup L { s with invert_param := param }
  invertQuda_source E h_b r.1 r.2

/-- Modelled from the spec: the even-odd preconditioned operator
`1 - kappa^2 D D` on the solved parity, built from the single-parity operator
`D parity` (`D 0` yields an even vector, `D 1` an odd one); the even parity is
solved for `QUDA_MATPC_EVEN_EVEN`, the odd parity otherwise. -/
def MatPC [Sub V] [SMul ℚ V] (D : Int → V → V) (kappa : ℚ) (matpc_type : QudaMatPCType)
    (v : V) : V :=
  if matpc_type = .QUDA_MATPC_EVEN_EVEN then v - kappa ^ 2 • D 0 (D 1 v)
  else v - kappa ^ 2 • D 1 (D 0 v)

/-- The configuration fields that `invertQuda` reads again after the solver
has returned are the same in both blocks. -/
def SameConfig (p q : QudaInvertParam) : Prop :=
  q.solution_type = p.solution_type ∧ q.preserve_source = p.preserve_source ∧
    q.matpc_type = p.matpc_type ∧ q.inv_type = p.inv_type

/-- Kernel launches of the benchmark driver. -/
def Event.isBlas : Event → Bool
  | .blas _ => true
  | _ => false

/-- The trace `new` extends the trace `old` by events that all satisfy `P`. -/
def TraceGrows (P : Event → Prop) (old new : List Event) : Prop :=
  ∃ added, new = old ++ added ∧ ∀ e ∈ added, P e

/-- Events other than a launch of the kernels behind selectors 19 and 20. -/
def Event.notKernel19or20 (e : Event) : Prop :=
  e ≠ .blas .cDotProductNormBCuda ∧ e ≠ .blas .caxpbypzYmbwcDotProductWYNormYQuda

/-- The calls `MatQuda` (`dagger = 0`) and `MatDagQuda` (`dagger = 1`) make,
in order, when the next free handle is `brk`. -/
def Mat_calls (brk : ParitySpinor) (precision : Precision) (kappa : ℚ) (dagger : Int) :
    List Event :=
  [.allocateParitySpinor brk precision,
   .allocateParitySpinor (brk + 1) precision,
   .allocateParitySpinor (brk + 2) precision,
   .allocateParitySpinor (brk + 3) precision,
   .loadSpinorField ⟨brk, brk + 1⟩ .h_in,
   .dslashCuda (brk + 3) .cudaGaugePrecise brk 1 dagger,
   .dslashCuda (brk + 2) .cudaGaugePrecise (brk + 1) 0 dagger,
   .xpayCuda brk (-kappa) (brk + 2),
   .xpayCuda (brk + 1) (-kappa) (brk + 3),
   .retrieveSpinorField .h_out ⟨brk + 2, brk + 3⟩,
   .freeParitySpinor brk, .freeParitySpinor (brk + 1),
   .freeParitySpinor (brk + 2), .freeParitySpinor (brk + 3)]

/-- Every configuration field of the block `q` has the value it has in `p`. -/
def ConfigEq (p q : QudaInvertParam) : Prop :=
  q.kappa = p.kappa ∧ q.tol = p.tol ∧ q.maxiter = p.maxiter ∧ q.inv_type = p.inv_type ∧
  q.solution_type = p.solution_type ∧ q.matpc_type = p.matpc_type ∧
  q.mass_normalization = p.mass_normalization ∧ q.preserve_source = p.preserve_source ∧
  q.cpu_prec = p.cpu_prec ∧ q.cuda_prec = p.cuda_prec ∧ q.dirac_order = p.dirac_order ∧
  q.verbosity = p.verbosity

/-- Calls of the scaling kernel `axCuda`. -/
def Event.isAxCuda : Event → Bool
  | .axCuda .. => true
  | _ => false

/-- The source of the preconditioned system: the contents of `in` on entry to
the solver switch of `invertQuda`. -/
def invertQuda_preparedSource [Add V] [SMul ℚ V] (E : Extern V G) (L : Lattice)
    (h_b : HostSpinor V) (param : QudaInvertParam) (s : QudaState V) : V :=
  (invertQuda_prepared E L h_b param s).2.spinor (invertQuda_prepared E L h_b param s).1.inp

/-- The full source as held on the device on entry to the solver switch of
`invertQuda`: the contents of `b.even` and `b.odd`. -/
def invertQuda_loadedSource [Add V] [SMul ℚ V] (E : Extern V G) (L : Lattice)
    (h_b : HostSpinor V) (param : QudaInvertParam) (s : QudaState V) : HostSpinor V :=
  ⟨(invertQuda_prepared E L h_b param s).2.spinor (invertQuda_prepared E L h_b param s).1.b.even,
   (invertQuda_prepared E L h_b param s).2.spinor (invertQuda_prepared E L h_b param s).1.b.odd⟩

/-- Lines 310-313 of `invertQuda`: the state in which `invertCgCuda` is
called, after the normal-equation preparation. -/
def invertQuda_cgEntry (E : Extern V G) (l : InvertLocals) (s : QudaState V) : QudaState V :=
  if s.invert_param.solution_type ≠ .QUDA_MATPCDAG_MATPC_SOLUTION then
    MatPCDagCuda E l.inp .cudaGaugePrecise l.out l.kappa l.tmp s.invert_param.matpc_type
      (copyCuda l.out l.inp s)
  else s

/-- Whether a solver call is handed the resident gauge field `r`. -/
def Event.givenGauge (r : GaugeRef) : Event → Bool
  | .invertCgCuda _ _ g _ => g == r
  | .invertBiCGstabCuda _ _ gS gP _ _ => gS == r || gP == r
  | _ => false

/-- The gauge fields the solver calls of `invertQuda` are handed: both for
BiCGstab, the sloppy one only for CG; other events are unconstrained. -/
def Event.solverGaugesAsCoded : Event → Prop
  | .invertCgCuda _ _ g _ => g = .cudaGaugeSloppy
  | .invertBiCGstabCuda _ _ gS gP _ _ => gS = .cudaGaugeSloppy ∧ gP = .cudaGaugePrecise
  | _ => True

/-- Gauge field handed to an operator application that is not a solver call;
`none` for every other event. -/
def Event.operatorGauge : Event → Option GaugeRef
  | .dslashCuda _ g _ _ _ => some g
  | .dslashXpaySCuda _ g _ _ _ _ _ => some g
  | .MatPCDagCuda _ g _ _ _ _ => some g
  | .MatPCCuda _ g _ _ _ _ => some g
  | .MatPCDagMatPCCuda _ g _ _ _ _ => some g
  | _ => none

/-- An operator application is handed the precise gauge field; events that are
not operator applications qualify trivially. -/
def Event.usesPreciseGauge (e : Event) : Prop :=
  ∀ g, e.operatorGauge = some g → g = .cudaGaugePrecise

/-- Parity of the data each device spinor currently holds (0 even, 1 odd), as
far as it is known. -/
abbrev ParityMap := ParitySpinor → Option Int

/-- One step of the parity bookkeeping. A full-field load puts even data in
`b.even` and odd data in `b.odd`; a single-direction operator application with
parity argument `p` must read data of parity `1 - p` and leaves data of parity
`p` in its output, and the vector added in `dslashXpaySCuda` must hold data of
parity `p` too; `xpayCuda` must combine two vectors of one parity; a copy, the
preconditioned operator and a solver hand the parity of their input on to
their output and a scratch vector holds nothing known afterwards; a full-field
retrieve must find even data in `x.even` and odd data in `x.odd`. `none` is a
violated requirement. -/
def parityStep (m : ParityMap) : Event → Option ParityMap
  | .loadSpinorField b _ =>
      some (Function.update (Function.update m b.even (some 0)) b.odd (some 1))
  | .loadParitySpinor d _ => some (Function.update m d none)
  | .copyCuda dst src => some (Function.update m dst (m src))
  | .dslashCuda out _ inp p _ =>
      if m inp = some (1 - p) then some (Function.update m out (some p)) else none
  | .dslashXpaySCuda out _ inp p _ x _ =>
      if m inp = some (1 - p) ∧ m x = some p then some (Function.update m out (some p))
      else none
  | .xpayCuda x _ y => if m x = m y ∧ m y ≠ none then some m else none
  | .MatPCDagCuda out _ inp _ tmp _ =>
      some (Function.update (Function.update m tmp none) out (m inp))
  | .invertCgCuda out inp _ tmp =>
      some (Function.update (Function.update m tmp none) out (m inp))
  | .invertBiCGstabCuda out inp _ _ tmp _ =>
      some (Function.update (Function.update m tmp none) out (m inp))
  | .retrieveSpinorField _ x => if m x.even = some 0 ∧ m x.odd = some 1 then some m else none
  | _ => some m

/-- Run the parity bookkeeping over a list of events, in order. -/
def parityReplay : List Event → ParityMap → Option ParityMap
  | [], m => some m
  | e :: es, m =>
      match parityStep m e with
      | some m => parityReplay es m
      | none => none

/-- Every operator application in the list met its parity requirements, when
nothing is known about the device contents beforehand. -/
def ParityConsistent (es : List Event) : Prop :=
  (parityReplay es (fun _ => none)).isSome = true

/-- Parities the variables of `invertQuda` are declared with, as pairs of the
handle a variable holds and its parity: `b.even` and `x.even` are even,
`b.odd` and `x.odd` are odd, and `in` and `out` belong to the parity that is
solved for (even for `QUDA_MATPC_EVEN_EVEN`, odd otherwise). -/
def declaredParities (p : QudaInvertParam) (l : InvertLocals) : List (ParitySpinor × Int) :=
  [(l.b.even, 0), (l.b.odd, 1), (l.x.even, 0), (l.x.odd, 1),
   (l.inp, if p.matpc_type = .QUDA_MATPC_EVEN_EVEN then 0 else 1),
   (l.out, if p.matpc_type = .QUDA_MATPC_EVEN_EVEN then 0 else 1)]

/-- A single-direction operator application with parity argument `p` reads a
variable declared with parity `1 - p` and writes one declared with parity `p`,
and the vector `dslashXpaySCuda` adds is declared with parity `p` as well;
other events qualify trivially. -/
def Event.parityDeclared (names : List (ParitySpinor × Int)) : Event → Prop
  | .dslashCuda out _ inp p _ => (inp, 1 - p) ∈ names ∧ (out, p) ∈ names
  | .dslashXpaySCuda out _ inp p _ x _ =>
      (inp, 1 - p) ∈ names ∧ (out, p) ∈ names ∧ (x, p) ∈ names
  | _ => True

/-- Locals of `invertQuda` at the reconstruction (line 336 on): without source
preservation `b.even` has been pointed at `in`. -/
def solution_locals (p : QudaInvertParam) (l : InvertLocals) : InvertLocals :=
  if p.solution_type = .QUDA_MAT_SOLUTION ∧
      p.preserve_source = .QUDA_PRESERVE_SOURCE_NO then
    { l with b := { l.b with even := l.inp } }
  else l

/-- Host buffer a call reads: the one handed to a load; `none` for every other
event. -/
def Event.hostRead : Event → Option HostRef
  | .loadSpinorField _ r => some r
  | .loadParitySpinor _ r => some r
  | _ => none

/-- Host buffer a call writes: the one handed to a retrieve; `none` for every
other event. -/
def Event.hostWritten : Event → Option HostRef
  | .retrieveSpinorField r _ => some r
  | .retrieveParitySpinor r _ => some r
  | _ => none

/-- The only host buffer the event reads, if any, is `read` and the only one
it writes, if any, is `written`. -/
def Event.hostAccess (read written : HostRef) (e : Event) : Prop :=
  (∀ r, e.hostRead = some r → r = read) ∧ (∀ r, e.hostWritten = some r → r = written)

/-- Calls that read a host spinor buffer. -/
def Event.isHostRead : Event → Bool
  | .loadSpinorField _ _ => true
  | .loadParitySpinor _ _ => true
  | _ => false

/-- Calls that write a host spinor buffer. -/
def Event.isHostWrite : Event → Bool
  | .retrieveSpinorField _ _ => true
  | .retrieveParitySpinor _ _ => true
  | _ => false

/-- At most one call in the list writes a host buffer, and no call after it
reads or writes one. -/
def hostWriteLast : List Event → Bool
  | [] => true
  | e :: es =>
      if e.isHostWrite then es.all (fun e => !e.isHostRead && !e.isHostWrite)
      else hostWriteLast es

/-- Handles an event allocates. -/
def Event.allocated : Event → List ParitySpinor
  | .allocateParitySpinor h _ => [h]
  | _ => []

/-- Handles an event frees; `freeSpinorField` frees both parities of a field. -/
def Event.freed : Event → List ParitySpinor
  | .freeParitySpinor h => [h]
  | .freeSpinorField b => [b.even, b.odd]
  | _ => []

/-- Every handle the events allocate is distinct and freed exactly once by
them, and they free nothing else. -/
def AllocFreeBalanced (es : List Event) : Prop :=
  (es.flatMap Event.allocated).Nodup ∧
    ∀ h, (es.flatMap Event.freed).count h = (es.flatMap Event.allocated).count h

/-- Device addresses a resident gauge field holds. -/
def gaugeStorage (g : FullGauge) : List Nat :=
  g.even.toList ++ g.odd.toList

/-- Device addresses handed to `freeGaugeField` in the course of `endQuda`:
those of `cudaGaugePrecise` at the first call followed by those of
`cudaGaugeSloppy` at the second. -/
def endQuda_freed (O : ExternOps V) (s : QudaState V) : List Nat :=
  let s1 := freeSpinorBuffer s
  let s2 := freeGaugeField O .cudaGaugePrecise s1
  gaugeStorage s1.cudaGaugePrecise ++ gaugeStorage s2.cudaGaugeSloppy

/-- Locals of `invertQuda` after lines 250-268 when `brk` was the first unused
handle. -/
def setup_locals (L : Lattice) (p : QudaInvertParam) (brk : ParitySpinor) : InvertLocals :=
  { kappa := p.kappa, slenh := L.Nh * L.spinorSiteSize, inp := brk, out := brk + 1,
    tmp := brk + 2, b := ⟨0, 0⟩, x := ⟨0, 0⟩ }

/-- Locals of `invertQuda` after lines 270-306, from those before and the first
unused handle. -/
def source_locals (p : QudaInvertParam) (l : InvertLocals) (brk : ParitySpinor) :
    InvertLocals :=
  if p.solution_type = .QUDA_MAT_SOLUTION then
    { l with
      b := if p.preserve_source = .QUDA_PRESERVE_SOURCE_YES then ⟨brk, brk + 1⟩
           else ⟨l.out, l.tmp⟩
      x := if p.matpc_type = .QUDA_MATPC_EVEN_EVEN then ⟨l.out, l.tmp⟩ else ⟨l.tmp, l.out⟩ }
  else l

/-- Calls made by lines 270-306 of `invertQuda`. -/
def source_calls (p : QudaInvertParam) (l : InvertLocals) (brk : ParitySpinor) : List Event :=
  let b := (source_locals p l brk).b
  if p.solution_type = .QUDA_MAT_SOLUTION then
    (if p.preserve_source = .QUDA_PRESERVE_SOURCE_YES then
      [.allocateParitySpinor brk p.cuda_prec, .allocateParitySpinor (brk + 1) p.cuda_prec]
     else []) ++
    [.loadSpinorField b .h_b] ++
    (if p.mass_normalization = .QUDA_MASS_NORMALIZATION then
      [.axCuda (2 * l.kappa) b.even, .axCuda (2 * l.kappa) b.odd]
     else []) ++
    [if p.matpc_type = .QUDA_MATPC_EVEN_EVEN then
      .dslashXpaySCuda l.inp .cudaGaugePrecise b.odd 0 0 b.even l.kappa
     else .dslashXpaySCuda l.inp .cudaGaugePrecise b.even 1 0 b.odd l.kappa]
  else if p.solution_type = .QUDA_MATPC_SOLUTION ∨
      p.solution_type = .QUDA_MATPCDAG_MATPC_SOLUTION then
    [.loadParitySpinor l.inp .h_b] ++
    (if p.mass_normalization = .QUDA_MASS_NORMALIZATION then
      [if p.solution_type = .QUDA_MATPC_SOLUTION then .axCuda (4 * l.kappa * l.kappa) l.inp
       else .axCuda (16 * l.kappa ^ 4) l.inp]
     else [])
  else []

/-- Calls made by lines 308-326 of `invertQuda`. -/
def solve_calls (p : QudaInvertParam) (l : InvertLocals) : List Event :=
  match p.inv_type with
  | .QUDA_CG_INVERTER =>
    (if p.solution_type ≠ .QUDA_MATPCDAG_MATPC_SOLUTION then
      [.copyCuda l.out l.inp,
       .MatPCDagCuda l.inp .cudaGaugePrecise l.out l.kappa l.tmp p.matpc_type]
     else []) ++
    [.invertCgCuda l.out l.inp .cudaGaugeSloppy l.tmp]
  | .QUDA_BICGSTAB_INVERTER =>
    (if p.solution_type = .QUDA_MATPCDAG_MATPC_SOLUTION then
      [.invertBiCGstabCuda l.out l.inp .cudaGaugeSloppy .cudaGaugePrecise l.tmp .QUDA_DAG_YES,
       .copyCuda l.inp l.out]
     else []) ++
    [.invertBiCGstabCuda l.out l.inp .cudaGaugeSloppy .cudaGaugePrecise l.tmp .QUDA_DAG_NO]
  | .unlisted code => [.printf "Inverter type %d not implemented\n" [.int code]]

/-- Calls made by lines 328-352 of `invertQuda`. -/
def solution_calls (p : QudaInvertParam) (l : InvertLocals) : List Event :=
  let b : FullSpinor :=
    if p.preserve_source = .QUDA_PRESERVE_SOURCE_NO then { l.b with even := l.inp } else l.b
  (if p.solution_type = .QUDA_MAT_SOLUTION then
    (if p.preserve_source = .QUDA_PRESERVE_SOURCE_NO then [.loadSpinorField b .h_b] else []) ++
    [if p.matpc_type = .QUDA_MATPC_EVEN_EVEN then
      .dslashXpaySCuda l.x.odd .cudaGaugePrecise l.out 1 0 b.odd l.kappa
     else .dslashXpaySCuda l.x.even .cudaGaugePrecise l.out 0 0 b.even l.kappa,
     .retrieveSpinorField .h_x l.x] ++
    (if p.preserve_source = .QUDA_PRESERVE_SOURCE_YES then [.freeSpinorField b] else [])
   else [.retrieveParitySpinor .h_x l.out]) ++
  [.freeParitySpinor l.tmp, .freeParitySpinor l.inp, .freeParitySpinor l.out]

/-- Calls made by `invertQuda` once the precision checks have passed, when
`brk` was the first unused handle: the three work vectors, then the source,
the solver switch and, unless the switch terminated the process, the
solution. -/
def invertQuda_calls (L : Lattice) (p : QudaInvertParam) (brk : ParitySpinor) : List Event :=
  let l0 := setup_locals L p brk
  let l1 := source_locals p l0 (brk + 3)
  [.allocateParitySpinor brk p.cuda_prec, .allocateParitySpinor (brk + 1) p.cuda_prec,
   .allocateParitySpinor (brk + 2) p.cuda_prec] ++
  source_calls p l0 (brk + 3) ++ solve_calls p l1 ++
  (match p.inv_type with
   | .unlisted _ => []
   | _ => solution_calls p l1)

/-- Calls made by `dslashQuda`. -/
def dslashQuda_calls (L : Lattice) (brk : ParitySpinor) (precision : Precision)
    (norm : ℚ) (parity dagger : Int) : List Event :=
  [.allocateParitySpinor brk precision,
   .allocateParitySpinor (brk + 1) precision,
   .loadParitySpinor brk .h_in,
   .normCuda brk (L.Nh * 24),
   .printf "\nnorm = %e\n" [.real norm],
   .dslashCuda (brk + 1) .cudaGaugePrecise brk parity dagger,
   .retrieveParitySpinor .h_out (brk + 1),
   .freeParitySpinor (brk + 1), .freeParitySpinor brk]

/-- Calls made by `MatPCQuda`, `MatPCDagQuda` and `MatPCDagMatPCQuda`, given
the event of the operator call. -/
def MatPC_calls (brk : ParitySpinor) (precision : Precision) (op : Event) : List Event :=
  [.allocateParitySpinor brk precision,
   .allocateParitySpinor (brk + 1) precision,
   .allocateParitySpinor (brk + 2) precision,
   .loadParitySpinor brk .h_in,
   op,
   .retrieveParitySpinor .h_out (brk + 1),
   .freeParitySpinor (brk + 2), .freeParitySpinor (brk + 1), .freeParitySpinor brk]

/-- The external operator and solvers compute their result vector from the
gauge fields, the source vector and the configuration alone: not from what the
result and scratch buffers held on entry, nor from the fields
`preserve_source` and `spinorGiB` of the parameter block. -/
def SolverOblivious (E : Extern V G) : Prop :=
  (∀ g kappa m o o' v t t',
    (E.MatPCDagCuda g kappa m o' v t').1 = (E.MatPCDagCuda g kappa m o v t).1) ∧
  (∀ g (p : QudaInvertParam) ps gib o o' v t t',
    (E.invertCgCuda g { p with preserve_source := ps, spinorGiB := gib } o' v t').out =
      (E.invertCgCuda g p o v t).out) ∧
  (∀ gS gP (p : QudaInvertParam) ps gib d o o' v t t',
    (E.invertBiCGstabCuda gS gP { p with preserve_source := ps, spinorGiB := gib } d
      o' v t').out = (E.invertBiCGstabCuda gS gP p d o v t).out)

end Vocabulary

/-! ## Concrete instances -/

section Instances

/-- A parameter block: BiCGstab, full solution, source not preserved. -/
def param0 : QudaInvertParam :=
  { kappa := 1 / 2
    mass_normalization := .unlisted 0
    inv_type := .QUDA_BICGSTAB_INVERTER
    tol := 1 / 1000000
    iter := 7
    maxiter := 1000
    matpc_type := .QUDA_MATPC_EVEN_EVEN
    solution_type := .QUDA_MAT_SOLUTION
    preserve_source := .QUDA_PRESERVE_SOURCE_NO
    cpu_prec := .QUDA_DOUBLE_PRECISION
    cuda_prec := .QUDA_SINGLE_PRECISION
    dirac_order := 0
    spinorGiB := 0
    gflops := 3
    secs := 5
    verbosity := .QUDA_VERBOSE }

/-- A gauge parameter block for a 4x4x4x8 lattice. -/
def gparam0 : QudaGaugeParam :=
  { X := 4, Y := 4, Z := 4, T := 8
    anisotropy := 1
    gauge_order := 0
    cpu_prec := .QUDA_DOUBLE_PRECISION
    cuda_prec_precise := .QUDA_SINGLE_PRECISION
    reconstruct_precise := .unlisted 12
    cuda_prec_sloppy := .QUDA_HALF_PRECISION
    reconstruct_sloppy := .QUDA_RECONSTRUCT_8
    gauge_fix := 0
    t_boundary := 1
    packed_size := 0
    gaugeGiB := 0 }

/-- A 4x4x4x8 lattice configuration. -/
def lattice0 : Lattice :=
  { L1 := 4, L2 := 4, L3 := 4, L4 := 8, Nh := 256, spinorSiteSize := 24 }

/-- A library state with one-component parity vectors. -/
def state0 : QudaState ℚ :=
  { cudaGaugePrecise := ⟨some 1, some 2, 1024⟩
    cudaGaugeSloppy := ⟨some 3, some 4, 512⟩
    hSpinor1 := ⟨none, none⟩
    hSpinor2 := ⟨none, none⟩
    gauge_param := gparam0
    invert_param := param0
    device := some 0
    spinor := fun _ => 0
    brk := 0
    h_x := ⟨0, 0⟩
    trace := [] }

/-- External code on one-component vectors: `D` is the identity, so the
preconditioned operator at `kappa` is multiplication by `1 - kappa^2`, and the
solvers invert it exactly. -/
def extern0 : Extern ℚ Unit :=
  { createGaugeField := fun _ r p _ =>
      ⟨some 10, some 11, if r = .QUDA_RECONSTRUCT_8 then (if p = .QUDA_HALF_PRECISION then 8 else 16)
        else 24⟩
    dslash := fun _ _ _ v => v
    MatPCDagCuda := fun _ kappa _ _ inp _ => ((1 - kappa ^ 2) * inp, inp)
    invertCgCuda := fun _ p _ inp tmp =>
      ⟨inp / ((1 - p.kappa ^ 2) * (1 - p.kappa ^ 2)), inp, tmp, p.iter + 1, p.secs, p.gflops⟩
    invertBiCGstabCuda := fun _ _ p _ _ inp tmp =>
      ⟨inp / (1 - p.kappa ^ 2), inp, tmp, p.iter + 1, p.secs, p.gflops⟩ }

/-- A CUDA runtime with two capable devices. -/
def runtime0 : CudaRuntime :=
  { deviceCount := 2, major := fun _ => 1, name := fun _ => "device" }

/-- A benchmark driver state before `main` runs. -/
def blas0 : BlasTest ℚ :=
  { quda := state0, inv_param := param0, x := 0, y := 0, z := 0, w := 0, v := 0,
    nIters := nIters_initial, blas_quda_flops := 0 }

/-- External kernels for the benchmark driver: they leave the vectors alone,
count 48 flops a call and the stopwatch reads one second per recorded event. -/
def blasExtern0 : BlasExtern ℚ :=
  { kernel := fun _ m => m, flops := fun _ => 48, stopwatchReadSeconds := fun tr => tr.length }

/-- The block `param0` with the CG solver selected. -/
def param0_cg : QudaInvertParam := { param0 with inv_type := .QUDA_CG_INVERTER }

/-- The block `param0` asking for the preconditioned solution with mass
normalisation. -/
def param0_mass : QudaInvertParam :=
  { param0 with
    mass_normalization := .QUDA_MASS_NORMALIZATION
    solution_type := .QUDA_MATPC_SOLUTION }

/-- Further external code on one-component vectors, matching `extern0`;
`freeGaugeField` leaves `NULL` pointers behind. -/
def ops0 : ExternOps ℚ :=
  { MatPCCuda := fun _ kappa _ _ inp _ => ((1 - kappa ^ 2) * inp, inp)
    MatPCDagMatPCCuda := fun _ kappa _ _ inp _ => ((1 - kappa ^ 2) * (1 - kappa ^ 2) * inp, inp)
    normCuda := fun v => v * v
    freeGaugeField := fun g => { g with even := none, odd := none } }

/-- A block asking for the full solution with mass normalisation at
`kappa = 1/4`, source not preserved. -/
def param0_massNo : QudaInvertParam :=
  { param0 with kappa := 1 / 4, mass_normalization := .QUDA_MASS_NORMALIZATION }

/-- The block `param0_massNo` with the source preserved. -/
def param0_massYes : QudaInvertParam :=
  { param0_massNo with preserve_source := .QUDA_PRESERVE_SOURCE_YES }

/-- The block `gparam0` with one precision for both resident fields. -/
def gparam0_same : QudaGaugeParam :=
  { gparam0 with cuda_prec_sloppy := .QUDA_SINGLE_PRECISION }

/-- The block `param0` with a solution type outside the enumeration. -/
def param0_unlisted : QudaInvertParam := { param0 with solution_type := .unlisted 7 }

end Instances

/-! ## Theorems -/

section Theorems

variable {V G : Type}

/-! ### Projections of the primitives and phases -/

@[simp] theorem emit_trace (s : QudaState V) (e : Event) : (s.emit e).trace = s.trace ++ [e] := rfl
@[simp] theorem emit_spinor (s : QudaState V) (e : Event) : (s.emit e).spinor = s.spinor := rfl
@[simp] theorem emit_invert_param (s : QudaState V) (e : Event) :
    (s.emit e).invert_param = s.invert_param := rfl
@[simp] theorem emit_brk (s : QudaState V) (e : Event) : (s.emit e).brk = s.brk := rfl
@[simp] theorem emit_h_x (s : QudaState V) (e : Event) : (s.emit e).h_x = s.h_x := rfl
@[simp] theorem emit_gauge (s : QudaState V) (e : Event) (r : GaugeRef) :
    (s.emit e).gauge r = s.gauge r := by cases r <;> rfl
@[simp] theorem emit_cudaGaugePrecise (s : QudaState V) (e : Event) :
    (s.emit e).cudaGaugePrecise = s.cudaGaugePrecise := rfl
@[simp] theorem store_trace (s : QudaState V) (h : ParitySpinor) (v : V) :
    (s.store h v).trace = s.trace := rfl
@[simp] theorem store_spinor (s : QudaState V) (h : ParitySpinor) (v : V) :
    (s.store h v).spinor = Function.update s.spinor h v := rfl
@[simp] theorem store_invert_param (s : QudaState V) (h : ParitySpinor) (v : V) :
    (s.store h v).invert_param = s.invert_param := rfl
@[simp] theorem store_brk (s : QudaState V) (h : ParitySpinor) (v : V) :
    (s.store h v).brk = s.brk := rfl
@[simp] theorem store_h_x (s : QudaState V) (h : ParitySpinor) (v : V) :
    (s.store h v).h_x = s.h_x := rfl
@[simp] theorem store_gauge (s : QudaState V) (h : ParitySpinor) (v : V) (r : GaugeRef) :
    (s.store h v).gauge r = s.gauge r := by cases r <;> rfl
@[simp] theorem store_cudaGaugePrecise (s : QudaState V) (h : ParitySpinor) (v : V) :
    (s.store h v).cudaGaugePrecise = s.cudaGaugePrecise := rfl

theorem setup_fst (L : Lattice) (s : QudaState V) :
    (invertQuda_setup L s).1 =
      { kappa := s.invert_param.kappa, slenh := L.Nh * L.spinorSiteSize, inp := s.brk,
        out := s.brk + 1, tmp := s.brk + 2, b := ⟨0, 0⟩, x := ⟨0, 0⟩ } := rfl

theorem setup_trace (L : Lattice) (s : QudaState V) :
    (invertQuda_setup L s).2.trace = s.trace ++
      [.allocateParitySpinor s.brk s.invert_param.cuda_prec,
       .allocateParitySpinor (s.brk + 1) s.invert_param.cuda_prec,
       .allocateParitySpinor (s.brk + 2) s.invert_param.cuda_prec] := by
  simp [invertQuda_setup, allocateParitySpinor]

theorem setup_spinor (L : Lattice) (s : QudaState V) :
    (invertQuda_setup L s).2.spinor = s.spinor := rfl

theorem setup_brk (L : Lattice) (s : QudaState V) :
    (invertQuda_setup L s).2.brk = s.brk + 3 := rfl

theorem setup_cudaGaugePrecise (L : Lattice) (s : QudaState V) :
    (invertQuda_setup L s).2.cudaGaugePrecise = s.cudaGaugePrecise := rfl

theorem setup_h_x (L : Lattice) (s : QudaState V) :
    (invertQuda_setup L s).2.h_x = s.h_x := rfl

theorem setup_invert_param (L : Lattice) (s : QudaState V) :
    (invertQuda_setup L s).2.invert_param =
      { s.invert_param with
        spinorGiB :=
          if s.invert_param.preserve_source = .QUDA_PRESERVE_SOURCE_NO then
            ((L.Nh * L.spinorSiteSize : Int) : ℚ) * 4 / 2 ^ 30 *
              (if s.invert_param.inv_type = .QUDA_CG_INVERTER then 5 else 7)
          else
            ((L.Nh * L.spinorSiteSize : Int) : ℚ) * 4 / 2 ^ 30 *
              (if s.invert_param.inv_type = .QUDA_CG_INVERTER then 8 else 9)
        secs := 0, gflops := 0, iter := 0 } := rfl

theorem applySolver_spinor_of_ne (s : QudaState V) (out inp tmp h : ParitySpinor)
    (r : SolverResult V) (h1 : h ≠ inp) (h2 : h ≠ out) (h3 : h ≠ tmp) :
    (s.applySolver out inp tmp r).spinor h = s.spinor h := by
  simp [QudaState.applySolver, Function.update_noteq, h1, h2, h3]

theorem solve_cg (E : Extern V G) (l : InvertLocals) (s : QudaState V)
    (h : s.invert_param.inv_type = .QUDA_CG_INVERTER) :
    invertQuda_solve E l s = .returned () (invertCgCuda E l.out l.inp .cudaGaugeSloppy l.tmp
      (if s.invert_param.solution_type ≠ .QUDA_MATPCDAG_MATPC_SOLUTION then
        MatPCDagCuda E l.inp .cudaGaugePrecise l.out l.kappa l.tmp s.invert_param.matpc_type
          (copyCuda l.out l.inp s)
      else s)) := by
  unfold invertQuda_solve
  simp only [h]

theorem solve_bicgstab (E : Extern V G) (l : InvertLocals) (s : QudaState V)
    (h : s.invert_param.inv_type = .QUDA_BICGSTAB_INVERTER) :
    invertQuda_solve E l s = .returned ()
      (invertBiCGstabCuda E l.out l.inp .cudaGaugeSloppy .cudaGaugePrecise l.tmp .QUDA_DAG_NO
        (if s.invert_param.solution_type = .QUDA_MATPCDAG_MATPC_SOLUTION then
          copyCuda l.inp l.out
            (invertBiCGstabCuda E l.out l.inp .cudaGaugeSloppy .cudaGaugePrecise l.tmp
              .QUDA_DAG_YES s)
        else s)) := by
  unfold invertQuda_solve
  simp only [h]

theorem solve_exits (E : Extern V G) (l : InvertLocals) (s : QudaState V) (code : Int)
    (h : s.invert_param.inv_type = .unlisted code) :
    invertQuda_solve E l s =
      .exited (-1) (s.emit (.printf "Inverter type %d not implemented\n" [.int code])) := by
  unfold invertQuda_solve
  simp only [h]

theorem solve_returns (E : Extern V G) (l : InvertLocals) (s : QudaState V)
    (h : s.invert_param.inv_type = .QUDA_CG_INVERTER ∨
      s.invert_param.inv_type = .QUDA_BICGSTAB_INVERTER) :
    invertQuda_solve E l s = .returned () (invertQuda_solve E l s).state := by
  rcases h with h | h
  · rw [solve_cg E l s h]; rfl
  · rw [solve_bicgstab E l s h]; rfl

theorem solve_spinor_of_ne (E : Extern V G) (l : InvertLocals) (s : QudaState V)
    (h : ParitySpinor) (h1 : h ≠ l.inp) (h2 : h ≠ l.out) (h3 : h ≠ l.tmp) :
    (invertQuda_solve E l s).state.spinor h = s.spinor h := by
  cases hi : s.invert_param.inv_type with
  | QUDA_CG_INVERTER =>
    rw [solve_cg E l s hi]
    split_ifs <;>
    simp [Outcome.state, invertCgCuda, MatPCDagCuda, copyCuda,
      QudaState.applySolver, Function.update_noteq, h1, h2, h3]
  | QUDA_BICGSTAB_INVERTER =>
    rw [solve_bicgstab E l s hi]
    split_ifs <;>
    simp [Outcome.state, invertBiCGstabCuda, copyCuda,
      QudaState.applySolver, Function.update_noteq, h1, h2, h3]
  | unlisted code =>
    rw [solve_exits E l s code hi]; rfl

theorem solve_cudaGaugePrecise (E : Extern V G) (l : InvertLocals) (s : QudaState V) :
    (invertQuda_solve E l s).state.cudaGaugePrecise = s.cudaGaugePrecise := by
  cases hi : s.invert_param.inv_type with
  | QUDA_CG_INVERTER =>
    rw [solve_cg E l s hi]
    split_ifs <;>
    simp [Outcome.state, invertCgCuda, MatPCDagCuda, copyCuda, QudaState.applySolver]
  | QUDA_BICGSTAB_INVERTER =>
    rw [solve_bicgstab E l s hi]
    split_ifs <;>
    simp [Outcome.state, invertBiCGstabCuda, copyCuda, QudaState.applySolver]
  | unlisted code =>
    rw [solve_exits E l s code hi]; rfl

theorem invertQuda_of_returned [Add V] [SMul ℚ V] (E : Extern V G) (L : Lattice)
    (h_b : HostSpinor V) (param : QudaInvertParam) (s s2 : QudaState V)
    (h1 : param.cuda_prec ≠ .QUDA_DOUBLE_PRECISION) (h2 : param.cpu_prec ≠ .QUDA_HALF_PRECISION)
    (h : invertQuda_solve E (invertQuda_prepared E L h_b param s).1
      (invertQuda_prepared E L h_b param s).2 = .returned () s2) :
    invertQuda E L h_b param s =
      .returned () (invertQuda_solution E h_b (invertQuda_prepared E L h_b param s).1 s2) := by
  simp only [invertQuda_prepared] at h
  simp only [invertQuda, invertQuda_prepared, h1, h2, if_false, h]

theorem invertQuda_of_exited [Add V] [SMul ℚ V] (E : Extern V G) (L : Lattice)
    (h_b : HostSpinor V) (param : QudaInvertParam) (s s2 : QudaState V) (code : Int)
    (h1 : param.cuda_prec ≠ .QUDA_DOUBLE_PRECISION) (h2 : param.cpu_prec ≠ .QUDA_HALF_PRECISION)
    (h : invertQuda_solve E (invertQuda_prepared E L h_b param s).1
      (invertQuda_prepared E L h_b param s).2 = .exited code s2) :
    invertQuda E L h_b param s = .exited code s2 := by
  simp only [invertQuda_prepared] at h
  simp only [invertQuda, invertQuda_prepared, h1, h2, if_false, h]

theorem source_invert_param [Add V] [SMul ℚ V] (E : Extern V G) (h_b : HostSpinor V)
    (l : InvertLocals) (s : QudaState V) :
    (invertQuda_source E h_b l s).2.invert_param = s.invert_param := by
  cases h1 : s.invert_param.solution_type <;>
  by_cases h2 : s.invert_param.preserve_source = .QUDA_PRESERVE_SOURCE_YES <;>
  by_cases h3 : s.invert_param.matpc_type = .QUDA_MATPC_EVEN_EVEN <;>
  by_cases h4 : s.invert_param.mass_normalization = .QUDA_MASS_NORMALIZATION <;>
    simp [invertQuda_source, h1, h2, h3, h4, allocateParitySpinor, loadSpinorField,
      loadParitySpinor, axCuda, dslashXpaySCuda]

theorem source_cudaGaugePrecise [Add V] [SMul ℚ V] (E : Extern V G) (h_b : HostSpinor V)
    (l : InvertLocals) (s : QudaState V) :
    (invertQuda_source E h_b l s).2.cudaGaugePrecise = s.cudaGaugePrecise := by
  cases h1 : s.invert_param.solution_type <;>
  by_cases h2 : s.invert_param.preserve_source = .QUDA_PRESERVE_SOURCE_YES <;>
  by_cases h3 : s.invert_param.matpc_type = .QUDA_MATPC_EVEN_EVEN <;>
  by_cases h4 : s.invert_param.mass_normalization = .QUDA_MASS_NORMALIZATION <;>
    simp [invertQuda_source, h1, h2, h3, h4, allocateParitySpinor, loadSpinorField,
      loadParitySpinor, axCuda, dslashXpaySCuda]

theorem source_trace [Add V] [SMul ℚ V] (E : Extern V G) (h_b : HostSpinor V)
    (l : InvertLocals) (s : QudaState V) :
    ∃ new, (invertQuda_source E h_b l s).2.trace = s.trace ++ new ∧
      ∀ e ∈ new, e.isSolverCall = false := by
  cases h1 : s.invert_param.solution_type <;>
  by_cases h2 : s.invert_param.preserve_source = .QUDA_PRESERVE_SOURCE_YES <;>
  by_cases h3 : s.invert_param.matpc_type = .QUDA_MATPC_EVEN_EVEN <;>
  by_cases h4 : s.invert_param.mass_normalization = .QUDA_MASS_NORMALIZATION <;>
    simp [invertQuda_source, h1, h2, h3, h4, allocateParitySpinor, loadSpinorField,
      loadParitySpinor, axCuda, dslashXpaySCuda, Event.isSolverCall]

theorem sameConfig_refl (p : QudaInvertParam) : SameConfig p p := ⟨rfl, rfl, rfl, rfl⟩

theorem sameConfig_trans {p q r : QudaInvertParam} (h1 : SameConfig p q) (h2 : SameConfig q r) :
    SameConfig p r :=
  ⟨h2.1.trans h1.1, h2.2.1.trans h1.2.1, h2.2.2.1.trans h1.2.2.1, h2.2.2.2.trans h1.2.2.2⟩

theorem solve_config (E : Extern V G) (l : InvertLocals) (s : QudaState V) :
    SameConfig s.invert_param (invertQuda_solve E l s).state.invert_param := by
  cases hi : s.invert_param.inv_type with
  | QUDA_CG_INVERTER =>
    rw [solve_cg E l s hi]
    split_ifs <;>
    simp [SameConfig, Outcome.state, invertCgCuda, MatPCDagCuda, copyCuda,
      QudaState.applySolver, hi]
  | QUDA_BICGSTAB_INVERTER =>
    rw [solve_bicgstab E l s hi]
    split_ifs <;>
    simp [SameConfig, Outcome.state, invertBiCGstabCuda, copyCuda, QudaState.applySolver, hi]
  | unlisted code =>
    rw [solve_exits E l s code hi]
    exact ⟨rfl, rfl, rfl, rfl⟩

theorem prepared_config [Add V] [SMul ℚ V] (E : Extern V G) (L : Lattice)
    (h_b : HostSpinor V) (param : QudaInvertParam) (s : QudaState V) :
    SameConfig param (invertQuda_prepared E L h_b param s).2.invert_param := by
  simp only [invertQuda_prepared, source_invert_param, setup_invert_param]
  exact ⟨rfl, rfl, rfl, rfl⟩

theorem prepared_invert_param_inv_type [Add V] [SMul ℚ V] (E : Extern V G) (L : Lattice)
    (h_b : HostSpinor V) (param : QudaInvertParam) (s : QudaState V) :
    (invertQuda_prepared E L h_b param s).2.invert_param.inv_type = param.inv_type := by
  simp only [invertQuda_prepared, source_invert_param, setup_invert_param]

theorem prepared_trace [Add V] [SMul ℚ V] (E : Extern V G) (L : Lattice)
    (h_b : HostSpinor V) (param : QudaInvertParam) (s : QudaState V) :
    ∃ new, (invertQuda_prepared E L h_b param s).2.trace = s.trace ++ new ∧
      ∀ e ∈ new, e.isSolverCall = false := by
  obtain ⟨new, h, hn⟩ := source_trace E h_b
    (invertQuda_setup L { s with invert_param := param }).1
    (invertQuda_setup L { s with invert_param := param }).2
  refine ⟨[.allocateParitySpinor s.brk param.cuda_prec,
    .allocateParitySpinor (s.brk + 1) param.cuda_prec,
    .allocateParitySpinor (s.brk + 2) param.cuda_prec] ++ new, ?_, ?_⟩
  · simp only [invertQuda_prepared, h, setup_trace, List.append_assoc]
  · intro e he
    rcases List.mem_append.1 he with he | he
    · simp only [List.mem_cons, List.mem_singleton, List.not_mem_nil, or_false] at he
      rcases he with rfl | rfl | rfl <;> rfl
    · exact hn e he

@[simp] theorem emit_gauge_param (s : QudaState V) (e : Event) :
    (s.emit e).gauge_param = s.gauge_param := rfl
@[simp] theorem emit_cudaGaugeSloppy (s : QudaState V) (e : Event) :
    (s.emit e).cudaGaugeSloppy = s.cudaGaugeSloppy := rfl
@[simp] theorem createGaugeField_gauge_param (E : Extern V G) (r : GaugeRef) (h : G)
    (rc : ReconstructType) (p : Precision) (s : QudaState V) :
    (createGaugeField E r h rc p s).gauge_param = s.gauge_param := by
  cases r <;> rfl
@[simp] theorem createGaugeField_trace (E : Extern V G) (r : GaugeRef) (h : G)
    (rc : ReconstructType) (p : Precision) (s : QudaState V) :
    (createGaugeField E r h rc p s).trace = s.trace ++ [.createGaugeField r rc p] := by
  cases r <;> rfl

theorem loadGaugeQuda_mismatch (E : Extern V G) (L : Lattice) (h_gauge : G)
    (param : QudaGaugeParam) (s : QudaState V)
    (h : param.X ≠ L.L1 ∨ param.Y ≠ L.L2 ∨ param.Z ≠ L.L3 ∨ param.T ≠ L.L4) :
    loadGaugeQuda E L h_gauge param s = .exited (-1)
      { s with
        gauge_param := param
        trace := s.trace ++ [.setCudaGaugeParam,
          .printf "QUDA error: dimensions do not match: %d=%d, %d=%d, %d=%d, %d=%d\n"
            [.int param.X, .int L.L1, .int param.Y, .int L.L2, .int param.Z, .int L.L3,
             .int param.T, .int L.L4]] } := by
  simp [loadGaugeQuda, QudaState.emit, h]

theorem loadGaugeQuda_two_fields (E : Extern V G) (L : Lattice) (h_gauge : G)
    (param : QudaGaugeParam) (s : QudaState V)
    (h : ¬ (param.X ≠ L.L1 ∨ param.Y ≠ L.L2 ∨ param.Z ≠ L.L3 ∨ param.T ≠ L.L4))
    (hp : param.cuda_prec_sloppy ≠ param.cuda_prec_precise) :
    loadGaugeQuda E L h_gauge param s = .returned ()
      { s with
        gauge_param := { param with
          packed_size := if param.reconstruct_precise = .QUDA_RECONSTRUCT_8 then 8 else 12
          gaugeGiB := 2 * ((E.createGaugeField h_gauge param.reconstruct_sloppy
            param.cuda_prec_sloppy s.cudaGaugeSloppy).packedGaugeBytes : ℚ) / 2 ^ 30 }
        cudaGaugePrecise := E.createGaugeField h_gauge param.reconstruct_precise
          param.cuda_prec_precise s.cudaGaugePrecise
        cudaGaugeSloppy := E.createGaugeField h_gauge param.reconstruct_sloppy
          param.cuda_prec_sloppy s.cudaGaugeSloppy
        trace := s.trace ++ [.setCudaGaugeParam,
          .createGaugeField .cudaGaugePrecise param.reconstruct_precise param.cuda_prec_precise,
          .createGaugeField .cudaGaugeSloppy param.reconstruct_sloppy param.cuda_prec_sloppy] } := by
  simp [loadGaugeQuda, createGaugeField, QudaState.setGauge, QudaState.gauge, QudaState.emit, h, hp]

theorem loadGaugeQuda_one_field (E : Extern V G) (L : Lattice) (h_gauge : G)
    (param : QudaGaugeParam) (s : QudaState V)
    (h : ¬ (param.X ≠ L.L1 ∨ param.Y ≠ L.L2 ∨ param.Z ≠ L.L3 ∨ param.T ≠ L.L4))
    (hp : ¬ param.cuda_prec_sloppy ≠ param.cuda_prec_precise) :
    loadGaugeQuda E L h_gauge param s = .returned ()
      { s with
        gauge_param := { param with
          packed_size := if param.reconstruct_precise = .QUDA_RECONSTRUCT_8 then 8 else 12
          gaugeGiB := 2 * ((E.createGaugeField h_gauge param.reconstruct_precise
            param.cuda_prec_precise s.cudaGaugePrecise).packedGaugeBytes : ℚ) / 2 ^ 30 }
        cudaGaugePrecise := E.createGaugeField h_gauge param.reconstruct_precise
          param.cuda_prec_precise s.cudaGaugePrecise
        cudaGaugeSloppy := E.createGaugeField h_gauge param.reconstruct_precise
          param.cuda_prec_precise s.cudaGaugePrecise
        trace := s.trace ++ [.setCudaGaugeParam,
          .createGaugeField .cudaGaugePrecise param.reconstruct_precise
            param.cuda_prec_precise] } := by
  simp [loadGaugeQuda, createGaugeField, QudaState.setGauge, QudaState.gauge, QudaState.emit, h, hp]

theorem loadGaugeQuda_returns (E : Extern V G) (L : Lattice) (h_gauge : G)
    (param : QudaGaugeParam) (s : QudaState V)
    (h : ¬ (param.X ≠ L.L1 ∨ param.Y ≠ L.L2 ∨ param.Z ≠ L.L3 ∨ param.T ≠ L.L4)) :
    ∃ s', loadGaugeQuda E L h_gauge param s = .returned () s' := by
  by_cases hp : param.cuda_prec_sloppy ≠ param.cuda_prec_precise
  · exact ⟨_, loadGaugeQuda_two_fields E L h_gauge param s h hp⟩
  · exact ⟨_, loadGaugeQuda_one_field E L h_gauge param s h hp⟩

/-! ### Gauge load, benchmark driver and trace growth -/

theorem benchmark_case_eq_none_iff (kernel : Int) :
    benchmark_case kernel = none ↔ (kernel < 0 ∨ 20 < kernel) := by
  constructor
  · intro h
    by_contra hn
    have h0 : 0 ≤ kernel := by omega
    have h1 : kernel ≤ 20 := by omega
    interval_cases kernel <;> simp [benchmark_case] at h
  · intro h
    unfold benchmark_case
    split <;> first | rfl | omega

theorem benchmark_loop_of_some (B : BlasExtern V) (kernel : Int) (k : BlasKernel)
    (h : benchmark_case kernel = some k) (n : Nat) (t : BlasTest V) :
    benchmark_loop B kernel n t = .returned () ((BlasTest.launch B k)^[n] t) := by
  induction n generalizing t with
  | zero => rfl
  | succ n ih =>
    rw [benchmark_loop, h]
    simp only [ih, Function.iterate_succ, Function.comp_apply]

theorem benchmark_loop_of_none (B : BlasExtern V) (kernel : Int)
    (h : benchmark_case kernel = none) (n : Nat) (t : BlasTest V) :
    benchmark_loop B kernel (n + 1) t =
      .exited 1 (t.emit (.printf "Undefined blas kernel %d\n" [.int kernel])) := by
  rw [benchmark_loop, h]

theorem benchmark_of_some (B : BlasExtern V) (kernel : Int) (k : BlasKernel)
    (h : benchmark_case kernel = some k) (t : BlasTest V) :
    benchmark B kernel t =
      .returned
        (B.stopwatchReadSeconds
          ((BlasTest.launch B k)^[t.nIters.toNat] (t.emit .stopwatchStart)).quda.trace /
            ((BlasTest.launch B k)^[t.nIters.toNat] (t.emit .stopwatchStart)).nIters)
        (((BlasTest.launch B k)^[t.nIters.toNat] (t.emit .stopwatchStart)).emit
          .stopwatchReadSeconds) := by
  unfold benchmark
  have hl := benchmark_loop_of_some B kernel k h t.nIters.toNat (t.emit .stopwatchStart)
  have hn : (t.emit .stopwatchStart).nIters = t.nIters := rfl
  simp only [hn, hl]

theorem benchmark_of_none (B : BlasExtern V) (kernel : Int)
    (h : benchmark_case kernel = none) (t : BlasTest V) (hn : 1 ≤ t.nIters) :
    benchmark B kernel t =
      .exited 1 ((t.emit .stopwatchStart).emit
        (.printf "Undefined blas kernel %d\n" [.int kernel])) := by
  unfold benchmark
  obtain ⟨n, hn1⟩ : ∃ n, t.nIters.toNat = n + 1 := ⟨t.nIters.toNat - 1, by omega⟩
  have hl := benchmark_loop_of_none B kernel h n (t.emit .stopwatchStart)
  have hn2 : (t.emit .stopwatchStart).nIters = t.nIters := rfl
  simp only [hn2, hn1, hl]

theorem TraceGrows.refl (P : Event → Prop) (l : List Event) : TraceGrows P l l :=
  ⟨[], by simp, by simp⟩

theorem TraceGrows.trans {P : Event → Prop} {a b c : List Event}
    (h1 : TraceGrows P a b) (h2 : TraceGrows P b c) : TraceGrows P a c := by
  obtain ⟨x, rfl, hx⟩ := h1
  obtain ⟨y, rfl, hy⟩ := h2
  refine ⟨x ++ y, by simp, ?_⟩
  intro e he
  rcases List.mem_append.1 he with he | he
  · exact hx e he
  · exact hy e he

theorem TraceGrows.mono {P Q : Event → Prop} {a b : List Event} (h : ∀ e, P e → Q e)
    (h1 : TraceGrows P a b) : TraceGrows Q a b := by
  obtain ⟨x, rfl, hx⟩ := h1
  exact ⟨x, rfl, fun e he => h e (hx e he)⟩

theorem TraceGrows.snoc {P : Event → Prop} {a b : List Event} (e : Event)
    (h1 : TraceGrows P a b) (he : P e) : TraceGrows P a (b ++ [e]) :=
  h1.trans ⟨[e], rfl, by simpa using he⟩

theorem TraceGrows.append {P : Event → Prop} {a b : List Event} (l : List Event)
    (h1 : TraceGrows P a b) (hl : ∀ e ∈ l, P e) : TraceGrows P a (b ++ l) :=
  h1.trans ⟨l, rfl, hl⟩

theorem initQuda_loop_trace (rt : CudaRuntime) (l : List Nat) (s : QudaState V) :
    TraceGrows (fun e => e.isBlas = false) s.trace
      (l.foldl (fun s i => (s.emit (.cudaGetDeviceProperties i)).emit
        (.fprintf_stderr "found device %d: %s\n" [.int i, .str (rt.name i)])) s).trace := by
  induction l generalizing s with
  | nil => exact TraceGrows.refl _ _
  | cons i l ih =>
    rw [List.foldl_cons]
    refine TraceGrows.trans ?_ (ih _)
    exact ((TraceGrows.refl _ _).snoc _ (by rfl)).snoc _ (by rfl)

theorem initQuda_trace (rt : CudaRuntime) (dev : Int) (s : QudaState V) :
    TraceGrows (fun e => e.isBlas = false) s.trace (initQuda rt dev s).state.trace := by
  have hl := initQuda_loop_trace rt (List.range rt.deviceCount.toNat)
    (s.emit .cudaGetDeviceCount)
  have h0 : TraceGrows (fun e => e.isBlas = false) s.trace (s.emit .cudaGetDeviceCount).trace :=
    (TraceGrows.refl _ _).snoc _ (by rfl)
  by_cases hc : rt.deviceCount = 0
  · simp only [initQuda, hc, if_true, Outcome.state]
    exact h0.snoc _ (by rfl)
  · by_cases hm : rt.major (if dev < 0 then rt.deviceCount - 1 else dev) < 1
    · simp only [initQuda, hc, if_false, hm, if_true, Outcome.state]
      exact ((h0.trans hl).snoc _ (by rfl)).snoc _ (by rfl)
    · simp only [initQuda, hc, if_false, hm, Outcome.state]
      exact (((h0.trans hl).snoc _ (by rfl)).snoc _ (by rfl)).snoc _ (by rfl)

theorem init_trace (rt : CudaRuntime) (t : BlasTest V) :
    TraceGrows (fun e => e.isBlas = false) t.quda.trace (init rt t).state.quda.trace := by
  have h := initQuda_trace rt 0
    ({ t.quda with invert_param := { t.inv_param with
        cpu_prec := .QUDA_DOUBLE_PRECISION, cuda_prec := .QUDA_HALF_PRECISION,
        verbosity := .QUDA_VERBOSE } } : QudaState V)
  unfold init
  simp only
  split
  · next code q hq =>
    rw [hq] at h
    exact h
  · next u q hq =>
    rw [hq] at h
    simp only [allocateParitySpinor, Outcome.state]
    exact (((((h.snoc _ (by rfl)).snoc _ (by rfl)).snoc _ (by rfl)).snoc _ (by rfl)).snoc _ (by rfl))

theorem launch_iterate_trace (B : BlasExtern V) (k : BlasKernel) (n : Nat) (t : BlasTest V) :
    ((BlasTest.launch B k)^[n] t).quda.trace = t.quda.trace ++ List.replicate n (.blas k) := by
  induction n generalizing t with
  | zero => simp
  | succ n ih =>
    rw [Function.iterate_succ, Function.comp_apply, ih, List.replicate_succ]
    simp [BlasTest.launch]

theorem benchmark_trace (B : BlasExtern V) (kernel : Int) (t : BlasTest V) :
    TraceGrows (fun e => e.isBlas = false ∨ ∃ k, benchmark_case kernel = some k ∧ e = .blas k)
      t.quda.trace (benchmark B kernel t).state.quda.trace := by
  cases hc : benchmark_case kernel with
  | some k =>
    rw [benchmark_of_some B kernel k hc t]
    simp only [Outcome.state, BlasTest.emit, emit_trace, launch_iterate_trace]
    refine (((TraceGrows.refl _ _).snoc _ (Or.inl (by rfl))).append _ ?_).snoc _
      (Or.inl (by rfl))
    intro e he
    exact Or.inr ⟨k, rfl, List.eq_of_mem_replicate he⟩
  | none =>
    by_cases hn : 1 ≤ t.nIters
    · rw [benchmark_of_none B kernel hc t hn]
      exact ((TraceGrows.refl _ _).snoc _ (Or.inl (by rfl))).snoc _ (Or.inl (by rfl))
    · have h0 : t.nIters.toNat = 0 := by omega
      have hn2 : (t.emit .stopwatchStart).nIters = t.nIters := rfl
      simp only [benchmark, hn2, h0, benchmark_loop, Outcome.state]
      exact ((TraceGrows.refl _ _).snoc _ (Or.inl (by rfl))).snoc _ (Or.inl (by rfl))

theorem kernels_below_bound :
    ∀ i < main_loop_bound, ∃ k, benchmark_case (kernels.getD i 0) = some k ∧
      k ≠ .cDotProductNormBCuda ∧ k ≠ .caxpbypzYmbwcDotProductWYNormYQuda := by
  decide

theorem benchmark_trace_below_bound (B : BlasExtern V) (i : Nat) (hi : i < main_loop_bound)
    (t : BlasTest V) :
    TraceGrows Event.notKernel19or20 t.quda.trace
      (benchmark B (kernels.getD i 0) t).state.quda.trace := by
  obtain ⟨k, hk, h19, h20⟩ := kernels_below_bound i hi
  refine (benchmark_trace B (kernels.getD i 0) t).mono ?_
  rintro e (he | ⟨k2, hk2, rfl⟩)
  · constructor <;> (rintro rfl; cases he)
  · rw [hk] at hk2
    cases hk2
    constructor
    · intro h
      cases h
      exact h19 rfl
    · intro h
      cases h
      exact h20 rfl

theorem main_warmup_trace (B : BlasExtern V) (is : List Nat) (his : ∀ i ∈ is, i < main_loop_bound)
    (t : BlasTest V) :
    TraceGrows Event.notKernel19or20 t.quda.trace (main_warmup B is t).state.quda.trace := by
  induction is generalizing t with
  | nil => exact TraceGrows.refl _ _
  | cons i is ih =>
    have hb := benchmark_trace_below_bound B i (his i (List.mem_cons_self _ _)) t
    rw [main_warmup]
    split
    · next code t2 h2 =>
      rw [h2] at hb
      exact hb
    · next secs t2 h2 =>
      rw [h2] at hb
      exact hb.trans (ih (fun j hj => his j (List.mem_cons_of_mem _ hj)) t2)

theorem main_timed_trace (B : BlasExtern V) (is : List Nat) (his : ∀ i ∈ is, i < main_loop_bound)
    (t : BlasTest V) :
    TraceGrows Event.notKernel19or20 t.quda.trace (main_timed B is t).state.quda.trace := by
  induction is generalizing t with
  | nil => exact TraceGrows.refl _ _
  | cons i is ih =>
    have hb := benchmark_trace_below_bound B i (his i (List.mem_cons_self _ _))
      { t with blas_quda_flops := 0 }
    rw [main_timed]
    simp only
    split
    · next code t2 h2 =>
      rw [h2] at hb
      exact hb
    · next secs t2 h2 =>
      rw [h2] at hb
      refine TraceGrows.trans ?_ (ih (fun j hj => his j (List.mem_cons_of_mem _ hj)) _)
      exact TraceGrows.snoc _ hb ⟨(by intro h; cases h), (by intro h; cases h)⟩

theorem main_warmup_returns (B : BlasExtern V) (is : List Nat)
    (his : ∀ i ∈ is, i < main_loop_bound) (t : BlasTest V) :
    ∃ t', main_warmup B is t = .returned () t' := by
  induction is generalizing t with
  | nil => exact ⟨t, rfl⟩
  | cons i is ih =>
    obtain ⟨k, hk, -, -⟩ := kernels_below_bound i (his i (List.mem_cons_self _ _))
    rw [main_warmup, benchmark_of_some B _ k hk t]
    exact ih (fun j hj => his j (List.mem_cons_of_mem _ hj)) _

theorem main_timed_returns (B : BlasExtern V) (is : List Nat)
    (his : ∀ i ∈ is, i < main_loop_bound) (t : BlasTest V) :
    ∃ t', main_timed B is t = .returned () t' := by
  induction is generalizing t with
  | nil => exact ⟨t, rfl⟩
  | cons i is ih =>
    obtain ⟨k, hk, -, -⟩ := kernels_below_bound i (his i (List.mem_cons_self _ _))
    rw [main_timed]
    simp only [benchmark_of_some B _ k hk]
    exact ih (fun j hj => his j (List.mem_cons_of_mem _ hj)) _

theorem main_returns (rt : CudaRuntime) (B : BlasExtern V) (t t1 : BlasTest V)
    (h : init rt t = .returned () t1) : ∃ t', main rt B t = .returned 0 t' := by
  have hr : ∀ i ∈ List.range main_loop_bound, i < main_loop_bound :=
    fun i hi => List.mem_range.1 hi
  obtain ⟨t2, h2⟩ := main_warmup_returns B (List.range main_loop_bound) hr { t1 with nIters := 1 }
  obtain ⟨t3, h3⟩ := main_timed_returns B (List.range main_loop_bound) hr
    { t2 with nIters := 1000 }
  exact ⟨t3, by simp only [main, h, h2, h3]⟩

/-! ### Operators, normalisation and solver dispatch -/

theorem blas3d_swap_of_valid {W : Type} (s : Nat) (x y : List W)
    (hx : s < x.length) (hy : s < y.length) :
    blas3d.swap s x y = (x.set s (y.get ⟨s, hy⟩), y.set s (x.get ⟨s, hx⟩)) := by
  simp only [blas3d.swap, List.get?_eq_getElem?, List.getElem?_eq_getElem hx,
    List.getElem?_eq_getElem hy, List.get_eq_getElem]

theorem solution_invert_param [Add V] [SMul ℚ V] (E : Extern V G) (h_b : HostSpinor V)
    (l : InvertLocals) (s : QudaState V) :
    (invertQuda_solution E h_b l s).invert_param = s.invert_param := by
  cases h1 : s.invert_param.solution_type <;>
  by_cases h2 : s.invert_param.preserve_source = .QUDA_PRESERVE_SOURCE_YES <;>
  by_cases h3 : s.invert_param.matpc_type = .QUDA_MATPC_EVEN_EVEN <;>
  by_cases h4 : s.invert_param.preserve_source = .QUDA_PRESERVE_SOURCE_NO <;>
    simp [invertQuda_solution, h1, h2, h3, h4, loadSpinorField, dslashXpaySCuda,
      retrieveSpinorField, retrieveParitySpinor, freeParitySpinor, freeSpinorField]

theorem configEq_refl (p : QudaInvertParam) : ConfigEq p p :=
  ⟨rfl, rfl, rfl, rfl, rfl, rfl, rfl, rfl, rfl, rfl, rfl, rfl⟩

theorem configEq_trans {p q r : QudaInvertParam} (h1 : ConfigEq p q) (h2 : ConfigEq q r) :
    ConfigEq p r := by
  obtain ⟨a1, a2, a3, a4, a5, a6, a7, a8, a9, a10, a11, a12⟩ := h1
  obtain ⟨b1, b2, b3, b4, b5, b6, b7, b8, b9, b10, b11, b12⟩ := h2
  exact ⟨b1.trans a1, b2.trans a2, b3.trans a3, b4.trans a4, b5.trans a5, b6.trans a6,
    b7.trans a7, b8.trans a8, b9.trans a9, b10.trans a10, b11.trans a11, b12.trans a12⟩

theorem solve_configEq (E : Extern V G) (l : InvertLocals) (s : QudaState V) :
    ConfigEq s.invert_param (invertQuda_solve E l s).state.invert_param := by
  cases hi : s.invert_param.inv_type with
  | QUDA_CG_INVERTER =>
    rw [solve_cg E l s hi]
    split_ifs <;>
    simp [ConfigEq, Outcome.state, invertCgCuda, MatPCDagCuda, copyCuda,
      QudaState.applySolver, hi]
  | QUDA_BICGSTAB_INVERTER =>
    rw [solve_bicgstab E l s hi]
    split_ifs <;>
    simp [ConfigEq, Outcome.state, invertBiCGstabCuda, copyCuda, QudaState.applySolver, hi]
  | unlisted code =>
    rw [solve_exits E l s code hi]
    exact configEq_refl _

theorem prepared_invert_param [Add V] [SMul ℚ V] (E : Extern V G) (L : Lattice)
    (h_b : HostSpinor V) (param : QudaInvertParam) (s : QudaState V) :
    (invertQuda_prepared E L h_b param s).2.invert_param =
      { param with
        spinorGiB :=
          if param.preserve_source = .QUDA_PRESERVE_SOURCE_NO then
            ((L.Nh * L.spinorSiteSize : Int) : ℚ) * 4 / 2 ^ 30 *
              (if param.inv_type = .QUDA_CG_INVERTER then 5 else 7)
          else
            ((L.Nh * L.spinorSiteSize : Int) : ℚ) * 4 / 2 ^ 30 *
              (if param.inv_type = .QUDA_CG_INVERTER then 8 else 9)
        secs := 0, gflops := 0, iter := 0 } := by
  simp only [invertQuda_prepared, source_invert_param, setup_invert_param]

theorem launch_iterate_nIters (B : BlasExtern V) (k : BlasKernel) (n : Nat) (t : BlasTest V) :
    ((BlasTest.launch B k)^[n] t).nIters = t.nIters := by
  induction n generalizing t with
  | zero => rfl
  | succ n ih =>
    rw [Function.iterate_succ, Function.comp_apply, ih]
    rfl

theorem launch_iterate_flops (B : BlasExtern V) (k : BlasKernel) (n : Nat) (t : BlasTest V) :
    ((BlasTest.launch B k)^[n] t).blas_quda_flops = t.blas_quda_flops + n * B.flops k := by
  induction n generalizing t with
  | zero => simp
  | succ n ih =>
    rw [Function.iterate_succ, Function.comp_apply, ih]
    simp only [BlasTest.launch, Nat.cast_succ]
    ring

theorem source_trace_no_ax [Add V] [SMul ℚ V] (E : Extern V G) (h_b : HostSpinor V)
    (l : InvertLocals) (s : QudaState V)
    (h4 : s.invert_param.mass_normalization ≠ .QUDA_MASS_NORMALIZATION) :
    TraceGrows (fun e => e.isAxCuda = false) s.trace (invertQuda_source E h_b l s).2.trace := by
  unfold TraceGrows
  cases h1 : s.invert_param.solution_type <;>
  by_cases h2 : s.invert_param.preserve_source = .QUDA_PRESERVE_SOURCE_YES <;>
  by_cases h3 : s.invert_param.matpc_type = .QUDA_MATPC_EVEN_EVEN <;>
    simp [invertQuda_source, h1, h2, h3, h4, allocateParitySpinor, loadSpinorField,
      loadParitySpinor, dslashXpaySCuda, Event.isAxCuda]

theorem mat_loaded_source [Add V] [SMul ℚ V] (E : Extern V G) (L : Lattice)
    (h_b : HostSpinor V) (param : QudaInvertParam) (s : QudaState V)
    (hsol : param.solution_type = .QUDA_MAT_SOLUTION) :
    invertQuda_loadedSource E L h_b param s =
      if param.mass_normalization = .QUDA_MASS_NORMALIZATION then
        ⟨(2 * param.kappa) • h_b.even, (2 * param.kappa) • h_b.odd⟩
      else ⟨h_b.even, h_b.odd⟩ := by
  by_cases h2 : param.preserve_source = .QUDA_PRESERVE_SOURCE_YES <;>
  by_cases h3 : param.matpc_type = .QUDA_MATPC_EVEN_EVEN <;>
  by_cases h4 : param.mass_normalization = .QUDA_MASS_NORMALIZATION <;>
    simp [invertQuda_loadedSource, invertQuda_prepared, invertQuda_source, setup_fst,
      setup_invert_param, setup_brk, allocateParitySpinor, hsol, h2, h3, h4, loadSpinorField,
      axCuda, dslashXpaySCuda, setup_spinor, Function.update_apply, add_assoc]

theorem mat_prepared_source [Add V] [SMul ℚ V] (E : Extern V G) (L : Lattice)
    (h_b : HostSpinor V) (param : QudaInvertParam) (s : QudaState V)
    (hsol : param.solution_type = .QUDA_MAT_SOLUTION) :
    invertQuda_preparedSource E L h_b param s =
      if param.matpc_type = .QUDA_MATPC_EVEN_EVEN then
        (invertQuda_loadedSource E L h_b param s).even + param.kappa •
          E.dslash s.cudaGaugePrecise 0 0 (invertQuda_loadedSource E L h_b param s).odd
      else
        (invertQuda_loadedSource E L h_b param s).odd + param.kappa •
          E.dslash s.cudaGaugePrecise 1 0 (invertQuda_loadedSource E L h_b param s).even := by
  rw [mat_loaded_source E L h_b param s hsol]
  by_cases h2 : param.preserve_source = .QUDA_PRESERVE_SOURCE_YES <;>
  by_cases h3 : param.matpc_type = .QUDA_MATPC_EVEN_EVEN <;>
  by_cases h4 : param.mass_normalization = .QUDA_MASS_NORMALIZATION <;>
    simp [invertQuda_preparedSource, invertQuda_prepared, invertQuda_source, setup_fst,
      setup_invert_param, setup_brk, allocateParitySpinor, hsol, h2, h3, h4, loadSpinorField,
      axCuda, dslashXpaySCuda, setup_spinor, Function.update_apply, add_assoc,
      QudaState.gauge, setup_cudaGaugePrecise]

theorem matpc_prepared_source [Add V] [SMul ℚ V] (E : Extern V G) (L : Lattice)
    (h_b : HostSpinor V) (param : QudaInvertParam) (s : QudaState V)
    (hsol : param.solution_type = .QUDA_MATPC_SOLUTION ∨
      param.solution_type = .QUDA_MATPCDAG_MATPC_SOLUTION) :
    invertQuda_preparedSource E L h_b param s =
      if param.mass_normalization = .QUDA_MASS_NORMALIZATION then
        (if param.solution_type = .QUDA_MATPC_SOLUTION then (4 * param.kappa * param.kappa)
          else 16 * param.kappa ^ 4) • h_b.even
      else h_b.even := by
  rcases hsol with hsol | hsol <;>
  by_cases h4 : param.mass_normalization = .QUDA_MASS_NORMALIZATION <;>
    simp [invertQuda_preparedSource, invertQuda_prepared, invertQuda_source, setup_fst,
      setup_invert_param, hsol, h4, loadParitySpinor, axCuda, setup_spinor]

theorem source_handles [Add V] [SMul ℚ V] (E : Extern V G) (h_b : HostSpinor V)
    (l : InvertLocals) (s : QudaState V) :
    (invertQuda_source E h_b l s).1.inp = l.inp ∧ (invertQuda_source E h_b l s).1.out = l.out ∧
    (invertQuda_source E h_b l s).1.tmp = l.tmp ∧
    (invertQuda_source E h_b l s).1.kappa = l.kappa := by
  cases h1 : s.invert_param.solution_type <;>
  by_cases h2 : s.invert_param.preserve_source = .QUDA_PRESERVE_SOURCE_YES <;>
  by_cases h3 : s.invert_param.matpc_type = .QUDA_MATPC_EVEN_EVEN <;>
  by_cases h4 : s.invert_param.mass_normalization = .QUDA_MASS_NORMALIZATION <;>
    simp [invertQuda_source, h1, h2, h3, h4, allocateParitySpinor]

theorem prepared_handles [Add V] [SMul ℚ V] (E : Extern V G) (L : Lattice)
    (h_b : HostSpinor V) (param : QudaInvertParam) (s : QudaState V) :
    (invertQuda_prepared E L h_b param s).1.inp = s.brk ∧
    (invertQuda_prepared E L h_b param s).1.out = s.brk + 1 ∧
    (invertQuda_prepared E L h_b param s).1.tmp = s.brk + 2 ∧
    (invertQuda_prepared E L h_b param s).1.kappa = param.kappa := by
  have h := source_handles E h_b (invertQuda_setup L { s with invert_param := param }).1
    (invertQuda_setup L { s with invert_param := param }).2
  rw [setup_fst] at h
  exact h

theorem prepared_cudaGaugePrecise [Add V] [SMul ℚ V] (E : Extern V G) (L : Lattice)
    (h_b : HostSpinor V) (param : QudaInvertParam) (s : QudaState V) :
    (invertQuda_prepared E L h_b param s).2.cudaGaugePrecise = s.cudaGaugePrecise := by
  simp only [invertQuda_prepared, source_cudaGaugePrecise, setup_cudaGaugePrecise]

theorem solve_cg_entry (E : Extern V G) (l : InvertLocals) (s : QudaState V)
    (h : s.invert_param.inv_type = .QUDA_CG_INVERTER) :
    invertQuda_solve E l s = .returned ()
      (invertCgCuda E l.out l.inp .cudaGaugeSloppy l.tmp (invertQuda_cgEntry E l s)) :=
  solve_cg E l s h

theorem cgEntry_normal (E : Extern V G) (l : InvertLocals) (s : QudaState V)
    (h : s.invert_param.solution_type ≠ .QUDA_MATPCDAG_MATPC_SOLUTION)
    (h1 : l.inp ≠ l.out) (h3 : l.out ≠ l.tmp) :
    (invertQuda_cgEntry E l s).trace = s.trace ++
        [.copyCuda l.out l.inp,
         .MatPCDagCuda l.inp .cudaGaugePrecise l.out l.kappa l.tmp s.invert_param.matpc_type] ∧
    (invertQuda_cgEntry E l s).spinor l.inp =
      (E.MatPCDagCuda s.cudaGaugePrecise l.kappa s.invert_param.matpc_type (s.spinor l.inp)
        (s.spinor l.inp) (s.spinor l.tmp)).1 := by
  simp [invertQuda_cgEntry, h, MatPCDagCuda, copyCuda, QudaState.gauge, Function.update_apply,
    h1, h3, Ne.symm h1, Ne.symm h3]

theorem bicgstab_spinor_out (E : Extern V G) (out inp : ParitySpinor) (gS gP : GaugeRef)
    (tmp : ParitySpinor) (dag : DagType) (s : QudaState V) :
    (invertBiCGstabCuda E out inp gS gP tmp dag s).spinor out =
      (E.invertBiCGstabCuda (s.gauge gS) (s.gauge gP) s.invert_param dag (s.spinor out)
        (s.spinor inp) (s.spinor tmp)).out := by
  simp [invertBiCGstabCuda, QudaState.applySolver]

theorem bicgstab_config (E : Extern V G) (out inp : ParitySpinor) (gS gP : GaugeRef)
    (tmp : ParitySpinor) (dag : DagType) (s : QudaState V) :
    ConfigEq s.invert_param (invertBiCGstabCuda E out inp gS gP tmp dag s).invert_param := by
  simp [ConfigEq, invertBiCGstabCuda, QudaState.applySolver]

theorem bicgstab_trace (E : Extern V G) (out inp : ParitySpinor) (gS gP : GaugeRef)
    (tmp : ParitySpinor) (dag : DagType) (s : QudaState V) :
    (invertBiCGstabCuda E out inp gS gP tmp dag s).trace =
      s.trace ++ [.invertBiCGstabCuda out inp gS gP tmp dag] := by
  simp [invertBiCGstabCuda, QudaState.applySolver]

theorem solverGaugesAsCoded_of_not_solver (e : Event) (h : e.isSolverCall = false) :
    e.solverGaugesAsCoded := by
  cases e <;> simp_all [Event.isSolverCall, Event.solverGaugesAsCoded]

theorem solution_trace [Add V] [SMul ℚ V] (E : Extern V G) (h_b : HostSpinor V)
    (l : InvertLocals) (s : QudaState V) :
    TraceGrows (fun e => e.isSolverCall = false) s.trace
      (invertQuda_solution E h_b l s).trace := by
  unfold TraceGrows
  cases h1 : s.invert_param.solution_type <;>
  cases h2 : s.invert_param.preserve_source <;>
  by_cases h3 : s.invert_param.matpc_type = .QUDA_MATPC_EVEN_EVEN <;>
    simp [invertQuda_solution, h1, h2, h3, loadSpinorField, dslashXpaySCuda,
      retrieveSpinorField, retrieveParitySpinor, freeParitySpinor, freeSpinorField,
      Event.isSolverCall]

theorem solve_trace_gauges (E : Extern V G) (l : InvertLocals) (s : QudaState V) :
    TraceGrows Event.solverGaugesAsCoded s.trace (invertQuda_solve E l s).state.trace := by
  unfold TraceGrows
  cases hi : s.invert_param.inv_type with
  | QUDA_CG_INVERTER =>
    rw [solve_cg E l s hi]
    split_ifs <;>
    simp [Outcome.state, invertCgCuda, MatPCDagCuda, copyCuda, QudaState.applySolver,
      Event.solverGaugesAsCoded]
  | QUDA_BICGSTAB_INVERTER =>
    rw [solve_bicgstab E l s hi]
    split_ifs <;>
    simp [Outcome.state, invertBiCGstabCuda, copyCuda, QudaState.applySolver,
      Event.solverGaugesAsCoded]
  | unlisted code =>
    rw [solve_exits E l s code hi]
    simp [Outcome.state, Event.solverGaugesAsCoded]

/-! ### Call lists of `invertQuda` and of the operator entry points -/

theorem source_locals_eq [Add V] [SMul ℚ V] (E : Extern V G) (h_b : HostSpinor V)
    (l : InvertLocals) (s : QudaState V) :
    (invertQuda_source E h_b l s).1 = source_locals s.invert_param l s.brk := by
  cases h1 : s.invert_param.solution_type <;>
  by_cases h2 : s.invert_param.preserve_source = .QUDA_PRESERVE_SOURCE_YES <;>
  by_cases h3 : s.invert_param.matpc_type = .QUDA_MATPC_EVEN_EVEN <;>
    simp [invertQuda_source, source_locals, h1, h2, h3, allocateParitySpinor]

theorem source_trace_calls [Add V] [SMul ℚ V] (E : Extern V G) (h_b : HostSpinor V)
    (l : InvertLocals) (s : QudaState V) :
    (invertQuda_source E h_b l s).2.trace =
      s.trace ++ source_calls s.invert_param l s.brk := by
  cases h1 : s.invert_param.solution_type <;>
  by_cases h2 : s.invert_param.preserve_source = .QUDA_PRESERVE_SOURCE_YES <;>
  by_cases h3 : s.invert_param.matpc_type = .QUDA_MATPC_EVEN_EVEN <;>
  by_cases h4 : s.invert_param.mass_normalization = .QUDA_MASS_NORMALIZATION <;>
    simp [invertQuda_source, source_calls, source_locals, h1, h2, h3, h4, allocateParitySpinor,
      loadSpinorField, loadParitySpinor, axCuda, dslashXpaySCuda]

theorem solve_trace_calls (E : Extern V G) (l : InvertLocals) (s : QudaState V) :
    (invertQuda_solve E l s).state.trace = s.trace ++ solve_calls s.invert_param l := by
  cases hi : s.invert_param.inv_type with
  | QUDA_CG_INVERTER =>
    rw [solve_cg E l s hi]
    split_ifs <;>
    simp_all [solve_calls, Outcome.state, invertCgCuda, MatPCDagCuda, copyCuda,
      QudaState.applySolver]
  | QUDA_BICGSTAB_INVERTER =>
    rw [solve_bicgstab E l s hi]
    split_ifs <;>
    simp_all [solve_calls, Outcome.state, invertBiCGstabCuda, copyCuda, QudaState.applySolver]
  | unlisted code =>
    rw [solve_exits E l s code hi]
    simp [solve_calls, hi, Outcome.state]

theorem solution_trace_calls [Add V] [SMul ℚ V] (E : Extern V G) (h_b : HostSpinor V)
    (l : InvertLocals) (s : QudaState V) :
    (invertQuda_solution E h_b l s).trace = s.trace ++ solution_calls s.invert_param l := by
  cases h1 : s.invert_param.solution_type <;>
  cases h2 : s.invert_param.preserve_source <;>
  by_cases h3 : s.invert_param.matpc_type = .QUDA_MATPC_EVEN_EVEN <;>
    simp [invertQuda_solution, solution_calls, h1, h2, h3, loadSpinorField, dslashXpaySCuda,
      retrieveSpinorField, retrieveParitySpinor, freeParitySpinor, freeSpinorField]

theorem calls_congr {p q : QudaInvertParam} (h : ConfigEq p q) (l : InvertLocals)
    (brk : ParitySpinor) :
    source_locals q l brk = source_locals p l brk ∧
    source_calls q l brk = source_calls p l brk ∧
    solve_calls q l = solve_calls p l ∧ solution_calls q l = solution_calls p l := by
  obtain ⟨a1, a2, a3, a4, a5, a6, a7, a8, a9, a10, a11, a12⟩ := h
  simp only [source_locals, source_calls, solve_calls, solution_calls, a4, a5, a6, a7, a8, a10]
  exact ⟨trivial, trivial, trivial, trivial⟩

theorem prepared_configEq [Add V] [SMul ℚ V] (E : Extern V G) (L : Lattice)
    (h_b : HostSpinor V) (param : QudaInvertParam) (s : QudaState V) :
    ConfigEq param (invertQuda_prepared E L h_b param s).2.invert_param := by
  rw [prepared_invert_param]
  exact ⟨rfl, rfl, rfl, rfl, rfl, rfl, rfl, rfl, rfl, rfl, rfl, rfl⟩

theorem prepared_locals_eq [Add V] [SMul ℚ V] (E : Extern V G) (L : Lattice)
    (h_b : HostSpinor V) (param : QudaInvertParam) (s : QudaState V) :
    (invertQuda_prepared E L h_b param s).1 =
      source_locals param (setup_locals L param s.brk) (s.brk + 3) := by
  have hc : ConfigEq param (invertQuda_setup L { s with invert_param := param }).2.invert_param := by
    rw [setup_invert_param]
    exact ⟨rfl, rfl, rfl, rfl, rfl, rfl, rfl, rfl, rfl, rfl, rfl, rfl⟩
  simp only [invertQuda_prepared, source_locals_eq, setup_fst, setup_brk,
    (calls_congr hc _ _).1, setup_locals]

theorem prepared_trace_calls [Add V] [SMul ℚ V] (E : Extern V G) (L : Lattice)
    (h_b : HostSpinor V) (param : QudaInvertParam) (s : QudaState V) :
    (invertQuda_prepared E L h_b param s).2.trace = s.trace ++
      ([.allocateParitySpinor s.brk param.cuda_prec,
        .allocateParitySpinor (s.brk + 1) param.cuda_prec,
        .allocateParitySpinor (s.brk + 2) param.cuda_prec] ++
       source_calls param (setup_locals L param s.brk) (s.brk + 3)) := by
  have hc : ConfigEq param (invertQuda_setup L { s with invert_param := param }).2.invert_param := by
    rw [setup_invert_param]
    exact ⟨rfl, rfl, rfl, rfl, rfl, rfl, rfl, rfl, rfl, rfl, rfl, rfl⟩
  simp only [invertQuda_prepared, source_trace_calls, setup_fst, setup_brk, setup_trace,
    (calls_congr hc _ _).2.1, setup_locals, List.append_assoc]

theorem invertQuda_trace_calls [Add V] [SMul ℚ V] (E : Extern V G) (L : Lattice)
    (h_b : HostSpinor V) (param : QudaInvertParam) (s : QudaState V)
    (h1 : param.cuda_prec ≠ .QUDA_DOUBLE_PRECISION) (h2 : param.cpu_prec ≠ .QUDA_HALF_PRECISION) :
    (invertQuda E L h_b param s).state.trace = s.trace ++ invertQuda_calls L param s.brk := by
  have hp := prepared_configEq E L h_b param s
  have hs := solve_configEq E (invertQuda_prepared E L h_b param s).1
    (invertQuda_prepared E L h_b param s).2
  have ht := solve_trace_calls E (invertQuda_prepared E L h_b param s).1
    (invertQuda_prepared E L h_b param s).2
  cases hr : invertQuda_solve E (invertQuda_prepared E L h_b param s).1
      (invertQuda_prepared E L h_b param s).2 with
  | returned u s2 =>
    rw [hr] at hs ht
    rw [(calls_congr hp _ 0).2.2.1, prepared_trace_calls, prepared_locals_eq] at ht
    rw [invertQuda_of_returned E L h_b param s s2 h1 h2 hr]
    simp only [Outcome.state] at hs ht ⊢
    rw [solution_trace_calls, (calls_congr (configEq_trans hp hs) _ 0).2.2.2, ht,
      prepared_locals_eq]
    cases hi : param.inv_type with
    | unlisted code =>
      have hi2 : (invertQuda_prepared E L h_b param s).2.invert_param.inv_type =
          .unlisted code := by rw [hp.2.2.2.1, hi]
      rw [solve_exits E _ _ code hi2] at hr
      cases hr
    | QUDA_CG_INVERTER => simp [invertQuda_calls, hi, List.append_assoc]
    | QUDA_BICGSTAB_INVERTER => simp [invertQuda_calls, hi, List.append_assoc]
  | exited code s2 =>
    rw [hr] at ht
    rw [(calls_congr hp _ 0).2.2.1, prepared_trace_calls, prepared_locals_eq] at ht
    rw [invertQuda_of_exited E L h_b param s s2 code h1 h2 hr]
    simp only [Outcome.state] at ht ⊢
    rw [ht]
    cases hi : param.inv_type with
    | unlisted c => simp [invertQuda_calls, hi, List.append_assoc]
    | QUDA_CG_INVERTER =>
      have hi2 : (invertQuda_prepared E L h_b param s).2.invert_param.inv_type =
          .QUDA_CG_INVERTER := by rw [hp.2.2.2.1, hi]
      rw [solve_cg E _ _ hi2] at hr
      cases hr
    | QUDA_BICGSTAB_INVERTER =>
      have hi2 : (invertQuda_prepared E L h_b param s).2.invert_param.inv_type =
          .QUDA_BICGSTAB_INVERTER := by rw [hp.2.2.2.1, hi]
      rw [solve_bicgstab E _ _ hi2] at hr
      cases hr

theorem invertQuda_calls_forall (P : Event → Prop) (L : Lattice) (p : QudaInvertParam)
    (brk : ParitySpinor)
    (h0 : ∀ h prec, P (.allocateParitySpinor h prec))
    (h1 : ∀ l b, ∀ e ∈ source_calls p l b, P e)
    (h2 : ∀ l, ∀ e ∈ solve_calls p l, P e)
    (h3 : ∀ l, ∀ e ∈ solution_calls p l, P e) :
    ∀ e ∈ invertQuda_calls L p brk, P e := by
  intro e he
  simp only [invertQuda_calls, List.mem_append, List.mem_cons, List.mem_singleton,
    List.not_mem_nil, or_false] at he
  rcases he with ((he | he) | he) | he
  · rcases he with he | he | he <;> rw [he] <;> exact h0 _ _
  · exact h1 _ _ e he
  · exact h2 _ e he
  · cases hi : p.inv_type <;> rw [hi] at he <;> simp only [List.not_mem_nil] at he <;>
      exact h3 _ e he

theorem source_calls_operatorGauge (p : QudaInvertParam) (l : InvertLocals) (brk : ParitySpinor) :
    ∀ e ∈ source_calls p l brk, ∀ g, e.operatorGauge = some g → g = .cudaGaugePrecise := by
  unfold source_calls
  split_ifs <;> simp [Event.operatorGauge]

theorem solve_calls_operatorGauge (p : QudaInvertParam) (l : InvertLocals) :
    ∀ e ∈ solve_calls p l, ∀ g, e.operatorGauge = some g → g = .cudaGaugePrecise := by
  unfold solve_calls
  cases p.inv_type <;> simp only <;> (try split_ifs) <;> simp [Event.operatorGauge]

theorem solution_calls_operatorGauge (p : QudaInvertParam) (l : InvertLocals) :
    ∀ e ∈ solution_calls p l, ∀ g, e.operatorGauge = some g → g = .cudaGaugePrecise := by
  unfold solution_calls
  split_ifs <;> simp [Event.operatorGauge]

theorem invertQuda_calls_operatorGauge (L : Lattice) (p : QudaInvertParam) (brk : ParitySpinor) :
    ∀ e ∈ invertQuda_calls L p brk, ∀ g, e.operatorGauge = some g → g = .cudaGaugePrecise :=
  invertQuda_calls_forall _ L p brk (by simp [Event.operatorGauge])
    (source_calls_operatorGauge p) (solve_calls_operatorGauge p) (solution_calls_operatorGauge p)

theorem hostWriteLast_append (a b : List Event) (h : ∀ e ∈ a, e.isHostWrite = false) :
    hostWriteLast (a ++ b) = hostWriteLast b := by
  induction a with
  | nil => rfl
  | cons e es ih =>
    have he : e.isHostWrite = false := h e (List.mem_cons_self _ _)
    simp only [List.cons_append, hostWriteLast, he, Bool.false_eq_true, if_false]
    exact ih fun e' h' => h e' (List.mem_cons_of_mem _ h')

theorem source_calls_no_write (p : QudaInvertParam) (l : InvertLocals) (brk : ParitySpinor) :
    ∀ e ∈ source_calls p l brk, e.isHostWrite = false := by
  unfold source_calls
  split_ifs <;> simp [Event.isHostWrite]

theorem solve_calls_no_host (p : QudaInvertParam) (l : InvertLocals) :
    ∀ e ∈ solve_calls p l, e.isHostWrite = false ∧ e.isHostRead = false := by
  unfold solve_calls
  cases p.inv_type <;> simp only <;> (try split_ifs) <;>
    simp [Event.isHostWrite, Event.isHostRead]

theorem solution_calls_hostWriteLast (p : QudaInvertParam) (l : InvertLocals) :
    hostWriteLast (solution_calls p l) = true := by
  unfold solution_calls
  split_ifs <;> simp [hostWriteLast, Event.isHostWrite, Event.isHostRead]

theorem invertQuda_calls_hostWriteLast (L : Lattice) (p : QudaInvertParam) (brk : ParitySpinor) :
    hostWriteLast (invertQuda_calls L p brk) = true := by
  unfold invertQuda_calls
  simp only [List.append_assoc]
  rw [hostWriteLast_append _ _ (by simp [Event.isHostWrite]),
    hostWriteLast_append _ _ (source_calls_no_write p _ _),
    hostWriteLast_append _ _ (fun e he => (solve_calls_no_host p _ e he).1)]
  cases p.inv_type
  · exact solution_calls_hostWriteLast p _
  · exact solution_calls_hostWriteLast p _
  · rfl

theorem source_calls_allocated (p : QudaInvertParam) (l : InvertLocals) (brk : ParitySpinor) :
    (source_calls p l brk).flatMap Event.allocated =
      (if p.solution_type = .QUDA_MAT_SOLUTION ∧
          p.preserve_source = .QUDA_PRESERVE_SOURCE_YES then [brk, brk + 1] else []) ∧
    (source_calls p l brk).flatMap Event.freed = [] := by
  unfold source_calls
  split_ifs <;> simp_all [Event.allocated, Event.freed]

theorem solve_calls_allocated (p : QudaInvertParam) (l : InvertLocals) :
    (solve_calls p l).flatMap Event.allocated = [] ∧
    (solve_calls p l).flatMap Event.freed = [] := by
  unfold solve_calls
  cases p.inv_type <;> simp only <;> (try split_ifs) <;>
    simp [Event.allocated, Event.freed]

theorem solution_calls_allocated (p : QudaInvertParam) (l : InvertLocals) :
    (solution_calls p l).flatMap Event.allocated = [] ∧
    (solution_calls p l).flatMap Event.freed =
      (if p.solution_type = .QUDA_MAT_SOLUTION ∧
          p.preserve_source = .QUDA_PRESERVE_SOURCE_YES then [l.b.even, l.b.odd] else []) ++
      [l.tmp, l.inp, l.out] := by
  unfold solution_calls
  split_ifs <;> simp_all [Event.allocated, Event.freed]

theorem invertQuda_calls_of_listed (L : Lattice) (p : QudaInvertParam) (brk : ParitySpinor)
    (h : p.inv_type = .QUDA_CG_INVERTER ∨ p.inv_type = .QUDA_BICGSTAB_INVERTER) :
    invertQuda_calls L p brk =
      [.allocateParitySpinor brk p.cuda_prec, .allocateParitySpinor (brk + 1) p.cuda_prec,
       .allocateParitySpinor (brk + 2) p.cuda_prec] ++
      source_calls p (setup_locals L p brk) (brk + 3) ++
      solve_calls p (source_locals p (setup_locals L p brk) (brk + 3)) ++
      solution_calls p (source_locals p (setup_locals L p brk) (brk + 3)) := by
  rcases h with h | h <;> simp only [invertQuda_calls, h]

theorem invertQuda_calls_balanced (L : Lattice) (p : QudaInvertParam) (brk : ParitySpinor)
    (h : p.inv_type = .QUDA_CG_INVERTER ∨ p.inv_type = .QUDA_BICGSTAB_INVERTER) :
    AllocFreeBalanced (invertQuda_calls L p brk) := by
  unfold AllocFreeBalanced
  rw [invertQuda_calls_of_listed L p brk h]
  simp only [List.flatMap_append, source_calls_allocated, solve_calls_allocated,
    solution_calls_allocated]
  by_cases h1 : p.solution_type = .QUDA_MAT_SOLUTION <;>
  by_cases h2 : p.preserve_source = .QUDA_PRESERVE_SOURCE_YES <;>
    simp [h1, h2, source_locals, setup_locals, Event.allocated, Event.freed, List.count_cons, add_assoc] <;>
    intro h <;> split_ifs <;> omega

theorem invertQuda_calls_parity (L : Lattice) (p : QudaInvertParam) (brk : ParitySpinor)
    (h1 : p.solution_type = .QUDA_MAT_SOLUTION)
    (h2 : p.preserve_source = .QUDA_PRESERVE_SOURCE_YES ∨
      p.preserve_source = .QUDA_PRESERVE_SOURCE_NO)
    (h : p.inv_type = .QUDA_CG_INVERTER ∨ p.inv_type = .QUDA_BICGSTAB_INVERTER) :
    ParityConsistent (invertQuda_calls L p brk) := by
  unfold ParityConsistent
  rw [invertQuda_calls_of_listed L p brk h]
  by_cases h3 : p.matpc_type = .QUDA_MATPC_EVEN_EVEN <;>
  by_cases h4 : p.mass_normalization = .QUDA_MASS_NORMALIZATION <;>
  rcases h with h5 | h5 <;>
  rcases h2 with h2 | h2 <;>
    simp [source_calls, solve_calls, solution_calls, source_locals,
      setup_locals, h1, h2, h3, h4, h5, parityReplay, parityStep, Function.update_apply,
      add_assoc]

theorem MatQuda_trace_calls [Add V] [SMul ℚ V] (E : Extern V G) (h_in : HostSpinor V)
    (inv_param : QudaInvertParam) (s : QudaState V) :
    (MatQuda E h_in inv_param s).trace =
      s.trace ++ Mat_calls s.brk inv_param.cuda_prec inv_param.kappa 0 ∧
    (MatDagQuda E h_in inv_param s).trace =
      s.trace ++ Mat_calls s.brk inv_param.cuda_prec inv_param.kappa 1 := by
  constructor
  · simp [MatQuda, Mat_calls, allocateParitySpinor, loadSpinorField, dslashCuda, xpayCuda,
      retrieveSpinorField, freeParitySpinor, QudaState.store, QudaState.emit]
  · simp [MatDagQuda, Mat_calls, allocateParitySpinor, loadSpinorField, dslashCuda, xpayCuda,
      retrieveSpinorField, freeParitySpinor, QudaState.store, QudaState.emit]

theorem dslashQuda_trace_calls (E : Extern V G) (O : ExternOps V) (L : Lattice)
    (h_in : HostSpinor V) (inv_param : QudaInvertParam) (parity dagger : Int)
    (s : QudaState V) :
    (dslashQuda E O L h_in inv_param parity dagger s).trace =
      s.trace ++ dslashQuda_calls L s.brk inv_param.cuda_prec (O.normCuda h_in.even)
        parity dagger := by
  simp [dslashQuda, dslashQuda_calls, allocateParitySpinor, loadParitySpinor, normCuda,
    dslashCuda, retrieveParitySpinor, freeParitySpinor, QudaState.store, QudaState.emit]

theorem MatPCQuda_trace_calls (E : Extern V G) (O : ExternOps V) (h_in : HostSpinor V)
    (inv_param : QudaInvertParam) (s : QudaState V) :
    (MatPCQuda O h_in inv_param s).trace =
      s.trace ++ MatPC_calls s.brk inv_param.cuda_prec
        (.MatPCCuda (s.brk + 1) .cudaGaugePrecise s.brk inv_param.kappa (s.brk + 2)
          inv_param.matpc_type) ∧
    (MatPCDagQuda E h_in inv_param s).trace =
      s.trace ++ MatPC_calls s.brk inv_param.cuda_prec
        (.MatPCDagCuda (s.brk + 1) .cudaGaugePrecise s.brk inv_param.kappa (s.brk + 2)
          inv_param.matpc_type) ∧
    (MatPCDagMatPCQuda O h_in inv_param s).trace =
      s.trace ++ MatPC_calls s.brk inv_param.cuda_prec
        (.MatPCDagMatPCCuda (s.brk + 1) .cudaGaugePrecise s.brk inv_param.kappa (s.brk + 2)
          inv_param.matpc_type) := by
  refine ⟨?_, ?_, ?_⟩
  · simp [MatPCQuda, MatPC_calls, allocateParitySpinor, loadParitySpinor, MatPCCuda,
      retrieveParitySpinor, freeParitySpinor, QudaState.store, QudaState.emit]
  · simp [MatPCDagQuda, MatPC_calls, allocateParitySpinor, loadParitySpinor, MatPCDagCuda,
      retrieveParitySpinor, freeParitySpinor, QudaState.store, QudaState.emit]
  · simp [MatPCDagMatPCQuda, MatPC_calls, allocateParitySpinor, loadParitySpinor,
      MatPCDagMatPCCuda, retrieveParitySpinor, freeParitySpinor, QudaState.store,
      QudaState.emit]

theorem Mat_calls_balanced (brk : ParitySpinor) (precision : Precision) (kappa : ℚ)
    (dagger : Int) : AllocFreeBalanced (Mat_calls brk precision kappa dagger) := by
  unfold AllocFreeBalanced
  simp [Mat_calls, Event.allocated, Event.freed, List.count_cons, add_assoc]

theorem dslashQuda_calls_balanced (L : Lattice) (brk : ParitySpinor) (precision : Precision)
    (norm : ℚ) (parity dagger : Int) :
    AllocFreeBalanced (dslashQuda_calls L brk precision norm parity dagger) := by
  unfold AllocFreeBalanced
  simp [dslashQuda_calls, Event.allocated, Event.freed, List.count_cons, add_assoc]
  intro h; split_ifs <;> omega

theorem MatPC_calls_balanced (brk : ParitySpinor) (precision : Precision) (op : Event)
    (h1 : op.allocated = []) (h2 : op.freed = []) :
    AllocFreeBalanced (MatPC_calls brk precision op) := by
  unfold AllocFreeBalanced
  simp only [MatPC_calls, List.flatMap_cons, List.flatMap_nil, h1, h2]
  simp [Event.allocated, Event.freed, List.count_cons, add_assoc]
  intro h; split_ifs <;> omega

theorem Mat_calls_parity (brk : ParitySpinor) (precision : Precision) (kappa : ℚ)
    (dagger : Int) : ParityConsistent (Mat_calls brk precision kappa dagger) := by
  simp [ParityConsistent, Mat_calls, parityReplay, parityStep, Function.update_apply,
    add_assoc]

theorem source_calls_parityDeclared (p : QudaInvertParam) (l : InvertLocals)
    (brk : ParitySpinor) :
    ∀ e ∈ source_calls p l brk,
      e.parityDeclared (declaredParities p (source_locals p l brk)) := by
  cases h1 : p.solution_type <;>
  by_cases h2 : p.preserve_source = .QUDA_PRESERVE_SOURCE_YES <;>
  by_cases h3 : p.matpc_type = .QUDA_MATPC_EVEN_EVEN <;>
  by_cases h4 : p.mass_normalization = .QUDA_MASS_NORMALIZATION <;>
    simp [source_calls, source_locals, declaredParities, Event.parityDeclared, h1, h2, h3, h4]

theorem solve_calls_parityDeclared (p : QudaInvertParam) (l : InvertLocals)
    (names : List (ParitySpinor × Int)) :
    ∀ e ∈ solve_calls p l, e.parityDeclared names := by
  unfold solve_calls
  cases p.inv_type <;> simp only <;> (try split_ifs) <;> simp [Event.parityDeclared]

theorem solution_calls_parityDeclared (p : QudaInvertParam) (l : InvertLocals) :
    ∀ e ∈ solution_calls p l,
      e.parityDeclared (declaredParities p (solution_locals p l)) := by
  cases h1 : p.solution_type <;>
  cases h2 : p.preserve_source <;>
  by_cases h3 : p.matpc_type = .QUDA_MATPC_EVEN_EVEN <;>
    simp [solution_calls, solution_locals, declaredParities, Event.parityDeclared, h1, h2, h3]

theorem source_h_x [Add V] [SMul ℚ V] (E : Extern V G) (h_b : HostSpinor V)
    (l : InvertLocals) (s : QudaState V) :
    (invertQuda_source E h_b l s).2.h_x = s.h_x := by
  cases h1 : s.invert_param.solution_type <;>
  by_cases h2 : s.invert_param.preserve_source = .QUDA_PRESERVE_SOURCE_YES <;>
  by_cases h3 : s.invert_param.matpc_type = .QUDA_MATPC_EVEN_EVEN <;>
  by_cases h4 : s.invert_param.mass_normalization = .QUDA_MASS_NORMALIZATION <;>
    simp [invertQuda_source, h1, h2, h3, h4, allocateParitySpinor, loadSpinorField,
      loadParitySpinor, axCuda, dslashXpaySCuda]

theorem solve_h_x (E : Extern V G) (l : InvertLocals) (s : QudaState V) :
    (invertQuda_solve E l s).state.h_x = s.h_x := by
  cases hi : s.invert_param.inv_type with
  | QUDA_CG_INVERTER =>
    rw [solve_cg E l s hi]
    split_ifs <;>
    simp [Outcome.state, invertCgCuda, MatPCDagCuda, copyCuda, QudaState.applySolver]
  | QUDA_BICGSTAB_INVERTER =>
    rw [solve_bicgstab E l s hi]
    split_ifs <;>
    simp [Outcome.state, invertBiCGstabCuda, copyCuda, QudaState.applySolver]
  | unlisted code =>
    rw [solve_exits E l s code hi]
    simp [Outcome.state]

theorem invertQuda_exited_h_x [Add V] [SMul ℚ V] (E : Extern V G) (L : Lattice)
    (h_b : HostSpinor V) (param : QudaInvertParam) (s s' : QudaState V) (code : Int)
    (h : invertQuda E L h_b param s = .exited code s') : s'.h_x = s.h_x := by
  by_cases h1 : param.cuda_prec = .QUDA_DOUBLE_PRECISION
  · simp only [invertQuda, h1, if_true, Outcome.exited.injEq] at h
    rw [← h.2]; rfl
  · by_cases h2 : param.cpu_prec = .QUDA_HALF_PRECISION
    · simp only [invertQuda, h1, h2, if_true, if_false, Outcome.exited.injEq] at h
      rw [← h.2]; rfl
    · have hx := solve_h_x E (invertQuda_prepared E L h_b param s).1
        (invertQuda_prepared E L h_b param s).2
      cases hr : invertQuda_solve E (invertQuda_prepared E L h_b param s).1
          (invertQuda_prepared E L h_b param s).2 with
      | returned u s2 =>
        rw [invertQuda_of_returned E L h_b param s s2 h1 h2 hr] at h
        cases h
      | exited c s2 =>
        rw [invertQuda_of_exited E L h_b param s s2 c h1 h2 hr] at h
        rw [hr] at hx
        simp only [Outcome.exited.injEq] at h
        rw [← h.2]
        simp only [Outcome.state] at hx
        rw [hx]
        simp only [invertQuda_prepared, source_h_x, setup_h_x]

theorem invertQuda_returns [Add V] [SMul ℚ V] (E : Extern V G) (L : Lattice)
    (h_b : HostSpinor V) (param : QudaInvertParam) (s : QudaState V)
    (h1 : param.cuda_prec ≠ .QUDA_DOUBLE_PRECISION) (h2 : param.cpu_prec ≠ .QUDA_HALF_PRECISION)
    (hi : param.inv_type = .QUDA_CG_INVERTER ∨ param.inv_type = .QUDA_BICGSTAB_INVERTER) :
    invertQuda E L h_b param s = .returned () (invertQuda E L h_b param s).state := by
  have hi2 : (invertQuda_prepared E L h_b param s).2.invert_param.inv_type =
        .QUDA_CG_INVERTER ∨
      (invertQuda_prepared E L h_b param s).2.invert_param.inv_type =
        .QUDA_BICGSTAB_INVERTER := by
    rw [prepared_invert_param_inv_type]; exact hi
  have hr := solve_returns E (invertQuda_prepared E L h_b param s).1
    (invertQuda_prepared E L h_b param s).2 hi2
  rw [invertQuda_of_returned E L h_b param s _ h1 h2 hr]
  rfl

theorem invertQuda_calls_allocated (L : Lattice) (p : QudaInvertParam) (brk : ParitySpinor)
    (h : p.inv_type = .QUDA_CG_INVERTER ∨ p.inv_type = .QUDA_BICGSTAB_INVERTER) :
    (invertQuda_calls L p brk).flatMap Event.allocated =
      [brk, brk + 1, brk + 2] ++
      (if p.solution_type = .QUDA_MAT_SOLUTION ∧
          p.preserve_source = .QUDA_PRESERVE_SOURCE_YES then [brk + 3, brk + 4] else []) := by
  rw [invertQuda_calls_of_listed L p brk h]
  simp only [List.flatMap_append, source_calls_allocated, solve_calls_allocated,
    solution_calls_allocated]
  simp [Event.allocated, add_assoc]

theorem prepared_of_unlisted_solution [Add V] [SMul ℚ V] (E : Extern V G) (L : Lattice)
    (h_b : HostSpinor V) (param : QudaInvertParam) (s : QudaState V) (code : Int)
    (hs : param.solution_type = .unlisted code) :
    invertQuda_prepared E L h_b param s = invertQuda_setup L { s with invert_param := param } := by
  have h : (invertQuda_setup L { s with invert_param := param }).2.invert_param.solution_type =
      .unlisted code := by rw [setup_invert_param]; exact hs
  simp [invertQuda_prepared, invertQuda_source, h]

theorem solution_of_unlisted_solution [Add V] [SMul ℚ V] (E : Extern V G)
    (h_b : HostSpinor V) (l : InvertLocals) (s : QudaState V) (code : Int)
    (hs : s.invert_param.solution_type = .unlisted code) :
    invertQuda_solution E h_b l s =
      freeParitySpinor l.out (freeParitySpinor l.inp (freeParitySpinor l.tmp
        (retrieveParitySpinor .h_x l.out s))) := by
  simp [invertQuda_solution, hs]

theorem solve_spinorGiB (E : Extern V G) (l : InvertLocals) (s : QudaState V) :
    (invertQuda_solve E l s).state.invert_param.spinorGiB = s.invert_param.spinorGiB := by
  cases hi : s.invert_param.inv_type with
  | QUDA_CG_INVERTER =>
    rw [solve_cg E l s hi]
    split_ifs <;>
    simp [Outcome.state, invertCgCuda, MatPCDagCuda, copyCuda, QudaState.applySolver]
  | QUDA_BICGSTAB_INVERTER =>
    rw [solve_bicgstab E l s hi]
    split_ifs <;>
    simp [Outcome.state, invertBiCGstabCuda, copyCuda, QudaState.applySolver]
  | unlisted code =>
    rw [solve_exits E l s code hi]
    simp [Outcome.state]

theorem invertQuda_spinorGiB_eq [Add V] [SMul ℚ V] (E : Extern V G) (L : Lattice)
    (h_b : HostSpinor V) (param : QudaInvertParam) (s : QudaState V)
    (h1 : param.cuda_prec ≠ .QUDA_DOUBLE_PRECISION) (h2 : param.cpu_prec ≠ .QUDA_HALF_PRECISION) :
    (invertQuda E L h_b param s).state.invert_param.spinorGiB =
      (if param.preserve_source = .QUDA_PRESERVE_SOURCE_NO then
        (if param.inv_type = .QUDA_CG_INVERTER then 5 else 7)
       else (if param.inv_type = .QUDA_CG_INVERTER then 8 else 9) : ℚ) * 4 *
        ((L.Nh * L.spinorSiteSize : Int) : ℚ) / 2 ^ 30 := by
  have hg := solve_spinorGiB E (invertQuda_prepared E L h_b param s).1
    (invertQuda_prepared E L h_b param s).2
  have hp : (invertQuda_prepared E L h_b param s).2.invert_param.spinorGiB =
      (if param.preserve_source = .QUDA_PRESERVE_SOURCE_NO then
        (if param.inv_type = .QUDA_CG_INVERTER then 5 else 7)
       else (if param.inv_type = .QUDA_CG_INVERTER then 8 else 9) : ℚ) * 4 *
        ((L.Nh * L.spinorSiteSize : Int) : ℚ) / 2 ^ 30 := by
    rw [prepared_invert_param]
    simp only
    split_ifs <;> ring
  cases hr : invertQuda_solve E (invertQuda_prepared E L h_b param s).1
      (invertQuda_prepared E L h_b param s).2 with
  | returned u s2 =>
    rw [hr] at hg
    rw [invertQuda_of_returned E L h_b param s s2 h1 h2 hr]
    simp only [Outcome.state, solution_invert_param] at hg ⊢
    rw [hg, hp]
  | exited code s2 =>
    rw [hr] at hg
    rw [invertQuda_of_exited E L h_b param s s2 code h1 h2 hr]
    simp only [Outcome.state] at hg ⊢
    rw [hg, hp]

theorem solve_out_mat (E : Extern V G) (l : InvertLocals) (s : QudaState V)
    (hsol : s.invert_param.solution_type = .QUDA_MAT_SOLUTION)
    (h1 : l.inp ≠ l.out) (h2 : l.out ≠ l.tmp) (h3 : l.inp ≠ l.tmp) :
    (invertQuda_solve E l s).state.spinor l.out =
      match s.invert_param.inv_type with
      | .QUDA_CG_INVERTER =>
        (E.invertCgCuda s.cudaGaugeSloppy s.invert_param (s.spinor l.inp)
          (E.MatPCDagCuda s.cudaGaugePrecise l.kappa s.invert_param.matpc_type
            (s.spinor l.inp) (s.spinor l.inp) (s.spinor l.tmp)).1
          (E.MatPCDagCuda s.cudaGaugePrecise l.kappa s.invert_param.matpc_type
            (s.spinor l.inp) (s.spinor l.inp) (s.spinor l.tmp)).2).out
      | .QUDA_BICGSTAB_INVERTER =>
        (E.invertBiCGstabCuda s.cudaGaugeSloppy s.cudaGaugePrecise s.invert_param
          .QUDA_DAG_NO (s.spinor l.out) (s.spinor l.inp) (s.spinor l.tmp)).out
      | .unlisted _ => s.spinor l.out := by
  cases hi : s.invert_param.inv_type with
  | QUDA_CG_INVERTER =>
    rw [solve_cg E l s hi]
    simp [Outcome.state, invertCgCuda, MatPCDagCuda, copyCuda, QudaState.applySolver,
      QudaState.gauge, QudaState.store, QudaState.emit, Function.update_apply, hsol,
      h1, h2, h3, Ne.symm h1, Ne.symm h2, Ne.symm h3]
  | QUDA_BICGSTAB_INVERTER =>
    rw [solve_bicgstab E l s hi]
    simp [Outcome.state, invertBiCGstabCuda, QudaState.applySolver,
      QudaState.gauge, QudaState.store, QudaState.emit, Function.update_apply, hsol]
  | unlisted code =>
    rw [solve_exits E l s code hi]
    simp [Outcome.state]

theorem source_cudaGaugeSloppy [Add V] [SMul ℚ V] (E : Extern V G) (h_b : HostSpinor V)
    (l : InvertLocals) (s : QudaState V) :
    (invertQuda_source E h_b l s).2.cudaGaugeSloppy = s.cudaGaugeSloppy := by
  cases h1 : s.invert_param.solution_type <;>
  by_cases h2 : s.invert_param.preserve_source = .QUDA_PRESERVE_SOURCE_YES <;>
  by_cases h3 : s.invert_param.matpc_type = .QUDA_MATPC_EVEN_EVEN <;>
  by_cases h4 : s.invert_param.mass_normalization = .QUDA_MASS_NORMALIZATION <;>
    simp [invertQuda_source, h1, h2, h3, h4, allocateParitySpinor, loadSpinorField,
      loadParitySpinor, axCuda, dslashXpaySCuda, QudaState.store, QudaState.emit]

theorem prepared_cudaGaugeSloppy [Add V] [SMul ℚ V] (E : Extern V G) (L : Lattice)
    (h_b : HostSpinor V) (param : QudaInvertParam) (s : QudaState V) :
    (invertQuda_prepared E L h_b param s).2.cudaGaugeSloppy = s.cudaGaugeSloppy := by
  simp only [invertQuda_prepared, source_cudaGaugeSloppy]
  rfl

theorem mat_h_x [Add V] [SMul ℚ V] (E : Extern V G) (L : Lattice)
    (h_b : HostSpinor V) (param : QudaInvertParam) (s : QudaState V)
    (hsol : param.solution_type = .QUDA_MAT_SOLUTION)
    (hpres : param.preserve_source = .QUDA_PRESERVE_SOURCE_YES ∨
      param.preserve_source = .QUDA_PRESERVE_SOURCE_NO)
    (hcuda : param.cuda_prec ≠ .QUDA_DOUBLE_PRECISION)
    (hcpu : param.cpu_prec ≠ .QUDA_HALF_PRECISION)
    (hinv : param.inv_type = .QUDA_CG_INVERTER ∨ param.inv_type = .QUDA_BICGSTAB_INVERTER) :
    (invertQuda E L h_b param s).state.h_x =
      if param.matpc_type = .QUDA_MATPC_EVEN_EVEN then
        ⟨(invertQuda_solve E (invertQuda_prepared E L h_b param s).1
            (invertQuda_prepared E L h_b param s).2).state.spinor (s.brk + 1),
         (if param.preserve_source = .QUDA_PRESERVE_SOURCE_YES then
            (invertQuda_loadedSource E L h_b param s).odd else h_b.odd) +
          param.kappa • E.dslash s.cudaGaugePrecise 1 0
            ((invertQuda_solve E (invertQuda_prepared E L h_b param s).1
              (invertQuda_prepared E L h_b param s).2).state.spinor (s.brk + 1))⟩
      else
        ⟨(if param.preserve_source = .QUDA_PRESERVE_SOURCE_YES then
            (invertQuda_loadedSource E L h_b param s).even else h_b.even) +
          param.kappa • E.dslash s.cudaGaugePrecise 0 0
            ((invertQuda_solve E (invertQuda_prepared E L h_b param s).1
              (invertQuda_prepared E L h_b param s).2).state.spinor (s.brk + 1)),
         (invertQuda_solve E (invertQuda_prepared E L h_b param s).1
            (invertQuda_prepared E L h_b param s).2).state.spinor (s.brk + 1)⟩ := by
  have hi := prepared_invert_param_inv_type E L h_b param s
  rw [← hi] at hinv
  rw [invertQuda_of_returned E L h_b param s _ hcuda hcpu (solve_returns E _ _ hinv)]
  have hg := solve_cudaGaugePrecise E (invertQuda_prepared E L h_b param s).1
    (invertQuda_prepared E L h_b param s).2
  have hPg := prepared_cudaGaugePrecise E L h_b param s
  rw [hPg] at hg
  have hfr := solve_spinor_of_ne E (invertQuda_prepared E L h_b param s).1
    (invertQuda_prepared E L h_b param s).2
  obtain ⟨c1, c2, c3, -⟩ := sameConfig_trans (prepared_config E L h_b param s)
    (solve_config E (invertQuda_prepared E L h_b param s).1
      (invertQuda_prepared E L h_b param s).2)
  have hl := prepared_locals_eq E L h_b param s
  rw [hsol] at c1
  unfold invertQuda_loadedSource
  rcases hpres with hp | hp <;> by_cases hm : param.matpc_type = .QUDA_MATPC_EVEN_EVEN
  all_goals
    simp only [source_locals, setup_locals, hsol, hp, hm, if_true, if_false] at hl
    have hS3 := hfr (s.brk + 3)
    have hS4 := hfr (s.brk + 4)
    rw [hl] at hS3 hS4
    have hS3 := hS3 (by simp) (by simp) (by simp)
    have hS4 := hS4 (by simp) (by simp) (by simp)
    clear hfr
    rw [hl] at hg c1 c2 c3 ⊢
    rw [hp] at c2
    generalize (invertQuda_solve E _ (invertQuda_prepared E L h_b param s).2).state = S2 at *
    simp [Outcome.state, invertQuda_solution, c1, c2, c3, hp, hm, loadSpinorField,
      dslashXpaySCuda, retrieveSpinorField, freeParitySpinor, freeSpinorField,
      QudaState.gauge, hg, hS3, hS4, Function.update_apply]

theorem solve_out_cg [Add V] [SMul ℚ V] (E : Extern V G) (L : Lattice)
    (h_b : HostSpinor V) (p : QudaInvertParam) (s : QudaState V) (kappa : ℚ)
    (m : QudaMatPCType) (hk : p.kappa = kappa) (hm : p.matpc_type = m)
    (hsol : p.solution_type = .QUDA_MAT_SOLUTION) (hi : p.inv_type = .QUDA_CG_INVERTER) :
    (invertQuda_solve E (invertQuda_prepared E L h_b p s).1
      (invertQuda_prepared E L h_b p s).2).state.spinor (s.brk + 1) =
      (E.invertCgCuda s.cudaGaugeSloppy (invertQuda_prepared E L h_b p s).2.invert_param
        (invertQuda_preparedSource E L h_b p s)
        (E.MatPCDagCuda s.cudaGaugePrecise kappa m
          (invertQuda_preparedSource E L h_b p s) (invertQuda_preparedSource E L h_b p s)
          ((invertQuda_prepared E L h_b p s).2.spinor (s.brk + 2))).1
        (E.MatPCDagCuda s.cudaGaugePrecise kappa m
          (invertQuda_preparedSource E L h_b p s) (invertQuda_preparedSource E L h_b p s)
          ((invertQuda_prepared E L h_b p s).2.spinor (s.brk + 2))).2).out := by
  obtain ⟨l1, l2, l3, l4⟩ := prepared_handles E L h_b p s
  have hc := prepared_configEq E L h_b p s
  have h := solve_out_mat E (invertQuda_prepared E L h_b p s).1
    (invertQuda_prepared E L h_b p s).2 (by rw [hc.2.2.2.2.1, hsol])
    (by rw [l1, l2]; simp) (by rw [l2, l3]; simp) (by rw [l1, l3]; simp)
  rw [l2, l1, l3, l4, prepared_cudaGaugePrecise, prepared_cudaGaugeSloppy, hc.2.2.2.1,
    hc.2.2.2.2.2.1, hi, hk, hm] at h
  simp only [invertQuda_preparedSource, l1]
  exact h

theorem solve_out_bicgstab [Add V] [SMul ℚ V] (E : Extern V G) (L : Lattice)
    (h_b : HostSpinor V) (p : QudaInvertParam) (s : QudaState V)
    (hsol : p.solution_type = .QUDA_MAT_SOLUTION)
    (hi : p.inv_type = .QUDA_BICGSTAB_INVERTER) :
    (invertQuda_solve E (invertQuda_prepared E L h_b p s).1
      (invertQuda_prepared E L h_b p s).2).state.spinor (s.brk + 1) =
      (E.invertBiCGstabCuda s.cudaGaugeSloppy s.cudaGaugePrecise
        (invertQuda_prepared E L h_b p s).2.invert_param .QUDA_DAG_NO
        ((invertQuda_prepared E L h_b p s).2.spinor (s.brk + 1))
        (invertQuda_preparedSource E L h_b p s)
        ((invertQuda_prepared E L h_b p s).2.spinor (s.brk + 2))).out := by
  obtain ⟨l1, l2, l3, l4⟩ := prepared_handles E L h_b p s
  have hc := prepared_configEq E L h_b p s
  have h := solve_out_mat E (invertQuda_prepared E L h_b p s).1
    (invertQuda_prepared E L h_b p s).2 (by rw [hc.2.2.2.2.1, hsol])
    (by rw [l1, l2]; simp) (by rw [l2, l3]; simp) (by rw [l1, l3]; simp)
  rw [l2, l1, l3, prepared_cudaGaugePrecise, prepared_cudaGaugeSloppy, hc.2.2.2.1, hi] at h
  simp only [invertQuda_preparedSource, l1]
  exact h

theorem solve_out_preserve_independent [Add V] [SMul ℚ V] (E : Extern V G) (L : Lattice)
    (h_b : HostSpinor V) (param : QudaInvertParam) (s : QudaState V)
    (hob : SolverOblivious E) (hsol : param.solution_type = .QUDA_MAT_SOLUTION)
    (hinv : param.inv_type = .QUDA_CG_INVERTER ∨ param.inv_type = .QUDA_BICGSTAB_INVERTER) :
    (invertQuda_solve E
      (invertQuda_prepared E L h_b
        { param with preserve_source := .QUDA_PRESERVE_SOURCE_YES } s).1
      (invertQuda_prepared E L h_b
        { param with preserve_source := .QUDA_PRESERVE_SOURCE_YES } s).2).state.spinor
        (s.brk + 1) =
    (invertQuda_solve E
      (invertQuda_prepared E L h_b
        { param with preserve_source := .QUDA_PRESERVE_SOURCE_NO } s).1
      (invertQuda_prepared E L h_b
        { param with preserve_source := .QUDA_PRESERVE_SOURCE_NO } s).2).state.spinor
        (s.brk + 1) := by
  obtain ⟨hM, hC, hB⟩ := hob
  have hsrc : invertQuda_preparedSource E L h_b
        { param with preserve_source := .QUDA_PRESERVE_SOURCE_YES } s =
      invertQuda_preparedSource E L h_b
        { param with preserve_source := .QUDA_PRESERVE_SOURCE_NO } s := by
    rw [mat_prepared_source E L h_b { param with preserve_source := .QUDA_PRESERVE_SOURCE_YES }
        s hsol,
      mat_prepared_source E L h_b { param with preserve_source := .QUDA_PRESERVE_SOURCE_NO }
        s hsol,
      mat_loaded_source E L h_b { param with preserve_source := .QUDA_PRESERVE_SOURCE_YES }
        s hsol,
      mat_loaded_source E L h_b { param with preserve_source := .QUDA_PRESERVE_SOURCE_NO }
        s hsol]
  have hpar : (invertQuda_prepared E L h_b
        { param with preserve_source := .QUDA_PRESERVE_SOURCE_YES } s).2.invert_param =
      { (invertQuda_prepared E L h_b
          { param with preserve_source := .QUDA_PRESERVE_SOURCE_NO } s).2.invert_param with
        preserve_source := .QUDA_PRESERVE_SOURCE_YES
        spinorGiB := (invertQuda_prepared E L h_b
          { param with preserve_source := .QUDA_PRESERVE_SOURCE_YES } s).2.invert_param.spinorGiB } := by
    rw [prepared_invert_param, prepared_invert_param]
  rcases hinv with hi | hi
  · rw [solve_out_cg E L h_b { param with preserve_source := .QUDA_PRESERVE_SOURCE_YES } s
        param.kappa param.matpc_type rfl rfl hsol hi,
      solve_out_cg E L h_b { param with preserve_source := .QUDA_PRESERVE_SOURCE_NO } s
        param.kappa param.matpc_type rfl rfl hsol hi, hsrc, hpar]
    generalize (invertQuda_prepared E L h_b
      { param with preserve_source := .QUDA_PRESERVE_SOURCE_YES } s).2.spinor (s.brk + 2) = tY
    generalize (invertQuda_prepared E L h_b
      { param with preserve_source := .QUDA_PRESERVE_SOURCE_NO } s).2.spinor (s.brk + 2) = tN
    generalize (invertQuda_prepared E L h_b
      { param with preserve_source := .QUDA_PRESERVE_SOURCE_YES } s).2.invert_param.spinorGiB = gY
    generalize (invertQuda_prepared E L h_b
      { param with preserve_source := .QUDA_PRESERVE_SOURCE_NO } s).2.invert_param = pN
    generalize invertQuda_preparedSource E L h_b
      { param with preserve_source := .QUDA_PRESERVE_SOURCE_NO } s = src
    rw [hM s.cudaGaugePrecise param.kappa param.matpc_type src src src tN tY]
    exact hC _ _ _ _ _ _ _ _ _
  · rw [solve_out_bicgstab E L h_b { param with preserve_source := .QUDA_PRESERVE_SOURCE_YES }
        s hsol hi,
      solve_out_bicgstab E L h_b { param with preserve_source := .QUDA_PRESERVE_SOURCE_NO }
        s hsol hi, hsrc, hpar]
    exact hB _ _ _ _ _ _ _ _ _ _ _

theorem invertQuda_preserve_source_agree [Add V] [SMul ℚ V] (E : Extern V G) (L : Lattice)
    (h_b : HostSpinor V) (param : QudaInvertParam) (s : QudaState V)
    (hob : SolverOblivious E) (hsol : param.solution_type = .QUDA_MAT_SOLUTION)
    (hmass : param.mass_normalization ≠ .QUDA_MASS_NORMALIZATION)
    (hcuda : param.cuda_prec ≠ .QUDA_DOUBLE_PRECISION)
    (hcpu : param.cpu_prec ≠ .QUDA_HALF_PRECISION)
    (hinv : param.inv_type = .QUDA_CG_INVERTER ∨ param.inv_type = .QUDA_BICGSTAB_INVERTER) :
    (invertQuda E L h_b { param with preserve_source := .QUDA_PRESERVE_SOURCE_YES } s).state.h_x =
      (invertQuda E L h_b { param with preserve_source := .QUDA_PRESERVE_SOURCE_NO }
        s).state.h_x := by
  rw [mat_h_x E L h_b { param with preserve_source := .QUDA_PRESERVE_SOURCE_YES } s hsol
      (Or.inl rfl) hcuda hcpu hinv,
    mat_h_x E L h_b { param with preserve_source := .QUDA_PRESERVE_SOURCE_NO } s hsol
      (Or.inr rfl) hcuda hcpu hinv,
    solve_out_preserve_independent E L h_b param s hob hsol hinv,
    mat_loaded_source E L h_b { param with preserve_source := .QUDA_PRESERVE_SOURCE_YES } s hsol]
  simp [hmass]

theorem endQuda_freed_eq (O : ExternOps V) (s : QudaState V) :
    endQuda_freed O s = gaugeStorage s.cudaGaugePrecise ++ gaugeStorage s.cudaGaugeSloppy := by
  simp [endQuda_freed, freeSpinorBuffer, freeGaugeField, QudaState.setGauge, QudaState.emit]

theorem endQuda_trace (O : ExternOps V) (s : QudaState V) :
    (endQuda O s).trace = s.trace ++
      [.freeSpinorBuffer, .freeGaugeField .cudaGaugePrecise,
       .freeGaugeField .cudaGaugeSloppy] := by
  simp [endQuda, freeSpinorBuffer, freeGaugeField, QudaState.setGauge, QudaState.emit]

theorem source_calls_hostAccess (p : QudaInvertParam) (l : InvertLocals) (brk : ParitySpinor) :
    ∀ e ∈ source_calls p l brk, e.hostAccess .h_b .h_x := by
  unfold source_calls
  split_ifs <;> simp [Event.hostAccess, Event.hostRead, Event.hostWritten]

theorem solve_calls_hostAccess (p : QudaInvertParam) (l : InvertLocals) :
    ∀ e ∈ solve_calls p l, e.hostAccess .h_b .h_x := by
  unfold solve_calls
  cases p.inv_type <;> simp only <;> (try split_ifs) <;>
    simp [Event.hostAccess, Event.hostRead, Event.hostWritten]

theorem solution_calls_hostAccess (p : QudaInvertParam) (l : InvertLocals) :
    ∀ e ∈ solution_calls p l, e.hostAccess .h_b .h_x := by
  unfold solution_calls
  split_ifs <;> simp [Event.hostAccess, Event.hostRead, Event.hostWritten]

theorem invertQuda_calls_hostAccess (L : Lattice) (p : QudaInvertParam) (brk : ParitySpinor) :
    ∀ e ∈ invertQuda_calls L p brk, e.hostAccess .h_b .h_x :=
  invertQuda_calls_forall _ L p brk
    (by simp [Event.hostAccess, Event.hostRead, Event.hostWritten])
    (source_calls_hostAccess p) (solve_calls_hostAccess p) (solution_calls_hostAccess p)

/-! ### Claims -/

/-- C1. Full-system solve. For `QUDA_MAT_SOLUTION` with mass normalisation off,
either source-preservation value, either preconditioning type and either
solver kind: if the single-parity operator `D` of the precise gauge field is
linear, and the solver call leaves in `out` a vector with
`(1 - kappa^2 D D) out = in` for the prepared source `in`, then `invertQuda`
returns and the host solution `x` satisfies `x_even - kappa D(x_odd) = b_even` and
`x_odd - kappa D(x_even) = b_odd`. -/
theorem invertQuda_mat_solution_solves [AddCommGroup V] [Module ℚ V] (E : Extern V G) (L : Lattice)
    (h_b : HostSpinor V) (param : QudaInvertParam) (s : QudaState V)
    (hsol : param.solution_type = .QUDA_MAT_SOLUTION)
    (hmass : param.mass_normalization ≠ .QUDA_MASS_NORMALIZATION)
    (hpres : param.preserve_source = .QUDA_PRESERVE_SOURCE_YES ∨
      param.preserve_source = .QUDA_PRESERVE_SOURCE_NO)
    (hcuda : param.cuda_prec ≠ .QUDA_DOUBLE_PRECISION)
    (hcpu : param.cpu_prec ≠ .QUDA_HALF_PRECISION)
    (hinv : param.inv_type = .QUDA_CG_INVERTER ∨ param.inv_type = .QUDA_BICGSTAB_INVERTER)
    (hadd : ∀ p u v, E.dslash s.cudaGaugePrecise p 0 (u + v) =
      E.dslash s.cudaGaugePrecise p 0 u + E.dslash s.cudaGaugePrecise p 0 v)
    (hsmul : ∀ p (a : ℚ) v, E.dslash s.cudaGaugePrecise p 0 (a • v) =
      a • E.dslash s.cudaGaugePrecise p 0 v)
    (hsolve :
      MatPC (fun p => E.dslash s.cudaGaugePrecise p 0) param.kappa param.matpc_type
          ((invertQuda_solve E (invertQuda_prepared E L h_b param s).1
            (invertQuda_prepared E L h_b param s).2).state.spinor
              (invertQuda_prepared E L h_b param s).1.out) =
        (invertQuda_prepared E L h_b param s).2.spinor
          (invertQuda_prepared E L h_b param s).1.inp) :
    ∃ s', invertQuda E L h_b param s = .returned () s' ∧
      s'.h_x.even - param.kappa • E.dslash s.cudaGaugePrecise 0 0 s'.h_x.odd = h_b.even ∧
      s'.h_x.odd - param.kappa • E.dslash s.cudaGaugePrecise 1 0 s'.h_x.even = h_b.odd := by
  have hi := prepared_invert_param_inv_type E L h_b param s
  rw [← hi] at hinv
  refine ⟨_, invertQuda_of_returned E L h_b param s _ hcuda hcpu (solve_returns E _ _ hinv), ?_⟩
  have hg := solve_cudaGaugePrecise E (invertQuda_prepared E L h_b param s).1
    (invertQuda_prepared E L h_b param s).2
  have hfr := solve_spinor_of_ne E (invertQuda_prepared E L h_b param s).1
    (invertQuda_prepared E L h_b param s).2
  obtain ⟨c1, c2, c3, -⟩ := sameConfig_trans (prepared_config E L h_b param s)
    (solve_config E (invertQuda_prepared E L h_b param s).1
      (invertQuda_prepared E L h_b param s).2)
  rcases hpres with hp | hp <;> by_cases hm : param.matpc_type = .QUDA_MATPC_EVEN_EVEN
  · have hP1 : (invertQuda_prepared E L h_b param s).1 =
        { kappa := param.kappa, slenh := L.Nh * L.spinorSiteSize, inp := s.brk,
          out := s.brk + 1, tmp := s.brk + 2, b := ⟨s.brk + 3, s.brk + 4⟩,
          x := ⟨s.brk + 1, s.brk + 2⟩ } := by
      simp [invertQuda_prepared, invertQuda_source, setup_fst, setup_invert_param, setup_brk,
        allocateParitySpinor, hsol, hp, hm, hmass]
    have hP2 : (invertQuda_prepared E L h_b param s).2.spinor s.brk = h_b.even + param.kappa • E.dslash s.cudaGaugePrecise 0 0 h_b.odd := by
      simp [invertQuda_prepared, invertQuda_source, setup_fst, setup_invert_param, setup_brk,
        allocateParitySpinor, hsol, hp, hm, hmass, loadSpinorField, dslashXpaySCuda,
        setup_spinor, QudaState.gauge, setup_cudaGaugePrecise]
    have hPg : (invertQuda_prepared E L h_b param s).2.cudaGaugePrecise = s.cudaGaugePrecise := by
      simp only [invertQuda_prepared, source_cudaGaugePrecise, setup_cudaGaugePrecise]
    have hP3 : (invertQuda_prepared E L h_b param s).2.spinor (s.brk + 3) = h_b.even := by
      simp [invertQuda_prepared, invertQuda_source, setup_fst, setup_invert_param, setup_brk,
        allocateParitySpinor, hsol, hp, hm, hmass, loadSpinorField, dslashXpaySCuda,
        setup_spinor, QudaState.gauge, setup_cudaGaugePrecise]
    have hP4 : (invertQuda_prepared E L h_b param s).2.spinor (s.brk + 4) = h_b.odd := by
      simp [invertQuda_prepared, invertQuda_source, setup_fst, setup_invert_param, setup_brk,
        allocateParitySpinor, hsol, hp, hm, hmass, loadSpinorField, dslashXpaySCuda,
        setup_spinor, QudaState.gauge, setup_cudaGaugePrecise]
    have hS3 := hfr (s.brk + 3)
    have hS4 := hfr (s.brk + 4)
    rw [hP1, hP3] at hS3
    rw [hP1, hP4] at hS4
    have hS3 := hS3 (by simp) (by simp) (by simp)
    have hS4 := hS4 (by simp) (by simp) (by simp)
    clear hfr
    rw [hP1] at hsolve hg c1 c2 c3 ⊢
    rw [hP2] at hsolve
    rw [hPg] at hg
    generalize (invertQuda_solve E _ (invertQuda_prepared E L h_b param s).2).state = S2 at *
    rw [hsol] at c1
    rw [hp] at c2
    rw [hm] at c3 hsolve
    simp [invertQuda_solution, c1, c2, c3, loadSpinorField, dslashXpaySCuda, retrieveSpinorField,
      freeParitySpinor, freeSpinorField, QudaState.gauge, hg, MatPC, hS3, hS4] at hsolve ⊢
    rw [hadd, hsmul, smul_add, smul_smul, ← sq]
    rw [sub_eq_iff_eq_add] at hsolve ⊢
    exact hsolve.trans (by abel)
  · have hP1 : (invertQuda_prepared E L h_b param s).1 =
        { kappa := param.kappa, slenh := L.Nh * L.spinorSiteSize, inp := s.brk,
          out := s.brk + 1, tmp := s.brk + 2, b := ⟨s.brk + 3, s.brk + 4⟩,
          x := ⟨s.brk + 2, s.brk + 1⟩ } := by
      simp [invertQuda_prepared, invertQuda_source, setup_fst, setup_invert_param, setup_brk,
        allocateParitySpinor, hsol, hp, hm, hmass]
    have hP2 : (invertQuda_prepared E L h_b param s).2.spinor s.brk = h_b.odd + param.kappa • E.dslash s.cudaGaugePrecise 1 0 h_b.even := by
      simp [invertQuda_prepared, invertQuda_source, setup_fst, setup_invert_param, setup_brk,
        allocateParitySpinor, hsol, hp, hm, hmass, loadSpinorField, dslashXpaySCuda,
        setup_spinor, QudaState.gauge, setup_cudaGaugePrecise]
    have hPg : (invertQuda_prepared E L h_b param s).2.cudaGaugePrecise = s.cudaGaugePrecise := by
      simp only [invertQuda_prepared, source_cudaGaugePrecise, setup_cudaGaugePrecise]
    have hP3 : (invertQuda_prepared E L h_b param s).2.spinor (s.brk + 3) = h_b.even := by
      simp [invertQuda_prepared, invertQuda_source, setup_fst, setup_invert_param, setup_brk,
        allocateParitySpinor, hsol, hp, hm, hmass, loadSpinorField, dslashXpaySCuda,
        setup_spinor, QudaState.gauge, setup_cudaGaugePrecise]
    have hP4 : (invertQuda_prepared E L h_b param s).2.spinor (s.brk + 4) = h_b.odd := by
      simp [invertQuda_prepared, invertQuda_source, setup_fst, setup_invert_param, setup_brk,
        allocateParitySpinor, hsol, hp, hm, hmass, loadSpinorField, dslashXpaySCuda,
        setup_spinor, QudaState.gauge, setup_cudaGaugePrecise]
    have hS3 := hfr (s.brk + 3)
    have hS4 := hfr (s.brk + 4)
    rw [hP1, hP3] at hS3
    rw [hP1, hP4] at hS4
    have hS3 := hS3 (by simp) (by simp) (by simp)
    have hS4 := hS4 (by simp) (by simp) (by simp)
    clear hfr
    rw [hP1] at hsolve hg c1 c2 c3 ⊢
    rw [hP2] at hsolve
    rw [hPg] at hg
    generalize (invertQuda_solve E _ (invertQuda_prepared E L h_b param s).2).state = S2 at *
    rw [hsol] at c1
    rw [hp] at c2
    have c3 : ¬ S2.invert_param.matpc_type = .QUDA_MATPC_EVEN_EVEN := by rw [c3]; exact hm
    simp [invertQuda_solution, c1, c2, c3, loadSpinorField, dslashXpaySCuda, retrieveSpinorField,
      freeParitySpinor, freeSpinorField, QudaState.gauge, hg, MatPC, hm, hS3, hS4] at hsolve ⊢
    rw [hadd, hsmul, smul_add, smul_smul, ← sq]
    rw [sub_eq_iff_eq_add] at hsolve ⊢
    exact hsolve.trans (by abel)
  · have hP1 : (invertQuda_prepared E L h_b param s).1 =
        { kappa := param.kappa, slenh := L.Nh * L.spinorSiteSize, inp := s.brk,
          out := s.brk + 1, tmp := s.brk + 2, b := ⟨s.brk + 1, s.brk + 2⟩,
          x := ⟨s.brk + 1, s.brk + 2⟩ } := by
      simp [invertQuda_prepared, invertQuda_source, setup_fst, setup_invert_param, setup_brk,
        allocateParitySpinor, hsol, hp, hm, hmass]
    have hP2 : (invertQuda_prepared E L h_b param s).2.spinor s.brk = h_b.even + param.kappa • E.dslash s.cudaGaugePrecise 0 0 h_b.odd := by
      simp [invertQuda_prepared, invertQuda_source, setup_fst, setup_invert_param, setup_brk,
        allocateParitySpinor, hsol, hp, hm, hmass, loadSpinorField, dslashXpaySCuda,
        setup_spinor, QudaState.gauge, setup_cudaGaugePrecise]
    have hPg : (invertQuda_prepared E L h_b param s).2.cudaGaugePrecise = s.cudaGaugePrecise := by
      simp only [invertQuda_prepared, source_cudaGaugePrecise, setup_cudaGaugePrecise]
    clear hfr
    rw [hP1] at hsolve hg c1 c2 c3 ⊢
    rw [hP2] at hsolve
    rw [hPg] at hg
    generalize (invertQuda_solve E _ (invertQuda_prepared E L h_b param s).2).state = S2 at *
    rw [hsol] at c1
    rw [hp] at c2
    rw [hm] at c3 hsolve
    simp [invertQuda_solution, c1, c2, c3, loadSpinorField, dslashXpaySCuda, retrieveSpinorField,
      freeParitySpinor, freeSpinorField, QudaState.gauge, hg, MatPC] at hsolve ⊢
    rw [hadd, hsmul, smul_add, smul_smul, ← sq]
    rw [sub_eq_iff_eq_add] at hsolve ⊢
    exact hsolve.trans (by abel)
  · have hP1 : (invertQuda_prepared E L h_b param s).1 =
        { kappa := param.kappa, slenh := L.Nh * L.spinorSiteSize, inp := s.brk,
          out := s.brk + 1, tmp := s.brk + 2, b := ⟨s.brk + 1, s.brk + 2⟩,
          x := ⟨s.brk + 2, s.brk + 1⟩ } := by
      simp [invertQuda_prepared, invertQuda_source, setup_fst, setup_invert_param, setup_brk,
        allocateParitySpinor, hsol, hp, hm, hmass]
    have hP2 : (invertQuda_prepared E L h_b param s).2.spinor s.brk = h_b.odd + param.kappa • E.dslash s.cudaGaugePrecise 1 0 h_b.even := by
      simp [invertQuda_prepared, invertQuda_source, setup_fst, setup_invert_param, setup_brk,
        allocateParitySpinor, hsol, hp, hm, hmass, loadSpinorField, dslashXpaySCuda,
        setup_spinor, QudaState.gauge, setup_cudaGaugePrecise]
    have hPg : (invertQuda_prepared E L h_b param s).2.cudaGaugePrecise = s.cudaGaugePrecise := by
      simp only [invertQuda_prepared, source_cudaGaugePrecise, setup_cudaGaugePrecise]
    clear hfr
    rw [hP1] at hsolve hg c1 c2 c3 ⊢
    rw [hP2] at hsolve
    rw [hPg] at hg
    generalize (invertQuda_solve E _ (invertQuda_prepared E L h_b param s).2).state = S2 at *
    rw [hsol] at c1
    rw [hp] at c2
    have c3 : ¬ S2.invert_param.matpc_type = .QUDA_MATPC_EVEN_EVEN := by rw [c3]; exact hm
    simp [invertQuda_solution, c1, c2, c3, loadSpinorField, dslashXpaySCuda, retrieveSpinorField,
      freeParitySpinor, freeSpinorField, QudaState.gauge, hg, MatPC, hm] at hsolve ⊢
    rw [hadd, hsmul, smul_add, smul_smul, ← sq]
    rw [sub_eq_iff_eq_add] at hsolve ⊢
    exact hsolve.trans (by abel)

/-- Witness of C1: identity `D`, `kappa = 1/2`, exact BiCGstab solver, source
`(1, 2)`. -/
theorem invertQuda_mat_solution_solves_witness :
    MatPC (fun p => extern0.dslash state0.cudaGaugePrecise p 0) param0.kappa param0.matpc_type
        ((invertQuda_solve extern0 (invertQuda_prepared extern0 lattice0 ⟨1, 2⟩ param0 state0).1
          (invertQuda_prepared extern0 lattice0 ⟨1, 2⟩ param0 state0).2).state.spinor
            (invertQuda_prepared extern0 lattice0 ⟨1, 2⟩ param0 state0).1.out) =
      (invertQuda_prepared extern0 lattice0 ⟨1, 2⟩ param0 state0).2.spinor
        (invertQuda_prepared extern0 lattice0 ⟨1, 2⟩ param0 state0).1.inp ∧
    ∃ s', invertQuda extern0 lattice0 ⟨1, 2⟩ param0 state0 = .returned () s' ∧
      s'.h_x.even - param0.kappa • extern0.dslash state0.cudaGaugePrecise 0 0 s'.h_x.odd = 1 ∧
      s'.h_x.odd - param0.kappa • extern0.dslash state0.cudaGaugePrecise 1 0 s'.h_x.even = 2 :=
  have hs : MatPC (fun p => extern0.dslash state0.cudaGaugePrecise p 0) param0.kappa
      param0.matpc_type
        ((invertQuda_solve extern0 (invertQuda_prepared extern0 lattice0 ⟨1, 2⟩ param0 state0).1
          (invertQuda_prepared extern0 lattice0 ⟨1, 2⟩ param0 state0).2).state.spinor
            (invertQuda_prepared extern0 lattice0 ⟨1, 2⟩ param0 state0).1.out) =
      (invertQuda_prepared extern0 lattice0 ⟨1, 2⟩ param0 state0).2.spinor
        (invertQuda_prepared extern0 lattice0 ⟨1, 2⟩ param0 state0).1.inp := by
    simp [MatPC, invertQuda_prepared, invertQuda_source, setup_fst, setup_invert_param,
      setup_brk, setup_spinor, setup_cudaGaugePrecise, solve_bicgstab, invertBiCGstabCuda,
      QudaState.applySolver, Outcome.state, loadSpinorField, dslashXpaySCuda, QudaState.gauge,
      param0, state0, extern0]
    norm_num
  ⟨hs, invertQuda_mat_solution_solves extern0 lattice0 ⟨1, 2⟩ param0 state0 rfl (by decide)
    (Or.inr rfl) (by decide) (by decide) (Or.inr rfl) (fun _ _ _ => rfl) (fun _ _ _ => rfl)
    hs⟩

/-- C2. When `cuda_prec` is `QUDA_DOUBLE_PRECISION` or `cpu_prec` is
`QUDA_HALF_PRECISION`, `invertQuda` ends in `exit(-1)`, and the state at that
moment differs from the initial one only by one message on standard output:
no vector has been allocated, no source loaded, no solver called, and the
parameter block holds exactly the caller's values. -/
theorem invertQuda_precision_exit [Add V] [SMul ℚ V] (E : Extern V G) (L : Lattice)
    (h_b : HostSpinor V) (param : QudaInvertParam) (s : QudaState V)
    (h : param.cuda_prec = .QUDA_DOUBLE_PRECISION ∨ param.cpu_prec = .QUDA_HALF_PRECISION) :
    ∃ msg, invertQuda E L h_b param s =
      .exited (-1) { s with invert_param := param, trace := s.trace ++ [.printf msg []] } := by
  unfold invertQuda QudaState.emit
  by_cases h1 : param.cuda_prec = .QUDA_DOUBLE_PRECISION
  · exact ⟨"Sorry, only double precision not yet supported\n", by simp [h1]⟩
  · have h2 : param.cpu_prec = .QUDA_HALF_PRECISION := h.resolve_left h1
    exact ⟨"Half precision not supported on cpu\n", by simp [h1, h2]⟩

/-- Witness of C2: a half-precision host block. -/
theorem invertQuda_precision_exit_witness :
    ({ param0 with cpu_prec := .QUDA_HALF_PRECISION } : QudaInvertParam).cpu_prec
        = .QUDA_HALF_PRECISION ∧
      ∃ msg, invertQuda extern0 lattice0 ⟨1, 2⟩ { param0 with cpu_prec := .QUDA_HALF_PRECISION }
          state0 =
        .exited (-1) { state0 with
          invert_param := { param0 with cpu_prec := .QUDA_HALF_PRECISION }
          trace := state0.trace ++ [.printf msg []] } :=
  ⟨rfl, invertQuda_precision_exit extern0 lattice0 ⟨1, 2⟩ _ state0 (Or.inr rfl)⟩

/-- C3. For a parameter block that passes the precision checks, `invertQuda`
ends in `exit(-1)` with no solver call made during the run exactly when
`inv_type` is neither `QUDA_CG_INVERTER` nor `QUDA_BICGSTAB_INVERTER`; for
those two solver kinds it returns normally. -/
theorem invertQuda_exit_iff_unlisted_inverter [Add V] [SMul ℚ V] (E : Extern V G) (L : Lattice)
    (h_b : HostSpinor V) (param : QudaInvertParam) (s : QudaState V)
    (h1 : param.cuda_prec ≠ .QUDA_DOUBLE_PRECISION) (h2 : param.cpu_prec ≠ .QUDA_HALF_PRECISION) :
    ((∃ s' new, invertQuda E L h_b param s = .exited (-1) s' ∧ s'.trace = s.trace ++ new ∧
        ∀ e ∈ new, e.isSolverCall = false) ↔
      (param.inv_type ≠ .QUDA_CG_INVERTER ∧ param.inv_type ≠ .QUDA_BICGSTAB_INVERTER)) ∧
    ((param.inv_type = .QUDA_CG_INVERTER ∨ param.inv_type = .QUDA_BICGSTAB_INVERTER) →
      ∃ s', invertQuda E L h_b param s = .returned () s') := by
  have hi := prepared_invert_param_inv_type E L h_b param s
  have hret : (param.inv_type = .QUDA_CG_INVERTER ∨ param.inv_type = .QUDA_BICGSTAB_INVERTER) →
      ∃ s', invertQuda E L h_b param s = .returned () s' := by
    intro h
    rw [← hi] at h
    exact ⟨_, invertQuda_of_returned E L h_b param s _ h1 h2 (solve_returns E _ _ h)⟩
  refine ⟨⟨?_, ?_⟩, hret⟩
  · rintro ⟨s', new, hx, -, -⟩
    refine ⟨fun hc => ?_, fun hc => ?_⟩
    · obtain ⟨s2, h⟩ := hret (Or.inl hc)
      rw [h] at hx
      cases hx
    · obtain ⟨s2, h⟩ := hret (Or.inr hc)
      rw [h] at hx
      cases hx
  · rintro ⟨hc, hb⟩
    cases hp : param.inv_type with
    | QUDA_CG_INVERTER => exact absurd hp hc
    | QUDA_BICGSTAB_INVERTER => exact absurd hp hb
    | unlisted code =>
      rw [hp] at hi
      obtain ⟨new, ht, hn⟩ := prepared_trace E L h_b param s
      refine ⟨_, new ++ [.printf "Inverter type %d not implemented\n" [.int code]],
        invertQuda_of_exited E L h_b param s _ _ h1 h2 (solve_exits E _ _ code hi), ?_, ?_⟩
      · rw [emit_trace, ht, List.append_assoc]
      · intro e he
        rcases List.mem_append.1 he with he | he
        · exact hn e he
        · rw [List.mem_singleton] at he
          subst he
          rfl

/-- Witness of C3: a single-precision block with a BiCGstab solver. -/
theorem invertQuda_exit_iff_unlisted_inverter_witness :
    param0.cuda_prec ≠ .QUDA_DOUBLE_PRECISION ∧ param0.cpu_prec ≠ .QUDA_HALF_PRECISION ∧
    ((∃ s' new, invertQuda extern0 lattice0 ⟨1, 2⟩ param0 state0 = .exited (-1) s' ∧
        s'.trace = state0.trace ++ new ∧ ∀ e ∈ new, e.isSolverCall = false) ↔
      (param0.inv_type ≠ .QUDA_CG_INVERTER ∧ param0.inv_type ≠ .QUDA_BICGSTAB_INVERTER)) ∧
    ((param0.inv_type = .QUDA_CG_INVERTER ∨ param0.inv_type = .QUDA_BICGSTAB_INVERTER) →
      ∃ s', invertQuda extern0 lattice0 ⟨1, 2⟩ param0 state0 = .returned () s') :=
  ⟨by decide, by decide,
    invertQuda_exit_iff_unlisted_inverter extern0 lattice0 ⟨1, 2⟩ param0 state0
      (by decide) (by decide)⟩

/-- C4. `loadGaugeQuda` ends in `exit(-1)`, its last action being the
dimension-mismatch message, exactly when one of the host dimensions `X`, `Y`,
`Z`, `T` differs from `L1`, `L2`, `L3`, `L4`; in every other case it
returns. -/
theorem loadGaugeQuda_exit_iff_dimension_mismatch (E : Extern V G) (L : Lattice) (h_gauge : G)
    (param : QudaGaugeParam) (s : QudaState V) :
    ((∃ s', loadGaugeQuda E L h_gauge param s = .exited (-1) s' ∧
        s'.trace = s.trace ++ [.setCudaGaugeParam,
          .printf "QUDA error: dimensions do not match: %d=%d, %d=%d, %d=%d, %d=%d\n"
            [.int param.X, .int L.L1, .int param.Y, .int L.L2, .int param.Z, .int L.L3,
             .int param.T, .int L.L4]]) ↔
      (param.X ≠ L.L1 ∨ param.Y ≠ L.L2 ∨ param.Z ≠ L.L3 ∨ param.T ≠ L.L4)) ∧
    (¬ (param.X ≠ L.L1 ∨ param.Y ≠ L.L2 ∨ param.Z ≠ L.L3 ∨ param.T ≠ L.L4) →
      ∃ s', loadGaugeQuda E L h_gauge param s = .returned () s') := by
  refine ⟨⟨?_, fun h => ⟨_, loadGaugeQuda_mismatch E L h_gauge param s h, rfl⟩⟩,
    loadGaugeQuda_returns E L h_gauge param s⟩
  rintro ⟨s', hx, -⟩
  by_contra h
  obtain ⟨s2, h2⟩ := loadGaugeQuda_returns E L h_gauge param s h
  rw [h2] at hx
  cases hx

/-- C5. When the dimensions match, `loadGaugeQuda` returns with `packed_size`
equal to 8 if `reconstruct_precise` is `QUDA_RECONSTRUCT_8` and to 12
otherwise, whatever value `r` the field `reconstruct_sloppy` holds. -/
theorem loadGaugeQuda_packed_size (E : Extern V G) (L : Lattice) (h_gauge : G)
    (param : QudaGaugeParam) (s : QudaState V) (r : ReconstructType)
    (h : param.X = L.L1 ∧ param.Y = L.L2 ∧ param.Z = L.L3 ∧ param.T = L.L4) :
    ∃ s', loadGaugeQuda E L h_gauge { param with reconstruct_sloppy := r } s = .returned () s' ∧
      s'.gauge_param.packed_size =
        (if param.reconstruct_precise = .QUDA_RECONSTRUCT_8 then 8 else 12) ∧
      (s'.gauge_param.packed_size = 8 ∨ s'.gauge_param.packed_size = 12) := by
  have hd : ¬ (({ param with reconstruct_sloppy := r } : QudaGaugeParam).X ≠ L.L1 ∨
      ({ param with reconstruct_sloppy := r } : QudaGaugeParam).Y ≠ L.L2 ∨
      ({ param with reconstruct_sloppy := r } : QudaGaugeParam).Z ≠ L.L3 ∨
      ({ param with reconstruct_sloppy := r } : QudaGaugeParam).T ≠ L.L4) := by
    simp [h.1, h.2.1, h.2.2.1, h.2.2.2]
  by_cases hp : ({ param with reconstruct_sloppy := r } : QudaGaugeParam).cuda_prec_sloppy ≠
      ({ param with reconstruct_sloppy := r } : QudaGaugeParam).cuda_prec_precise
  · refine ⟨_, loadGaugeQuda_two_fields E L h_gauge _ s hd hp, rfl, ?_⟩
    by_cases h8 : param.reconstruct_precise = .QUDA_RECONSTRUCT_8 <;> simp [h8]
  · refine ⟨_, loadGaugeQuda_one_field E L h_gauge _ s hd hp, rfl, ?_⟩
    by_cases h8 : param.reconstruct_precise = .QUDA_RECONSTRUCT_8 <;> simp [h8]

/-- Witness of C5: a matching 4x4x4x8 block with 12-element reconstruction. -/
theorem loadGaugeQuda_packed_size_witness :
    (gparam0.X = lattice0.L1 ∧ gparam0.Y = lattice0.L2 ∧ gparam0.Z = lattice0.L3 ∧
      gparam0.T = lattice0.L4) ∧
    ∃ s', loadGaugeQuda extern0 lattice0 ()
        { gparam0 with reconstruct_sloppy := .QUDA_RECONSTRUCT_8 } state0 = .returned () s' ∧
      s'.gauge_param.packed_size =
        (if gparam0.reconstruct_precise = .QUDA_RECONSTRUCT_8 then 8 else 12) ∧
      (s'.gauge_param.packed_size = 8 ∨ s'.gauge_param.packed_size = 12) :=
  ⟨by decide, loadGaugeQuda_packed_size extern0 lattice0 () gparam0 state0 .QUDA_RECONSTRUCT_8
    (by decide)⟩

/-- C6. When the dimensions match, `loadGaugeQuda` returns with the precise
field created from the host buffer with `(reconstruct_precise,
cuda_prec_precise)`. If `cuda_prec_sloppy` differs from `cuda_prec_precise`
the sloppy field is created by a second call with `(reconstruct_sloppy,
cuda_prec_sloppy)`; otherwise no second call is made and the sloppy field is
the precise field, `reconstruct_sloppy` playing no role. -/
theorem loadGaugeQuda_fields (E : Extern V G) (L : Lattice) (h_gauge : G)
    (param : QudaGaugeParam) (s : QudaState V)
    (h : param.X = L.L1 ∧ param.Y = L.L2 ∧ param.Z = L.L3 ∧ param.T = L.L4) :
    ∃ s', loadGaugeQuda E L h_gauge param s = .returned () s' ∧
      s'.cudaGaugePrecise = E.createGaugeField h_gauge param.reconstruct_precise
        param.cuda_prec_precise s.cudaGaugePrecise ∧
      (param.cuda_prec_sloppy ≠ param.cuda_prec_precise →
        s'.cudaGaugeSloppy = E.createGaugeField h_gauge param.reconstruct_sloppy
          param.cuda_prec_sloppy s.cudaGaugeSloppy ∧
        s'.trace = s.trace ++ [.setCudaGaugeParam,
          .createGaugeField .cudaGaugePrecise param.reconstruct_precise param.cuda_prec_precise,
          .createGaugeField .cudaGaugeSloppy param.reconstruct_sloppy param.cuda_prec_sloppy]) ∧
      (param.cuda_prec_sloppy = param.cuda_prec_precise →
        s'.cudaGaugeSloppy = s'.cudaGaugePrecise ∧
        s'.trace = s.trace ++ [.setCudaGaugeParam,
          .createGaugeField .cudaGaugePrecise param.reconstruct_precise
            param.cuda_prec_precise]) := by
  have hd : ¬ (param.X ≠ L.L1 ∨ param.Y ≠ L.L2 ∨ param.Z ≠ L.L3 ∨ param.T ≠ L.L4) := by
    simp [h.1, h.2.1, h.2.2.1, h.2.2.2]
  by_cases hp : param.cuda_prec_sloppy ≠ param.cuda_prec_precise
  · exact ⟨_, loadGaugeQuda_two_fields E L h_gauge param s hd hp, rfl, fun _ => ⟨rfl, rfl⟩,
      fun he => absurd he hp⟩
  · exact ⟨_, loadGaugeQuda_one_field E L h_gauge param s hd hp, rfl, fun hn => absurd hn hp,
      fun _ => ⟨rfl, rfl⟩⟩

/-- Witness of C6: a matching block whose sloppy precision is half. -/
theorem loadGaugeQuda_fields_witness :
    (gparam0.X = lattice0.L1 ∧ gparam0.Y = lattice0.L2 ∧ gparam0.Z = lattice0.L3 ∧
      gparam0.T = lattice0.L4) ∧
    ∃ s', loadGaugeQuda extern0 lattice0 () gparam0 state0 = .returned () s' ∧
      s'.cudaGaugePrecise = extern0.createGaugeField () gparam0.reconstruct_precise
        gparam0.cuda_prec_precise state0.cudaGaugePrecise ∧
      (gparam0.cuda_prec_sloppy ≠ gparam0.cuda_prec_precise →
        s'.cudaGaugeSloppy = extern0.createGaugeField () gparam0.reconstruct_sloppy
          gparam0.cuda_prec_sloppy state0.cudaGaugeSloppy ∧
        s'.trace = state0.trace ++ [.setCudaGaugeParam,
          .createGaugeField .cudaGaugePrecise gparam0.reconstruct_precise
            gparam0.cuda_prec_precise,
          .createGaugeField .cudaGaugeSloppy gparam0.reconstruct_sloppy
            gparam0.cuda_prec_sloppy]) ∧
      (gparam0.cuda_prec_sloppy = gparam0.cuda_prec_precise →
        s'.cudaGaugeSloppy = s'.cudaGaugePrecise ∧
        s'.trace = state0.trace ++ [.setCudaGaugeParam,
          .createGaugeField .cudaGaugePrecise gparam0.reconstruct_precise
            gparam0.cuda_prec_precise]) :=
  ⟨by decide, loadGaugeQuda_fields extern0 lattice0 () gparam0 state0 (by decide)⟩

/-- C7. The three configuration errors evaluated on concrete inputs (a `T`
extent of 16 on an 8-deep lattice, a double-precision device block, a
half-precision host block, solver selector 7): each run ends in `exit(-1)`
and its diagnostic is a `printf`, a print to standard output; no run records a
print to the error stream. -/
theorem configuration_errors_print_to_stdout :
    loadGaugeQuda extern0 lattice0 () { gparam0 with T := 16 } state0 =
      .exited (-1) { state0 with
        gauge_param := { gparam0 with T := 16 }
        trace := [.setCudaGaugeParam,
          .printf "QUDA error: dimensions do not match: %d=%d, %d=%d, %d=%d, %d=%d\n"
            [.int 4, .int 4, .int 4, .int 4, .int 4, .int 4, .int 16, .int 8]] } ∧
    invertQuda extern0 lattice0 ⟨1, 2⟩ { param0 with cuda_prec := .QUDA_DOUBLE_PRECISION } state0 =
      .exited (-1) { state0 with
        invert_param := { param0 with cuda_prec := .QUDA_DOUBLE_PRECISION }
        trace := [.printf "Sorry, only double precision not yet supported\n" []] } ∧
    invertQuda extern0 lattice0 ⟨1, 2⟩ { param0 with cpu_prec := .QUDA_HALF_PRECISION } state0 =
      .exited (-1) { state0 with
        invert_param := { param0 with cpu_prec := .QUDA_HALF_PRECISION }
        trace := [.printf "Half precision not supported on cpu\n" []] } ∧
    ∃ s', invertQuda extern0 lattice0 ⟨1, 2⟩ { param0 with inv_type := .unlisted 7 } state0 =
        .exited (-1) s' ∧
      s'.trace =
        [.allocateParitySpinor 0 .QUDA_SINGLE_PRECISION,
         .allocateParitySpinor 1 .QUDA_SINGLE_PRECISION,
         .allocateParitySpinor 2 .QUDA_SINGLE_PRECISION,
         .loadSpinorField ⟨1, 2⟩ .h_b,
         .dslashXpaySCuda 0 .cudaGaugePrecise 2 0 0 1 (1 / 2),
         .printf "Inverter type %d not implemented\n" [.int 7]] ∧
      ∀ e ∈ s'.trace, e.isStderr = false := by
  refine ⟨?_, ?_, ?_, ?_⟩
  · rw [loadGaugeQuda_mismatch extern0 lattice0 () _ state0 (by decide)]
    rfl
  · simp [invertQuda, QudaState.emit, param0, state0]
  · simp [invertQuda, QudaState.emit, param0, state0]
  · have hi := prepared_invert_param_inv_type extern0 lattice0 ⟨1, 2⟩
      { param0 with inv_type := .unlisted 7 } state0
    have ht : (invertQuda_prepared extern0 lattice0 ⟨1, 2⟩
        { param0 with inv_type := .unlisted 7 } state0).2.trace =
        [.allocateParitySpinor 0 .QUDA_SINGLE_PRECISION,
         .allocateParitySpinor 1 .QUDA_SINGLE_PRECISION,
         .allocateParitySpinor 2 .QUDA_SINGLE_PRECISION,
         .loadSpinorField ⟨1, 2⟩ .h_b,
         .dslashXpaySCuda 0 .cudaGaugePrecise 2 0 0 1 (1 / 2)] := by
      simp [invertQuda_prepared, invertQuda_source, setup_fst, setup_invert_param, setup_trace,
        loadSpinorField, dslashXpaySCuda, param0, state0]
    refine ⟨_, invertQuda_of_exited extern0 lattice0 ⟨1, 2⟩ _ state0 _ _ (by decide) (by decide)
      (solve_exits extern0 _ _ 7 hi), ?_, ?_⟩
    · rw [emit_trace, ht]
      rfl
    · rw [emit_trace, ht]
      intro e he
      simp only [List.cons_append, List.nil_append, List.mem_cons, List.mem_singleton,
        List.not_mem_nil, or_false] at he
      rcases he with rfl | rfl | rfl | rfl | rfl | rfl <;> rfl

/-- C8. With the selected device being `dev` when `dev >= 0` and
`deviceCount - 1` when `dev < 0`: `initQuda(dev)` ends in
`exit(EXIT_FAILURE)` exactly when the device count is zero or the selected
device reports a major capability below 1, it never exits with another code,
and in every other case it returns with the selected device bound, the
binding call being its last runtime call. -/
theorem initQuda_exit_iff (rt : CudaRuntime) (dev : Int) (s : QudaState V) :
    ((∃ s', initQuda rt dev s = .exited EXIT_FAILURE s') ↔
      (rt.deviceCount = 0 ∨
        rt.major (if dev < 0 then rt.deviceCount - 1 else dev) < 1)) ∧
    (∀ code s', initQuda rt dev s = .exited code s' → code = EXIT_FAILURE) ∧
    (¬ (rt.deviceCount = 0 ∨
        rt.major (if dev < 0 then rt.deviceCount - 1 else dev) < 1) →
      ∃ s', initQuda rt dev s = .returned () s' ∧
        s'.device = some (if dev < 0 then rt.deviceCount - 1 else dev) ∧
        s'.trace.getLast? = some (.cudaSetDevice (if dev < 0 then rt.deviceCount - 1 else dev))) := by
  by_cases h0 : rt.deviceCount = 0
  · have hx : ∃ s', initQuda rt dev s = .exited EXIT_FAILURE s' :=
      ⟨_, by simp only [initQuda, h0, if_true]; rfl⟩
    refine ⟨⟨fun _ => Or.inl h0, fun _ => hx⟩, ?_, fun hn => absurd (Or.inl h0) hn⟩
    intro code s' hc
    obtain ⟨s2, h2⟩ := hx
    rw [h2] at hc
    cases hc
    rfl
  · by_cases hm : rt.major (if dev < 0 then rt.deviceCount - 1 else dev) < 1
    · have hx : ∃ s', initQuda rt dev s = .exited EXIT_FAILURE s' :=
        ⟨_, by simp only [initQuda, h0, if_false, hm, if_true]; rfl⟩
      refine ⟨⟨fun _ => Or.inr hm, fun _ => hx⟩, ?_, fun hn => absurd (Or.inr hm) hn⟩
      intro code s' hc
      obtain ⟨s2, h2⟩ := hx
      rw [h2] at hc
      cases hc
      rfl
    · have hr : ∃ s', initQuda rt dev s = .returned () s' ∧
          s'.device = some (if dev < 0 then rt.deviceCount - 1 else dev) ∧
          s'.trace.getLast? =
            some (.cudaSetDevice (if dev < 0 then rt.deviceCount - 1 else dev)) := by
        refine ⟨(initQuda rt dev s).state, ?_, ?_, ?_⟩
        · simp only [initQuda, h0, if_false, hm]
          rfl
        · simp only [initQuda, h0, if_false, hm]
          rfl
        · simp [initQuda, h0, hm, Outcome.state]
      obtain ⟨s2, h2, h3, h4⟩ := hr
      refine ⟨⟨?_, ?_⟩, ?_, fun _ => ⟨s2, h2, h3, h4⟩⟩
      · rintro ⟨s', hx⟩
        rw [h2] at hx
        cases hx
      · rintro (h | h)
        · exact absurd h h0
        · exact absurd h hm
      · intro code s' hc
        rw [h2] at hc
        cases hc

/-- C9. With `nIters >= 1`, `benchmark(kernel)` prints `Undefined blas kernel`
and ends in `exit(1)` exactly when the selector is outside `0..20`; for every
selector in `0..20` it returns. -/
theorem benchmark_exit_iff (B : BlasExtern V) (kernel : Int) (t : BlasTest V)
    (hn : 1 ≤ t.nIters) :
    ((∃ t', benchmark B kernel t = .exited 1 t' ∧
        t'.quda.trace = t.quda.trace ++
          [.stopwatchStart, .printf "Undefined blas kernel %d\n" [.int kernel]]) ↔
      (kernel < 0 ∨ 20 < kernel)) ∧
    ((0 ≤ kernel ∧ kernel ≤ 20) → ∃ secs t', benchmark B kernel t = .returned secs t') := by
  cases hc : benchmark_case kernel with
  | none =>
    have hr := (benchmark_case_eq_none_iff kernel).1 hc
    refine ⟨⟨fun _ => hr, fun _ => ⟨_, benchmark_of_none B kernel hc t hn, ?_⟩⟩, ?_⟩
    · simp [BlasTest.emit]
    · intro h
      omega
  | some k =>
    have hr : ¬ (kernel < 0 ∨ 20 < kernel) := by
      intro h
      rw [(benchmark_case_eq_none_iff kernel).2 h] at hc
      cases hc
    refine ⟨⟨?_, fun h => absurd h hr⟩, fun _ => ⟨_, _, benchmark_of_some B kernel k hc t⟩⟩
    rintro ⟨t', hx, -⟩
    rw [benchmark_of_some B kernel k hc t] at hx
    cases hx

/-- Witness of C9: selector 21 with the initial `nIters = 1000`. -/
theorem benchmark_exit_iff_witness :
    1 ≤ blas0.nIters ∧
    ((∃ t', benchmark blasExtern0 21 blas0 = .exited 1 t' ∧
        t'.quda.trace = blas0.quda.trace ++
          [.stopwatchStart, .printf "Undefined blas kernel %d\n" [.int 21]]) ↔
      ((21 : Int) < 0 ∨ (20 : Int) < 21)) ∧
    ((0 ≤ (21 : Int) ∧ (21 : Int) ≤ 20) →
      ∃ secs t', benchmark blasExtern0 21 blas0 = .returned secs t') :=
  ⟨by decide, benchmark_exit_iff blasExtern0 21 blas0 (by decide)⟩

/-- C10. Both loops of `main` stop at index 19 of the 21-entry selector
array: whatever the runtime and the kernels do, the run of `main` launches
neither `cDotProductNormBCuda` (selector 19) nor
`caxpbypzYmbwcDotProductWYNormYQuda` (selector 20), in the warm-up pass or in
the timed pass, and once `init` has returned the run ends by returning 0. -/
theorem main_skips_selectors_19_and_20 (rt : CudaRuntime) (B : BlasExtern V) (t : BlasTest V) :
    kernels.length = 21 ∧ main_loop_bound = 19 ∧
    benchmark_case (kernels.getD 19 0) = some .cDotProductNormBCuda ∧
    benchmark_case (kernels.getD 20 0) = some .caxpbypzYmbwcDotProductWYNormYQuda ∧
    TraceGrows Event.notKernel19or20 t.quda.trace (main rt B t).state.quda.trace ∧
    (∀ t1, init rt t = .returned () t1 → ∃ t', main rt B t = .returned 0 t') := by
  refine ⟨rfl, rfl, rfl, rfl, ?_, fun t1 h1 => main_returns rt B t t1 h1⟩
  have hr : ∀ i ∈ List.range main_loop_bound, i < main_loop_bound :=
    fun i hi => List.mem_range.1 hi
  have hi := (init_trace rt t).mono
    (fun e (he : e.isBlas = false) => (⟨(by rintro rfl; cases he), (by rintro rfl; cases he)⟩ :
      e.notKernel19or20))
  rw [main]
  split
  · next code t1 h1 =>
    rw [h1] at hi
    exact hi
  · next u t1 h1 =>
    rw [h1] at hi
    have hw := main_warmup_trace B (List.range main_loop_bound) hr { t1 with nIters := 1 }
    simp only
    split
    · next code t2 h2 =>
      rw [h2] at hw
      exact hi.trans hw
    · next u2 t2 h2 =>
      rw [h2] at hw
      have ht := main_timed_trace B (List.range main_loop_bound) hr { t2 with nIters := 1000 }
      split
      · next code t3 h3 =>
        rw [h3] at ht
        exact (hi.trans hw).trans ht
      · next u3 t3 h3 =>
        rw [h3] at ht
        exact (hi.trans hw).trans ht

/-- C11. For a valid selector and `nIters >= 1`, `benchmark` launches the
selected kernel exactly `nIters` times between starting and reading the
stopwatch and returns the reading divided by `nIters`. A step of the timed
loop of `main` zeroes the flop counter first, so the counter then holds that
kernel's `nIters` calls, and the line printed reports the seconds per call,
the counter divided by `nIters`, and that quotient over the seconds per call
times `1e-9`. -/
theorem benchmark_counts_and_averages (B : BlasExtern V) (i : Nat) (is : List Nat)
    (kernel : Int) (k : BlasKernel) (t : BlasTest V)
    (hk : benchmark_case kernel = some k) (hi : kernels.getD i 0 = kernel)
    (hn : 1 ≤ t.nIters) :
    (∃ secs t', benchmark B kernel t = .returned secs t' ∧
      t'.quda.trace = t.quda.trace ++ [.stopwatchStart] ++
        List.replicate t.nIters.toNat (.blas k) ++ [.stopwatchReadSeconds] ∧
      ((t.nIters.toNat : Nat) : Int) = t.nIters ∧
      secs = B.stopwatchReadSeconds (t.quda.trace ++ [.stopwatchStart] ++
        List.replicate t.nIters.toNat (.blas k)) / t.nIters) ∧
    (∃ secs t1, benchmark B kernel { t with blas_quda_flops := 0 } = .returned secs t1 ∧
      t1.blas_quda_flops = t.nIters * B.flops k ∧
      main_timed B (i :: is) t = main_timed B is
        (t1.emit (.printf "Average time: %f s, flops = %e, Gflops/s = %f\n"
          [.real secs, .real (t1.blas_quda_flops / t.nIters),
           .real (t1.blas_quda_flops / t.nIters / secs * (1 / 10 ^ 9))]))) := by
  have hcast : ((t.nIters.toNat : Nat) : Int) = t.nIters := Int.toNat_of_nonneg (by omega)
  constructor
  · refine ⟨_, _, benchmark_of_some B kernel k hk t, ?_, hcast, ?_⟩
    · simp [BlasTest.emit, launch_iterate_trace]
    · simp [BlasTest.emit, launch_iterate_trace, launch_iterate_nIters]
  · refine ⟨_, _, benchmark_of_some B kernel k hk { t with blas_quda_flops := 0 }, ?_, ?_⟩
    · have hq : ((t.nIters.toNat : Nat) : ℚ) = (t.nIters : ℚ) := by
        rw [← Int.cast_natCast, hcast]
      simp [BlasTest.emit, launch_iterate_flops, hq]
    · rw [main_timed]
      simp only [hi, benchmark_of_some B kernel k hk]
      simp [BlasTest.emit, launch_iterate_nIters]

/-- Witness of C11: selector 3 at index 3 with the initial `nIters = 1000`. -/
theorem benchmark_counts_and_averages_witness :
    (∃ secs t', benchmark blasExtern0 3 blas0 = .returned secs t' ∧
      t'.quda.trace = blas0.quda.trace ++ [.stopwatchStart] ++
        List.replicate blas0.nIters.toNat (.blas .xpayCuda) ++ [.stopwatchReadSeconds] ∧
      ((blas0.nIters.toNat : Nat) : Int) = blas0.nIters ∧
      secs = blasExtern0.stopwatchReadSeconds (blas0.quda.trace ++ [.stopwatchStart] ++
        List.replicate blas0.nIters.toNat (.blas .xpayCuda)) / blas0.nIters) ∧
    (∃ secs t1, benchmark blasExtern0 3 { blas0 with blas_quda_flops := 0 } = .returned secs t1 ∧
      t1.blas_quda_flops = blas0.nIters * blasExtern0.flops .xpayCuda ∧
      main_timed blasExtern0 (3 :: []) blas0 = main_timed blasExtern0 []
        (t1.emit (.printf "Average time: %f s, flops = %e, Gflops/s = %f\n"
          [.real secs, .real (t1.blas_quda_flops / blas0.nIters),
           .real (t1.blas_quda_flops / blas0.nIters / secs * (1 / 10 ^ 9))]))) :=
  benchmark_counts_and_averages blasExtern0 3 [] 3 .xpayCuda blas0 rfl rfl (by decide)

/-- C12. Both tuning tables have exactly 23 rows of exactly 3 entries, and
every entry is positive. -/
theorem blas_param_tables_complete :
    blas_threads.length = 23 ∧ blas_blocks.length = 23 ∧
    (∀ row ∈ blas_threads, row.length = 3 ∧ ∀ e ∈ row, 0 < e) ∧
    (∀ row ∈ blas_blocks, row.length = 3 ∧ ∀ e ∈ row, 0 < e) := by
  decide

/-- C13. The statements of `invertQuda` itself assign only `spinorGiB`,
`secs`, `gflops` and `iter`: on entry to the solver switch the block is the
caller's block with `spinorGiB` set and the other three zeroed, the statements
after the switch leave the block as the solver left it, and at the end of
every run (return or exit) each configuration field has the caller's value. -/
theorem invertQuda_assigns_only_outputs [Add V] [SMul ℚ V] (E : Extern V G) (L : Lattice)
    (h_b : HostSpinor V) (param : QudaInvertParam) (s : QudaState V) :
    (invertQuda_prepared E L h_b param s).2.invert_param =
      { param with
        spinorGiB := (invertQuda_prepared E L h_b param s).2.invert_param.spinorGiB
        secs := 0, gflops := 0, iter := 0 } ∧
    (∀ l s2, (invertQuda_solution E h_b l s2).invert_param = s2.invert_param) ∧
    ConfigEq param (invertQuda E L h_b param s).state.invert_param := by
  refine ⟨?_, fun l s2 => solution_invert_param E h_b l s2, ?_⟩
  · rw [prepared_invert_param]
  · by_cases h1 : param.cuda_prec = .QUDA_DOUBLE_PRECISION
    · simp only [invertQuda, h1, if_true, Outcome.state]
      exact configEq_refl _
    · by_cases h2 : param.cpu_prec = .QUDA_HALF_PRECISION
      · simp only [invertQuda, h1, h2, if_true, if_false, Outcome.state]
        exact configEq_refl _
      · have hp : ConfigEq param (invertQuda_prepared E L h_b param s).2.invert_param := by
          rw [prepared_invert_param]
          exact ⟨rfl, rfl, rfl, rfl, rfl, rfl, rfl, rfl, rfl, rfl, rfl, rfl⟩
        have hs := solve_configEq E (invertQuda_prepared E L h_b param s).1
          (invertQuda_prepared E L h_b param s).2
        cases hr : invertQuda_solve E (invertQuda_prepared E L h_b param s).1
            (invertQuda_prepared E L h_b param s).2 with
        | returned u s2 =>
          rw [hr] at hs
          rw [invertQuda_of_returned E L h_b param s s2 h1 h2 hr]
          simp only [Outcome.state, solution_invert_param] at hs ⊢
          exact configEq_trans hp hs
        | exited code s2 =>
          rw [hr] at hs
          rw [invertQuda_of_exited E L h_b param s s2 code h1 h2 hr]
          exact configEq_trans hp hs

/-- C14. With `xpayCuda(x, a, y)` as `y = x + a y`: `MatQuda` writes to the
host `out_even = in_even - kappa D(in_odd)` and
`out_odd = in_odd - kappa D(in_even)`, `D` being the parity apply with the
precise gauge field and dagger flag 0; `MatDagQuda` writes the same expression
with dagger flag 1, and the two make the same calls but for that flag. -/
theorem MatQuda_direct_sum [AddCommGroup V] [Module ℚ V] (E : Extern V G) (h_in : HostSpinor V)
    (inv_param : QudaInvertParam) (s : QudaState V) :
    (MatQuda E h_in inv_param s).h_x =
      ⟨h_in.even - inv_param.kappa • E.dslash s.cudaGaugePrecise 0 0 h_in.odd,
       h_in.odd - inv_param.kappa • E.dslash s.cudaGaugePrecise 1 0 h_in.even⟩ ∧
    (MatDagQuda E h_in inv_param s).h_x =
      ⟨h_in.even - inv_param.kappa • E.dslash s.cudaGaugePrecise 0 1 h_in.odd,
       h_in.odd - inv_param.kappa • E.dslash s.cudaGaugePrecise 1 1 h_in.even⟩ ∧
    (MatQuda E h_in inv_param s).trace =
      s.trace ++ Mat_calls s.brk inv_param.cuda_prec inv_param.kappa 0 ∧
    (MatDagQuda E h_in inv_param s).trace =
      s.trace ++ Mat_calls s.brk inv_param.cuda_prec inv_param.kappa 1 := by
  refine ⟨?_, ?_, ?_, ?_⟩
  · simp [MatQuda, allocateParitySpinor, loadSpinorField, dslashCuda, xpayCuda,
      retrieveSpinorField, freeParitySpinor, QudaState.gauge, QudaState.store, QudaState.emit,
      sub_eq_add_neg, Function.update_apply, add_assoc]
  · simp [MatDagQuda, allocateParitySpinor, loadSpinorField, dslashCuda, xpayCuda,
      retrieveSpinorField, freeParitySpinor, QudaState.gauge, QudaState.store, QudaState.emit,
      sub_eq_add_neg, Function.update_apply, add_assoc]
  · simp [MatQuda, Mat_calls, allocateParitySpinor, loadSpinorField, dslashCuda, xpayCuda,
      retrieveSpinorField, freeParitySpinor, QudaState.store, QudaState.emit]
  · simp [MatDagQuda, Mat_calls, allocateParitySpinor, loadSpinorField, dslashCuda, xpayCuda,
      retrieveSpinorField, freeParitySpinor, QudaState.store, QudaState.emit]

/-- C15. For a slice inside the 4-d field `y`, extracting it into the 3-d field
`x` and inserting it back leaves `y` as it was, at that slice and at every
other one. -/
theorem blas3d_copy_round_trip {W : Type} (slice : Nat) (x : W) (y : List W)
    (h : slice < y.length) :
    (blas3d.copy slice .COPY_FROM_3D (blas3d.copy slice .COPY_TO_3D x y).1
      (blas3d.copy slice .COPY_TO_3D x y).2).2 = y ∧
    (blas3d.copy slice .COPY_TO_3D x y).1 = y.get ⟨slice, h⟩ := by
  constructor
  · simp only [blas3d.copy]
    apply List.ext_getElem
    · simp
    · intro i h1 h2
      by_cases hi : slice = i
      · subst hi
        simp [List.getD_eq_getElem, h]
      · simp [List.getElem_set_ne hi]
  · simp [blas3d.copy, List.getD_eq_getElem, h]

/-- Witness of C15: slice 1 of a three-slice field. -/
theorem blas3d_copy_round_trip_witness :
    (1 : Nat) < [10, 20, 30].length ∧
    (blas3d.copy 1 .COPY_FROM_3D (blas3d.copy 1 .COPY_TO_3D (7 : Int) [10, 20, 30]).1
      (blas3d.copy 1 .COPY_TO_3D (7 : Int) [10, 20, 30]).2).2 = [10, 20, 30] ∧
    (blas3d.copy 1 .COPY_TO_3D (7 : Int) [10, 20, 30]).1 =
      [10, 20, 30].get ⟨1, by decide⟩ :=
  ⟨by decide, blas3d_copy_round_trip 1 (7 : Int) [10, 20, 30] (by decide)⟩

/-- C16. For a slice `s` inside both fields, swapping twice gives back both
fields, and one swap exchanges the two slices `s` and changes neither field at
any other slice. -/
theorem blas3d_swap_involution {W : Type} (s : Nat) (x y : List W)
    (hx : s < x.length) (hy : s < y.length) :
    blas3d.swap s (blas3d.swap s x y).1 (blas3d.swap s x y).2 = (x, y) ∧
    (blas3d.swap s x y).1.get? s = y.get? s ∧ (blas3d.swap s x y).2.get? s = x.get? s ∧
    (∀ i, i ≠ s → (blas3d.swap s x y).1.get? i = x.get? i ∧
      (blas3d.swap s x y).2.get? i = y.get? i) ∧
    (blas3d.swap s x y).1.length = x.length ∧ (blas3d.swap s x y).2.length = y.length := by
  rw [blas3d_swap_of_valid s x y hx hy]
  refine ⟨?_, ?_, ?_, ?_, ?_, ?_⟩
  · rw [blas3d_swap_of_valid s _ _ (by simpa using hx) (by simpa using hy)]
    have h1 : x.set s (x.get ⟨s, hx⟩) = x := by
      apply List.ext_getElem
      · simp
      · intro i h1 h2
        by_cases hi : s = i
        · subst hi
          simp
        · simp [List.getElem_set_ne hi]
    have h2 : y.set s (y.get ⟨s, hy⟩) = y := by
      apply List.ext_getElem
      · simp
      · intro i h1 h2
        by_cases hi : s = i
        · subst hi
          simp
        · simp [List.getElem_set_ne hi]
    simpa using ⟨h1, h2⟩
  · simp [hx, List.getElem?_eq_getElem hy]
  · simp [hy, List.getElem?_eq_getElem hx]
  · intro i hi
    simp [List.getElem?_set_ne (Ne.symm hi)]
  · simp
  · simp

/-- Witness of C16: slice 2 of two three-slice fields. -/
theorem blas3d_swap_involution_witness :
    blas3d.swap 2 (blas3d.swap 2 [1, 2, 3] [(4 : Int), 5, 6]).1
        (blas3d.swap 2 [1, 2, 3] [(4 : Int), 5, 6]).2 = ([1, 2, 3], [4, 5, 6]) ∧
    (blas3d.swap 2 [1, 2, 3] [(4 : Int), 5, 6]).1.get? 2 = [(4 : Int), 5, 6].get? 2 ∧
    (blas3d.swap 2 [1, 2, 3] [(4 : Int), 5, 6]).2.get? 2 = [(1 : Int), 2, 3].get? 2 ∧
    (∀ i, i ≠ 2 → (blas3d.swap 2 [1, 2, 3] [(4 : Int), 5, 6]).1.get? i = [(1 : Int), 2, 3].get? i ∧
      (blas3d.swap 2 [1, 2, 3] [(4 : Int), 5, 6]).2.get? i = [(4 : Int), 5, 6].get? i) ∧
    (blas3d.swap 2 [1, 2, 3] [(4 : Int), 5, 6]).1.length = [(1 : Int), 2, 3].length ∧
    (blas3d.swap 2 [1, 2, 3] [(4 : Int), 5, 6]).2.length = [(4 : Int), 5, 6].length :=
  blas3d_swap_involution 2 [1, 2, 3] [(4 : Int), 5, 6] (by decide) (by decide)

/-- C17. With `QUDA_MASS_NORMALIZATION`, on entry to the solver switch: for
`QUDA_MAT_SOLUTION` both parities of the loaded source carry the factor
`2 kappa` (and the preconditioned source is formed from the scaled parities),
for `QUDA_MATPC_SOLUTION` the source carries `(2 kappa)^2` and for
`QUDA_MATPCDAG_MATPC_SOLUTION` `(2 kappa)^4`. With any other
`mass_normalization` the source is the host source as loaded and no scaling
kernel is called, whatever the solution type. -/
theorem invertQuda_mass_normalization [Add V] [SMul ℚ V] (E : Extern V G) (L : Lattice)
    (h_b : HostSpinor V) (param : QudaInvertParam) (s : QudaState V) :
    (param.mass_normalization = .QUDA_MASS_NORMALIZATION →
      (param.solution_type = .QUDA_MAT_SOLUTION →
        invertQuda_loadedSource E L h_b param s =
          ⟨(2 * param.kappa) ^ 1 • h_b.even, (2 * param.kappa) ^ 1 • h_b.odd⟩) ∧
      (param.solution_type = .QUDA_MATPC_SOLUTION →
        invertQuda_preparedSource E L h_b param s = (2 * param.kappa) ^ 2 • h_b.even) ∧
      (param.solution_type = .QUDA_MATPCDAG_MATPC_SOLUTION →
        invertQuda_preparedSource E L h_b param s = (2 * param.kappa) ^ 4 • h_b.even)) ∧
    (param.mass_normalization ≠ .QUDA_MASS_NORMALIZATION →
      (param.solution_type = .QUDA_MAT_SOLUTION →
        invertQuda_loadedSource E L h_b param s = ⟨h_b.even, h_b.odd⟩) ∧
      (param.solution_type = .QUDA_MATPC_SOLUTION ∨
          param.solution_type = .QUDA_MATPCDAG_MATPC_SOLUTION →
        invertQuda_preparedSource E L h_b param s = h_b.even) ∧
      TraceGrows (fun e => e.isAxCuda = false) s.trace
        (invertQuda_prepared E L h_b param s).2.trace) ∧
    (param.solution_type = .QUDA_MAT_SOLUTION →
      invertQuda_preparedSource E L h_b param s =
        if param.matpc_type = .QUDA_MATPC_EVEN_EVEN then
          (invertQuda_loadedSource E L h_b param s).even + param.kappa •
            E.dslash s.cudaGaugePrecise 0 0 (invertQuda_loadedSource E L h_b param s).odd
        else
          (invertQuda_loadedSource E L h_b param s).odd + param.kappa •
            E.dslash s.cudaGaugePrecise 1 0 (invertQuda_loadedSource E L h_b param s).even) := by
  refine ⟨fun hm => ⟨fun hs => ?_, fun hs => ?_, fun hs => ?_⟩,
    fun hm => ⟨fun hs => ?_, fun hs => ?_, ?_⟩, fun hs => mat_prepared_source E L h_b param s hs⟩
  · rw [mat_loaded_source E L h_b param s hs, if_pos hm, pow_one]
  · rw [matpc_prepared_source E L h_b param s (Or.inl hs), if_pos hm, if_pos hs]
    congr 1
    ring
  · rw [matpc_prepared_source E L h_b param s (Or.inr hs), if_pos hm, hs]
    simp only [reduceCtorEq, if_false]
    congr 1
    ring
  · rw [mat_loaded_source E L h_b param s hs, if_neg hm]
  · rw [matpc_prepared_source E L h_b param s hs, if_neg hm]
  · have h0 : TraceGrows (fun e => e.isAxCuda = false) s.trace
        (invertQuda_setup L { s with invert_param := param }).2.trace := by
      rw [setup_trace]
      exact ⟨_, rfl, by simp [Event.isAxCuda]⟩
    refine h0.trans ?_
    unfold invertQuda_prepared
    exact source_trace_no_ax E h_b _ _ (by rw [setup_invert_param]; exact hm)

/-- Witness of C17: the preconditioned solution with mass normalisation,
`kappa = 1/2`, host source `(3, 5)`. -/
theorem invertQuda_mass_normalization_witness :
    param0_mass.mass_normalization = .QUDA_MASS_NORMALIZATION ∧
    param0_mass.solution_type = .QUDA_MATPC_SOLUTION ∧
    invertQuda_preparedSource extern0 lattice0 ⟨3, 5⟩ param0_mass state0 =
      (2 * param0_mass.kappa) ^ 2 • (3 : ℚ) :=
  ⟨rfl, rfl,
    ((invertQuda_mass_normalization extern0 lattice0 ⟨3, 5⟩ param0_mass state0).1 rfl).2.1 rfl⟩

/-- C18. With `QUDA_CG_INVERTER` the solver switch calls `invertCgCuda` once.
For a solution type other than `QUDA_MATPCDAG_MATPC_SOLUTION` the source is
first copied to `out` and `in` is overwritten by `MatPCDagCuda` of that copy,
so the right-hand side CG receives is MatPCDag of the prepared source; for
`QUDA_MATPCDAG_MATPC_SOLUTION` CG is entered in the prepared state itself.
Hence, in the former case, if `MatPCDagCuda` computes an injective `Mdag` and
CG leaves `out` with `Mdag (M out) = rhs`, then `M out` is the prepared
source. -/
theorem invertQuda_cg_normal_equations [Add V] [SMul ℚ V] (E : Extern V G) (L : Lattice)
    (h_b : HostSpinor V) (param : QudaInvertParam) (s : QudaState V) (M Mdag : V → V)
    (hinv : param.inv_type = .QUDA_CG_INVERTER) :
    invertQuda_solve E (invertQuda_prepared E L h_b param s).1
        (invertQuda_prepared E L h_b param s).2 =
      .returned () (invertCgCuda E (s.brk + 1) s.brk .cudaGaugeSloppy (s.brk + 2)
        (invertQuda_cgEntry E (invertQuda_prepared E L h_b param s).1
          (invertQuda_prepared E L h_b param s).2)) ∧
    (param.solution_type ≠ .QUDA_MATPCDAG_MATPC_SOLUTION →
      (invertQuda_cgEntry E (invertQuda_prepared E L h_b param s).1
          (invertQuda_prepared E L h_b param s).2).trace =
        (invertQuda_prepared E L h_b param s).2.trace ++
          [.copyCuda (s.brk + 1) s.brk,
           .MatPCDagCuda s.brk .cudaGaugePrecise (s.brk + 1) param.kappa (s.brk + 2)
             param.matpc_type] ∧
      (invertQuda_cgEntry E (invertQuda_prepared E L h_b param s).1
          (invertQuda_prepared E L h_b param s).2).spinor s.brk =
        (E.MatPCDagCuda s.cudaGaugePrecise param.kappa param.matpc_type
          (invertQuda_preparedSource E L h_b param s) (invertQuda_preparedSource E L h_b param s)
          ((invertQuda_prepared E L h_b param s).2.spinor (s.brk + 2))).1) ∧
    (param.solution_type = .QUDA_MATPCDAG_MATPC_SOLUTION →
      invertQuda_cgEntry E (invertQuda_prepared E L h_b param s).1
          (invertQuda_prepared E L h_b param s).2 = (invertQuda_prepared E L h_b param s).2 ∧
      (invertQuda_prepared E L h_b param s).2.spinor s.brk =
        invertQuda_preparedSource E L h_b param s) ∧
    (param.solution_type ≠ .QUDA_MATPCDAG_MATPC_SOLUTION →
      (∀ o v t, (E.MatPCDagCuda s.cudaGaugePrecise param.kappa param.matpc_type o v t).1 =
        Mdag v) →
      Function.Injective Mdag →
      Mdag (M ((invertQuda_solve E (invertQuda_prepared E L h_b param s).1
          (invertQuda_prepared E L h_b param s).2).state.spinor (s.brk + 1))) =
        (invertQuda_cgEntry E (invertQuda_prepared E L h_b param s).1
          (invertQuda_prepared E L h_b param s).2).spinor s.brk →
      M ((invertQuda_solve E (invertQuda_prepared E L h_b param s).1
          (invertQuda_prepared E L h_b param s).2).state.spinor (s.brk + 1)) =
        invertQuda_preparedSource E L h_b param s) := by
  obtain ⟨hi, ho, ht, hk⟩ := prepared_handles E L h_b param s
  have hp := prepared_invert_param E L h_b param s
  have hg := prepared_cudaGaugePrecise E L h_b param s
  have hit : (invertQuda_prepared E L h_b param s).2.invert_param.inv_type =
      .QUDA_CG_INVERTER := by rw [hp]; exact hinv
  have hst : (invertQuda_prepared E L h_b param s).2.invert_param.solution_type =
      param.solution_type := by rw [hp]
  have hmt : (invertQuda_prepared E L h_b param s).2.invert_param.matpc_type =
      param.matpc_type := by rw [hp]
  have hentry : ∀ (hs : param.solution_type ≠ .QUDA_MATPCDAG_MATPC_SOLUTION),
      (invertQuda_cgEntry E (invertQuda_prepared E L h_b param s).1
          (invertQuda_prepared E L h_b param s).2).trace =
        (invertQuda_prepared E L h_b param s).2.trace ++
          [.copyCuda (s.brk + 1) s.brk,
           .MatPCDagCuda s.brk .cudaGaugePrecise (s.brk + 1) param.kappa (s.brk + 2)
             param.matpc_type] ∧
      (invertQuda_cgEntry E (invertQuda_prepared E L h_b param s).1
          (invertQuda_prepared E L h_b param s).2).spinor s.brk =
        (E.MatPCDagCuda s.cudaGaugePrecise param.kappa param.matpc_type
          (invertQuda_preparedSource E L h_b param s) (invertQuda_preparedSource E L h_b param s)
          ((invertQuda_prepared E L h_b param s).2.spinor (s.brk + 2))).1 := by
    intro hs
    have h := cgEntry_normal E (invertQuda_prepared E L h_b param s).1
      (invertQuda_prepared E L h_b param s).2 (by rw [hst]; exact hs)
      (by rw [hi, ho]; simp) (by rw [ho, ht]; simp)
    rw [hi, ho, ht, hk, hmt, hg] at h
    unfold invertQuda_preparedSource
    rw [hi]
    exact h
  refine ⟨?_, hentry, fun hs => ⟨?_, ?_⟩, fun hs hM hinj hcg => ?_⟩
  · have h := solve_cg_entry E (invertQuda_prepared E L h_b param s).1
      (invertQuda_prepared E L h_b param s).2 hit
    rw [hi, ho, ht] at h
    exact h
  · unfold invertQuda_cgEntry
    rw [hst, hs]
    simp
  · unfold invertQuda_preparedSource
    rw [hi]
  · apply hinj
    rw [hcg, (hentry hs).2, hM]

/-- Witness of C18: identity `D`, `kappa = 1/2`, so that `M` and `Mdag` are
multiplication by `3/4`, with the exact CG solver of `extern0`. -/
theorem invertQuda_cg_normal_equations_witness :
    invertQuda_solve extern0
        (invertQuda_prepared extern0 lattice0 ⟨1, 2⟩
          { param0 with inv_type := .QUDA_CG_INVERTER } state0).1
        (invertQuda_prepared extern0 lattice0 ⟨1, 2⟩
          { param0 with inv_type := .QUDA_CG_INVERTER } state0).2 =
      .returned () (invertCgCuda extern0 (state0.brk + 1) state0.brk .cudaGaugeSloppy
        (state0.brk + 2)
        (invertQuda_cgEntry extern0
          (invertQuda_prepared extern0 lattice0 ⟨1, 2⟩
            { param0 with inv_type := .QUDA_CG_INVERTER } state0).1
          (invertQuda_prepared extern0 lattice0 ⟨1, 2⟩
            { param0 with inv_type := .QUDA_CG_INVERTER } state0).2)) ∧
    (fun v : ℚ => 3 / 4 * v) ((invertQuda_solve extern0
        (invertQuda_prepared extern0 lattice0 ⟨1, 2⟩
          { param0 with inv_type := .QUDA_CG_INVERTER } state0).1
        (invertQuda_prepared extern0 lattice0 ⟨1, 2⟩
          { param0 with inv_type := .QUDA_CG_INVERTER } state0).2).state.spinor
            (state0.brk + 1)) =
      invertQuda_preparedSource extern0 lattice0 ⟨1, 2⟩
        { param0 with inv_type := .QUDA_CG_INVERTER } state0 :=
  have h := invertQuda_cg_normal_equations extern0 lattice0 ⟨1, 2⟩
    { param0 with inv_type := .QUDA_CG_INVERTER } state0
    (fun v : ℚ => 3 / 4 * v) (fun v : ℚ => 3 / 4 * v) rfl
  ⟨h.1, h.2.2.2 (by decide)
    (by
      intro o v t
      simp [extern0, param0]
      norm_num)
    (by
      intro a b hab
      have h2 : (3 / 4 : ℚ) * a = 3 / 4 * b := hab
      linarith)
    (by
      simp [invertQuda_cgEntry, invertQuda_prepared, invertQuda_source, setup_fst,
        setup_invert_param, setup_brk, setup_spinor, setup_cudaGaugePrecise, solve_cg,
        invertCgCuda, MatPCDagCuda, copyCuda, QudaState.applySolver, Outcome.state,
        loadSpinorField, dslashXpaySCuda, QudaState.gauge, param0, state0, extern0,
        Function.update_apply]
      norm_num)⟩

/-- C19. With `QUDA_BICGSTAB_INVERTER` the solver switch returns; for a
solution type other than `QUDA_MATPCDAG_MATPC_SOLUTION` it makes exactly one
solver call, without dagger, and for `QUDA_MATPCDAG_MATPC_SOLUTION` exactly
two: with dagger, then `copyCuda(in, out)`, then without dagger. If for the
caller's `kappa` and preconditioning type the dagger solve leaves `out` with
`Mdag out = in` and the plain solve leaves `out` with `M out = in`, the final
`out` satisfies `Mdag (M out) = prepared source`. -/
theorem invertQuda_bicgstab_calls [Add V] [SMul ℚ V] (E : Extern V G) (L : Lattice)
    (h_b : HostSpinor V) (param : QudaInvertParam) (s : QudaState V) (M Mdag : V → V)
    (hinv : param.inv_type = .QUDA_BICGSTAB_INVERTER) :
    invertQuda_solve E (invertQuda_prepared E L h_b param s).1
        (invertQuda_prepared E L h_b param s).2 =
      .returned () (invertQuda_solve E (invertQuda_prepared E L h_b param s).1
        (invertQuda_prepared E L h_b param s).2).state ∧
    (param.solution_type ≠ .QUDA_MATPCDAG_MATPC_SOLUTION →
      (invertQuda_solve E (invertQuda_prepared E L h_b param s).1
          (invertQuda_prepared E L h_b param s).2).state.trace =
        (invertQuda_prepared E L h_b param s).2.trace ++
          [.invertBiCGstabCuda (s.brk + 1) s.brk .cudaGaugeSloppy .cudaGaugePrecise (s.brk + 2)
            .QUDA_DAG_NO]) ∧
    (param.solution_type = .QUDA_MATPCDAG_MATPC_SOLUTION →
      (invertQuda_solve E (invertQuda_prepared E L h_b param s).1
          (invertQuda_prepared E L h_b param s).2).state.trace =
        (invertQuda_prepared E L h_b param s).2.trace ++
          [.invertBiCGstabCuda (s.brk + 1) s.brk .cudaGaugeSloppy .cudaGaugePrecise (s.brk + 2)
            .QUDA_DAG_YES,
           .copyCuda s.brk (s.brk + 1),
           .invertBiCGstabCuda (s.brk + 1) s.brk .cudaGaugeSloppy .cudaGaugePrecise (s.brk + 2)
            .QUDA_DAG_NO]) ∧
    (param.solution_type = .QUDA_MATPCDAG_MATPC_SOLUTION →
      (∀ gS gP p o i t, p.kappa = param.kappa → p.matpc_type = param.matpc_type →
        Mdag (E.invertBiCGstabCuda gS gP p .QUDA_DAG_YES o i t).out = i) →
      (∀ gS gP p o i t, p.kappa = param.kappa → p.matpc_type = param.matpc_type →
        M (E.invertBiCGstabCuda gS gP p .QUDA_DAG_NO o i t).out = i) →
      Mdag (M ((invertQuda_solve E (invertQuda_prepared E L h_b param s).1
          (invertQuda_prepared E L h_b param s).2).state.spinor (s.brk + 1))) =
        invertQuda_preparedSource E L h_b param s) := by
  obtain ⟨hi, ho, ht, -⟩ := prepared_handles E L h_b param s
  have hp := prepared_invert_param E L h_b param s
  have hit : (invertQuda_prepared E L h_b param s).2.invert_param.inv_type =
      .QUDA_BICGSTAB_INVERTER := by rw [hp]; exact hinv
  have hst : (invertQuda_prepared E L h_b param s).2.invert_param.solution_type =
      param.solution_type := by rw [hp]
  have hk : (invertQuda_prepared E L h_b param s).2.invert_param.kappa = param.kappa := by
    rw [hp]
  have hm : (invertQuda_prepared E L h_b param s).2.invert_param.matpc_type =
      param.matpc_type := by rw [hp]
  have hsolve := solve_bicgstab E (invertQuda_prepared E L h_b param s).1
    (invertQuda_prepared E L h_b param s).2 hit
  rw [hi, ho, ht, hst] at hsolve
  refine ⟨solve_returns E _ _ (Or.inr hit), fun hs => ?_, fun hs => ?_, fun hs hY hN => ?_⟩
  · rw [hsolve, if_neg hs]
    simp only [Outcome.state, bicgstab_trace]
  · rw [hsolve, if_pos hs]
    simp [Outcome.state, bicgstab_trace, copyCuda]
  · rw [hsolve, if_pos hs]
    simp only [Outcome.state]
    rw [bicgstab_spinor_out]
    have hc := bicgstab_config E (s.brk + 1) s.brk .cudaGaugeSloppy .cudaGaugePrecise
      (s.brk + 2) .QUDA_DAG_YES (invertQuda_prepared E L h_b param s).2
    rw [hN _ _ _ _ _ _ (by simp [copyCuda, hc.1, hk]) (by simp [copyCuda, hc.2.2.2.2.2.1, hm])]
    simp only [copyCuda, store_spinor, emit_spinor, Function.update_same]
    rw [bicgstab_spinor_out, hY _ _ _ _ _ _ hk hm]
    unfold invertQuda_preparedSource
    rw [hi]

/-- Witness of C19: identity `D`, `kappa = 1/2`, so that `M` and `Mdag` are
multiplication by `3/4`, with the exact BiCGstab solver of `extern0` and the
normal-equation solution type. -/
theorem invertQuda_bicgstab_calls_witness :
    (invertQuda_solve extern0
        (invertQuda_prepared extern0 lattice0 ⟨1, 2⟩
          { param0 with solution_type := .QUDA_MATPCDAG_MATPC_SOLUTION } state0).1
        (invertQuda_prepared extern0 lattice0 ⟨1, 2⟩
          { param0 with solution_type := .QUDA_MATPCDAG_MATPC_SOLUTION } state0).2).state.trace =
      (invertQuda_prepared extern0 lattice0 ⟨1, 2⟩
          { param0 with solution_type := .QUDA_MATPCDAG_MATPC_SOLUTION } state0).2.trace ++
        [.invertBiCGstabCuda (state0.brk + 1) state0.brk .cudaGaugeSloppy .cudaGaugePrecise
          (state0.brk + 2) .QUDA_DAG_YES,
         .copyCuda state0.brk (state0.brk + 1),
         .invertBiCGstabCuda (state0.brk + 1) state0.brk .cudaGaugeSloppy .cudaGaugePrecise
          (state0.brk + 2) .QUDA_DAG_NO] ∧
    (fun v : ℚ => 3 / 4 * v) ((fun v : ℚ => 3 / 4 * v) ((invertQuda_solve extern0
        (invertQuda_prepared extern0 lattice0 ⟨1, 2⟩
          { param0 with solution_type := .QUDA_MATPCDAG_MATPC_SOLUTION } state0).1
        (invertQuda_prepared extern0 lattice0 ⟨1, 2⟩
          { param0 with solution_type := .QUDA_MATPCDAG_MATPC_SOLUTION } state0).2).state.spinor
            (state0.brk + 1))) =
      invertQuda_preparedSource extern0 lattice0 ⟨1, 2⟩
        { param0 with solution_type := .QUDA_MATPCDAG_MATPC_SOLUTION } state0 :=
  have h := invertQuda_bicgstab_calls extern0 lattice0 ⟨1, 2⟩
    { param0 with solution_type := .QUDA_MATPCDAG_MATPC_SOLUTION } state0
    (fun v : ℚ => 3 / 4 * v) (fun v : ℚ => 3 / 4 * v) rfl
  have hx : ∀ (d : DagType) (gS gP : FullGauge) (p : QudaInvertParam) (o i t : ℚ),
      p.kappa = 1 / 2 → 3 / 4 * (extern0.invertBiCGstabCuda gS gP p d o i t).out = i := by
    intro d gS gP p o i t hk
    simp only [extern0, hk]
    norm_num
    ring
  ⟨h.2.2.1 rfl, h.2.2.2 rfl (fun gS gP p o i t hk _ => hx _ gS gP p o i t hk)
    (fun gS gP p o i t hk _ => hx _ gS gP p o i t hk)⟩

/-- C20, as the code has it. Every solver call `invertQuda` makes is handed
the sloppy gauge field; the BiCGstab calls are handed the precise gauge field
as well, while the CG call is handed the sloppy field only. -/
theorem invertQuda_solver_gauges [Add V] [SMul ℚ V] (E : Extern V G) (L : Lattice)
    (h_b : HostSpinor V) (param : QudaInvertParam) (s : QudaState V) :
    TraceGrows Event.solverGaugesAsCoded s.trace (invertQuda E L h_b param s).state.trace := by
  by_cases h1 : param.cuda_prec = .QUDA_DOUBLE_PRECISION
  · simp only [invertQuda, h1, if_true, Outcome.state]
    exact ⟨_, rfl, by simp [Event.solverGaugesAsCoded]⟩
  · by_cases h2 : param.cpu_prec = .QUDA_HALF_PRECISION
    · simp only [invertQuda, h1, h2, if_true, if_false, Outcome.state]
      exact ⟨_, rfl, by simp [Event.solverGaugesAsCoded]⟩
    · have hp : TraceGrows Event.solverGaugesAsCoded s.trace
          (invertQuda_prepared E L h_b param s).2.trace := by
        obtain ⟨new, hn, hall⟩ := prepared_trace E L h_b param s
        exact ⟨new, hn, fun e he => solverGaugesAsCoded_of_not_solver e (hall e he)⟩
      have hs := solve_trace_gauges E (invertQuda_prepared E L h_b param s).1
        (invertQuda_prepared E L h_b param s).2
      cases hr : invertQuda_solve E (invertQuda_prepared E L h_b param s).1
          (invertQuda_prepared E L h_b param s).2 with
      | returned u s2 =>
        rw [hr] at hs
        rw [invertQuda_of_returned E L h_b param s s2 h1 h2 hr]
        exact (hp.trans hs).trans
          ((solution_trace E h_b _ s2).mono solverGaugesAsCoded_of_not_solver)
      | exited code s2 =>
        rw [hr] at hs
        rw [invertQuda_of_exited E L h_b param s s2 code h1 h2 hr]
        exact hp.trans hs

/-- Counterexample to C20: in a run with `QUDA_CG_INVERTER` the solver call
made is `invertCgCuda(out, in, cudaGaugeSloppy, tmp, param)`, which is not
handed the precise gauge field. -/
theorem invertQuda_cg_not_given_precise_gauge :
    ¬ ∀ e ∈ (invertQuda extern0 lattice0 ⟨1, 2⟩ param0_cg state0).state.trace,
      e.isSolverCall = true →
        e.givenGauge .cudaGaugeSloppy = true ∧ e.givenGauge .cudaGaugePrecise = true := by
  intro h
  have hi : (invertQuda_prepared extern0 lattice0 ⟨1, 2⟩ param0_cg state0).2.invert_param.inv_type
      = .QUDA_CG_INVERTER :=
    prepared_invert_param_inv_type extern0 lattice0 ⟨1, 2⟩ param0_cg state0
  obtain ⟨hin, hout, htmp, -⟩ := prepared_handles extern0 lattice0 ⟨1, 2⟩ param0_cg state0
  have hsolve := solve_cg extern0 (invertQuda_prepared extern0 lattice0 ⟨1, 2⟩ param0_cg state0).1
    (invertQuda_prepared extern0 lattice0 ⟨1, 2⟩ param0_cg state0).2 hi
  rw [hin, hout, htmp] at hsolve
  obtain ⟨new, hnew, -⟩ := solution_trace extern0 ⟨1, 2⟩
    (invertQuda_prepared extern0 lattice0 ⟨1, 2⟩ param0_cg state0).1
    (invertQuda_solve extern0 (invertQuda_prepared extern0 lattice0 ⟨1, 2⟩ param0_cg state0).1
      (invertQuda_prepared extern0 lattice0 ⟨1, 2⟩ param0_cg state0).2).state
  have hmem : Event.invertCgCuda (state0.brk + 1) state0.brk .cudaGaugeSloppy (state0.brk + 2) ∈
      (invertQuda extern0 lattice0 ⟨1, 2⟩ param0_cg state0).state.trace := by
    rw [invertQuda_of_returned extern0 lattice0 ⟨1, 2⟩ param0_cg state0 _ (by decide) (by decide)
      (solve_returns extern0 _ _ (Or.inl hi))]
    simp only [Outcome.state] at hnew ⊢
    rw [hnew, hsolve]
    simp [Outcome.state, invertCgCuda, QudaState.applySolver]
  have h2 := (h _ hmem rfl).2
  revert h2
  decide

/-- C21. Every operator application made outside the solver calls is handed
the precise gauge field, never the sloppy one: each event added to the trace
by `dslashQuda`, `MatPCQuda`, `MatPCDagQuda`, `MatPCDagMatPCQuda`, `MatQuda`,
`MatDagQuda` or `invertQuda` that applies an operator (`dslashCuda`,
`dslashXpaySCuda`, `MatPCCuda`, `MatPCDagCuda`, `MatPCDagMatPCCuda`) names
`cudaGaugePrecise`; for `invertQuda` this covers the source preparation, the
`MatPCDagCuda` call ahead of CG and the reconstruction of the other parity. -/
theorem operators_outside_solvers_use_precise_gauge [Add V] [SMul ℚ V] (E : Extern V G)
    (O : ExternOps V) (L : Lattice) (h_in : HostSpinor V) (inv_param : QudaInvertParam)
    (parity dagger : Int) (s : QudaState V) :
    TraceGrows Event.usesPreciseGauge s.trace
      (dslashQuda E O L h_in inv_param parity dagger s).trace ∧
    TraceGrows Event.usesPreciseGauge s.trace (MatPCQuda O h_in inv_param s).trace ∧
    TraceGrows Event.usesPreciseGauge s.trace (MatPCDagQuda E h_in inv_param s).trace ∧
    TraceGrows Event.usesPreciseGauge s.trace (MatPCDagMatPCQuda O h_in inv_param s).trace ∧
    TraceGrows Event.usesPreciseGauge s.trace (MatQuda E h_in inv_param s).trace ∧
    TraceGrows Event.usesPreciseGauge s.trace (MatDagQuda E h_in inv_param s).trace ∧
    TraceGrows Event.usesPreciseGauge s.trace
      (invertQuda E L h_in inv_param s).state.trace := by
  refine ⟨⟨_, dslashQuda_trace_calls E O L h_in inv_param parity dagger s, ?_⟩,
    ⟨_, (MatPCQuda_trace_calls E O h_in inv_param s).1, ?_⟩,
    ⟨_, (MatPCQuda_trace_calls E O h_in inv_param s).2.1, ?_⟩,
    ⟨_, (MatPCQuda_trace_calls E O h_in inv_param s).2.2, ?_⟩,
    ⟨_, (MatQuda_trace_calls E h_in inv_param s).1, ?_⟩,
    ⟨_, (MatQuda_trace_calls E h_in inv_param s).2, ?_⟩, ?_⟩
  · simp [dslashQuda_calls, Event.usesPreciseGauge, Event.operatorGauge]
  · simp [MatPC_calls, Event.usesPreciseGauge, Event.operatorGauge]
  · simp [MatPC_calls, Event.usesPreciseGauge, Event.operatorGauge]
  · simp [MatPC_calls, Event.usesPreciseGauge, Event.operatorGauge]
  · simp [Mat_calls, Event.usesPreciseGauge, Event.operatorGauge]
  · simp [Mat_calls, Event.usesPreciseGauge, Event.operatorGauge]
  · by_cases h1 : inv_param.cuda_prec = .QUDA_DOUBLE_PRECISION
    · simp only [invertQuda, h1, if_true, Outcome.state]
      exact ⟨_, rfl, by simp [Event.usesPreciseGauge, Event.operatorGauge]⟩
    · by_cases h2 : inv_param.cpu_prec = .QUDA_HALF_PRECISION
      · simp only [invertQuda, h1, h2, if_true, if_false, Outcome.state]
        exact ⟨_, rfl, by simp [Event.usesPreciseGauge, Event.operatorGauge]⟩
      · exact ⟨_, invertQuda_trace_calls E L h_in inv_param s h1 h2,
          invertQuda_calls_operatorGauge L inv_param s.brk⟩

/-- C22. Parity consistency of the single-direction operator applications.
In `MatQuda` and `MatDagQuda` every `dslashCuda` call with parity argument `p`
reads data of parity `1 - p` and leaves data of parity `p`, and each
`xpayCuda` accumulates a vector into one of its own parity. In `invertQuda`
with the full solution, for either `matpc_type`, every `dslashXpaySCuda` call
of the source preparation and of the reconstruction reads a variable declared
with parity `1 - p`, writes one declared with parity `p` and adds one declared
with parity `p`; and when `preserve_source` is one of its two enumerators and
the solver switch returns, the same holds of the data the vectors hold at each
call, up to the full field handed back. The last conjunct shows the
bookkeeping rejects an application to data of the wrong parity. -/
theorem operator_applications_parity_consistent [Add V] [SMul ℚ V] (E : Extern V G)
    (L : Lattice) (h_in : HostSpinor V) (param : QudaInvertParam) (s : QudaState V)
    (h1 : param.cuda_prec ≠ .QUDA_DOUBLE_PRECISION) (h2 : param.cpu_prec ≠ .QUDA_HALF_PRECISION)
    (hs : param.solution_type = .QUDA_MAT_SOLUTION) :
    (∃ added, (MatQuda E h_in param s).trace = s.trace ++ added ∧ ParityConsistent added) ∧
    (∃ added, (MatDagQuda E h_in param s).trace = s.trace ++ added ∧
      ParityConsistent added) ∧
    (∃ pre post, (invertQuda E L h_in param s).state.trace = s.trace ++ pre ++ post ∧
      (∀ e ∈ pre, e.parityDeclared (declaredParities param
        (source_locals param (setup_locals L param s.brk) (s.brk + 3)))) ∧
      (∀ e ∈ post, e.parityDeclared (declaredParities param (solution_locals param
        (source_locals param (setup_locals L param s.brk) (s.brk + 3)))))) ∧
    (param.inv_type = .QUDA_CG_INVERTER ∨ param.inv_type = .QUDA_BICGSTAB_INVERTER →
      param.preserve_source = .QUDA_PRESERVE_SOURCE_YES ∨
        param.preserve_source = .QUDA_PRESERVE_SOURCE_NO →
      ∃ added, (invertQuda E L h_in param s).state.trace = s.trace ++ added ∧
        ParityConsistent added) ∧
    ¬ ParityConsistent
      [.loadSpinorField ⟨0, 1⟩ .h_in, .dslashCuda 2 .cudaGaugePrecise 0 0 0] := by
  refine ⟨⟨_, (MatQuda_trace_calls E h_in param s).1, Mat_calls_parity _ _ _ _⟩,
    ⟨_, (MatQuda_trace_calls E h_in param s).2, Mat_calls_parity _ _ _ _⟩, ?_, ?_, ?_⟩
  · refine ⟨[.allocateParitySpinor s.brk param.cuda_prec,
        .allocateParitySpinor (s.brk + 1) param.cuda_prec,
        .allocateParitySpinor (s.brk + 2) param.cuda_prec] ++
        source_calls param (setup_locals L param s.brk) (s.brk + 3) ++
        solve_calls param (source_locals param (setup_locals L param s.brk) (s.brk + 3)),
      (match param.inv_type with
       | .unlisted _ => []
       | _ => solution_calls param
          (source_locals param (setup_locals L param s.brk) (s.brk + 3))), ?_, ?_, ?_⟩
    · rw [invertQuda_trace_calls E L h_in param s h1 h2, List.append_assoc]
      rfl
    · intro e he
      simp only [List.mem_append] at he
      rcases he with (he | he) | he
      · simp only [List.mem_cons, List.mem_singleton, List.not_mem_nil, or_false] at he
        rcases he with he | he | he <;> rw [he] <;> trivial
      · exact source_calls_parityDeclared param _ _ e he
      · exact solve_calls_parityDeclared param _ _ e he
    · intro e he
      cases hi : param.inv_type <;> rw [hi] at he <;> simp only [List.not_mem_nil] at he <;>
        exact solution_calls_parityDeclared param _ e he
  · intro hi hp
    exact ⟨_, invertQuda_trace_calls E L h_in param s h1 h2,
      invertQuda_calls_parity L param s.brk hs hp hi⟩
  · simp [ParityConsistent, parityReplay, parityStep, Function.update_apply]

/-- Witness of C22: the full solution with BiCGstab, source not preserved, on
one-component vectors. -/
theorem operator_applications_parity_consistent_witness :
    param0.cuda_prec ≠ .QUDA_DOUBLE_PRECISION ∧ param0.cpu_prec ≠ .QUDA_HALF_PRECISION ∧
    param0.solution_type = .QUDA_MAT_SOLUTION ∧
    (∃ added, (invertQuda extern0 lattice0 ⟨1, 2⟩ param0 state0).state.trace =
      state0.trace ++ added ∧ ParityConsistent added) :=
  ⟨by decide, by decide, rfl,
    (operator_applications_parity_consistent extern0 lattice0 ⟨1, 2⟩ param0 state0
      (by decide) (by decide) rfl).2.2.2.1 (Or.inr rfl) (Or.inr rfl)⟩

/-- C23. With the full solution and mass normalisation `invertQuda` does not
write the same host solution for the two values of `preserve_source`, although
the collaborators are deterministic and take no account of the buffers'
previous contents or of the flag. On one-component vectors with `D` the
identity, exact solvers, `kappa = 1/4` and the host source `(1, 2)`, the call
with `QUDA_PRESERVE_SOURCE_YES` writes `(4/5, 6/5)`, which solves
`M x = 2 kappa b`; the call with `QUDA_PRESERVE_SOURCE_NO` reloads the source
at line 333 without the factor `2 kappa` and writes `(4/5, 11/5)`. -/
theorem invertQuda_preserve_source_changes_solution :
    SolverOblivious extern0 ∧
    param0_massYes = { param0_massNo with preserve_source := .QUDA_PRESERVE_SOURCE_YES } ∧
    param0_massNo.preserve_source = .QUDA_PRESERVE_SOURCE_NO ∧
    param0_massNo.solution_type = .QUDA_MAT_SOLUTION ∧
    (invertQuda extern0 lattice0 ⟨1, 2⟩ param0_massYes state0).state.h_x = ⟨4 / 5, 6 / 5⟩ ∧
    (invertQuda extern0 lattice0 ⟨1, 2⟩ param0_massNo state0).state.h_x = ⟨4 / 5, 11 / 5⟩ ∧
    (invertQuda extern0 lattice0 ⟨1, 2⟩ param0_massYes state0).state.h_x ≠
      (invertQuda extern0 lattice0 ⟨1, 2⟩ param0_massNo state0).state.h_x := by
  have hY : (invertQuda extern0 lattice0 ⟨1, 2⟩ param0_massYes state0).state.h_x =
      ⟨4 / 5, 6 / 5⟩ := by
    have hr := solve_returns extern0
      (invertQuda_prepared extern0 lattice0 ⟨1, 2⟩ param0_massYes state0).1
      (invertQuda_prepared extern0 lattice0 ⟨1, 2⟩ param0_massYes state0).2
      (by rw [prepared_invert_param_inv_type]; exact Or.inr rfl)
    rw [invertQuda_of_returned extern0 lattice0 ⟨1, 2⟩ param0_massYes state0 _ (by decide)
      (by decide) hr]
    simp [Outcome.state, invertQuda_solution, invertQuda_prepared, invertQuda_source, setup_fst,
      setup_invert_param, setup_brk, setup_spinor, setup_cudaGaugePrecise, solve_bicgstab,
      invertBiCGstabCuda, QudaState.applySolver, loadSpinorField, dslashXpaySCuda, axCuda,
      retrieveSpinorField, freeSpinorField, freeParitySpinor, allocateParitySpinor,
      QudaState.gauge, QudaState.store, QudaState.emit, Function.update_apply,
      param0_massYes, param0_massNo, param0, state0, extern0]
    norm_num
  have hN : (invertQuda extern0 lattice0 ⟨1, 2⟩ param0_massNo state0).state.h_x =
      ⟨4 / 5, 11 / 5⟩ := by
    have hr := solve_returns extern0
      (invertQuda_prepared extern0 lattice0 ⟨1, 2⟩ param0_massNo state0).1
      (invertQuda_prepared extern0 lattice0 ⟨1, 2⟩ param0_massNo state0).2
      (by rw [prepared_invert_param_inv_type]; exact Or.inr rfl)
    rw [invertQuda_of_returned extern0 lattice0 ⟨1, 2⟩ param0_massNo state0 _ (by decide)
      (by decide) hr]
    simp [Outcome.state, invertQuda_solution, invertQuda_prepared, invertQuda_source, setup_fst,
      setup_invert_param, setup_brk, setup_spinor, setup_cudaGaugePrecise, solve_bicgstab,
      invertBiCGstabCuda, QudaState.applySolver, loadSpinorField, dslashXpaySCuda, axCuda,
      retrieveSpinorField, freeSpinorField, freeParitySpinor, allocateParitySpinor,
      QudaState.gauge, QudaState.store, QudaState.emit, Function.update_apply,
      param0_massNo, param0, state0, extern0]
    norm_num
  refine ⟨⟨?_, ?_, ?_⟩, rfl, rfl, rfl, hY, hN, ?_⟩
  · intros; rfl
  · intros; rfl
  · intros; rfl
  · rw [hY, hN]
    intro h
    have h2 := congrArg HostSpinor.odd h
    norm_num at h2

/-- C24. `invertQuda` never writes the host source `h_b`. Every load and
retrieve event carries the host buffer named at its call site. For every
parameter block (either value of `preserve_source`, every solution type) and
every run: each call that reads a host buffer is a load handed `h_b`; each
call that writes one is a retrieve handed `h_x`, so no call is handed `h_b` to
write; at most one call writes a host buffer and no load or retrieve follows
it; and a run that terminates the process leaves `h_x` as it was. -/
theorem invertQuda_host_source_read_only [Add V] [SMul ℚ V] (E : Extern V G) (L : Lattice)
    (h_b : HostSpinor V) (param : QudaInvertParam) (s : QudaState V) :
    (∃ added, (invertQuda E L h_b param s).state.trace = s.trace ++ added ∧
      (∀ e ∈ added, ∀ r, e.hostRead = some r → r = .h_b) ∧
      (∀ e ∈ added, ∀ r, e.hostWritten = some r → r = .h_x) ∧
      (∀ e ∈ added, e.hostWritten ≠ some .h_b) ∧
      hostWriteLast added = true) ∧
    (∀ code s', invertQuda E L h_b param s = .exited code s' → s'.h_x = s.h_x) := by
  refine ⟨?_, fun code s' h => invertQuda_exited_h_x E L h_b param s s' code h⟩
  have key : ∀ added : List Event, (∀ e ∈ added, e.hostAccess .h_b .h_x) →
      hostWriteLast added = true →
      (∀ e ∈ added, ∀ r, e.hostRead = some r → r = .h_b) ∧
      (∀ e ∈ added, ∀ r, e.hostWritten = some r → r = .h_x) ∧
      (∀ e ∈ added, e.hostWritten ≠ some .h_b) ∧
      hostWriteLast added = true := by
    intro added ha hw
    refine ⟨fun e he => (ha e he).1, fun e he => (ha e he).2, ?_, hw⟩
    intro e he hb
    have := (ha e he).2 _ hb
    cases this
  by_cases h1 : param.cuda_prec = .QUDA_DOUBLE_PRECISION
  · simp only [invertQuda, h1, if_true, Outcome.state]
    exact ⟨_, rfl, key _ (by simp [Event.hostAccess, Event.hostRead, Event.hostWritten])
      (by simp [hostWriteLast, Event.isHostWrite])⟩
  · by_cases h2 : param.cpu_prec = .QUDA_HALF_PRECISION
    · simp only [invertQuda, h1, h2, if_true, if_false, Outcome.state]
      exact ⟨_, rfl, key _ (by simp [Event.hostAccess, Event.hostRead, Event.hostWritten])
        (by simp [hostWriteLast, Event.isHostWrite])⟩
    · exact ⟨_, invertQuda_trace_calls E L h_b param s h1 h2,
        key _ (invertQuda_calls_hostAccess L param s.brk)
          (invertQuda_calls_hostWriteLast L param s.brk)⟩

/-- C25. The gauge-load failure is atomic. When `loadGaugeQuda` finds a
dimension mismatch it terminates the process with no `createGaugeField` call
made, both resident gauge fields as they were, and the parameter block as the
caller passed it, so `packed_size` and `gaugeGiB` have not been assigned. -/
theorem loadGaugeQuda_failure_atomic (E : Extern V G) (L : Lattice) (h_gauge : G)
    (param : QudaGaugeParam) (s : QudaState V)
    (h : param.X ≠ L.L1 ∨ param.Y ≠ L.L2 ∨ param.Z ≠ L.L3 ∨ param.T ≠ L.L4) :
    ∃ s', loadGaugeQuda E L h_gauge param s = .exited (-1) s' ∧
      s'.cudaGaugePrecise = s.cudaGaugePrecise ∧ s'.cudaGaugeSloppy = s.cudaGaugeSloppy ∧
      s'.gauge_param = param ∧
      s'.gauge_param.packed_size = param.packed_size ∧
      s'.gauge_param.gaugeGiB = param.gaugeGiB ∧
      TraceGrows (fun e => ∀ t r p, e ≠ .createGaugeField t r p) s.trace s'.trace :=
  ⟨_, loadGaugeQuda_mismatch E L h_gauge param s h, rfl, rfl, rfl, rfl, rfl,
    ⟨_, rfl, by simp⟩⟩

/-- Witness of C25: a block with `X = 5` on the 4x4x4x8 lattice. -/
theorem loadGaugeQuda_failure_atomic_witness :
    (({ gparam0 with X := 5 } : QudaGaugeParam).X ≠ lattice0.L1 ∨
      ({ gparam0 with X := 5 } : QudaGaugeParam).Y ≠ lattice0.L2 ∨
      ({ gparam0 with X := 5 } : QudaGaugeParam).Z ≠ lattice0.L3 ∨
      ({ gparam0 with X := 5 } : QudaGaugeParam).T ≠ lattice0.L4) ∧
    ∃ s', loadGaugeQuda extern0 lattice0 () { gparam0 with X := 5 } state0 = .exited (-1) s' ∧
      s'.cudaGaugePrecise = state0.cudaGaugePrecise ∧
      s'.cudaGaugeSloppy = state0.cudaGaugeSloppy ∧
      s'.gauge_param = { gparam0 with X := 5 } ∧
      s'.gauge_param.packed_size = ({ gparam0 with X := 5 } : QudaGaugeParam).packed_size ∧
      s'.gauge_param.gaugeGiB = ({ gparam0 with X := 5 } : QudaGaugeParam).gaugeGiB ∧
      TraceGrows (fun e => ∀ t r p, e ≠ .createGaugeField t r p) state0.trace s'.trace :=
  ⟨by decide, loadGaugeQuda_failure_atomic extern0 lattice0 () { gparam0 with X := 5 } state0
    (by decide)⟩

/-- C26. After a successful `loadGaugeQuda`, `gaugeGiB` is
`2 * packedGaugeBytes / 2^30` of the sloppy field when `cuda_prec_sloppy`
differs from `cuda_prec_precise` and of the precise field otherwise; whenever
the precise field occupies storage it differs from the sum of the two
resident fields' sizes. -/
theorem loadGaugeQuda_gaugeGiB (E : Extern V G) (L : Lattice) (h_gauge : G)
    (param : QudaGaugeParam) (s : QudaState V)
    (h : param.X = L.L1 ∧ param.Y = L.L2 ∧ param.Z = L.L3 ∧ param.T = L.L4) :
    ∃ s', loadGaugeQuda E L h_gauge param s = .returned () s' ∧
      s'.gauge_param.gaugeGiB =
        (if param.cuda_prec_sloppy ≠ param.cuda_prec_precise then
          2 * (s'.cudaGaugeSloppy.packedGaugeBytes : ℚ) / 2 ^ 30
         else 2 * (s'.cudaGaugePrecise.packedGaugeBytes : ℚ) / 2 ^ 30) ∧
      (s'.cudaGaugePrecise.packedGaugeBytes ≠ 0 →
        s'.gauge_param.gaugeGiB ≠
          2 * (s'.cudaGaugePrecise.packedGaugeBytes : ℚ) / 2 ^ 30 +
          2 * (s'.cudaGaugeSloppy.packedGaugeBytes : ℚ) / 2 ^ 30) := by
  have hd : ¬ (param.X ≠ L.L1 ∨ param.Y ≠ L.L2 ∨ param.Z ≠ L.L3 ∨ param.T ≠ L.L4) := by
    simp [h.1, h.2.1, h.2.2.1, h.2.2.2]
  by_cases hp : param.cuda_prec_sloppy ≠ param.cuda_prec_precise
  · refine ⟨_, loadGaugeQuda_two_fields E L h_gauge param s hd hp, by simp [hp], ?_⟩
    intro hne heq
    simp only at hne heq
    have hq : ((E.createGaugeField h_gauge param.reconstruct_precise param.cuda_prec_precise
        s.cudaGaugePrecise).packedGaugeBytes : ℚ) ≠ 0 := by exact_mod_cast hne
    apply hq
    field_simp at heq
  · refine ⟨_, loadGaugeQuda_one_field E L h_gauge param s hd hp, by simp [hp], ?_⟩
    intro hne heq
    simp only at hne heq
    have hq : ((E.createGaugeField h_gauge param.reconstruct_precise param.cuda_prec_precise
        s.cudaGaugePrecise).packedGaugeBytes : ℚ) ≠ 0 := by exact_mod_cast hne
    apply hq
    field_simp at heq

/-- Witness of C26: a matching block whose sloppy precision is half. -/
theorem loadGaugeQuda_gaugeGiB_witness :
    (gparam0.X = lattice0.L1 ∧ gparam0.Y = lattice0.L2 ∧ gparam0.Z = lattice0.L3 ∧
      gparam0.T = lattice0.L4) ∧
    ∃ s', loadGaugeQuda extern0 lattice0 () gparam0 state0 = .returned () s' ∧
      s'.gauge_param.gaugeGiB =
        (if gparam0.cuda_prec_sloppy ≠ gparam0.cuda_prec_precise then
          2 * (s'.cudaGaugeSloppy.packedGaugeBytes : ℚ) / 2 ^ 30
         else 2 * (s'.cudaGaugePrecise.packedGaugeBytes : ℚ) / 2 ^ 30) ∧
      (s'.cudaGaugePrecise.packedGaugeBytes ≠ 0 →
        s'.gauge_param.gaugeGiB ≠
          2 * (s'.cudaGaugePrecise.packedGaugeBytes : ℚ) / 2 ^ 30 +
          2 * (s'.cudaGaugeSloppy.packedGaugeBytes : ℚ) / 2 ^ 30) :=
  ⟨by decide, loadGaugeQuda_gaugeGiB extern0 lattice0 () gparam0 state0 (by decide)⟩

/-- C27. On every normally returning call of `invertQuda` (precisions
accepted, a listed solver), for every solution type, `preserve_source`,
`matpc_type` and solver, the calls of the run allocate `in`, `out`, `tmp`, and
`b.even`, `b.odd` as well exactly when the solution type is
`QUDA_MAT_SOLUTION` with `QUDA_PRESERVE_SOURCE_YES`; the handles are distinct,
each is freed exactly once before the return and nothing else is freed. The
same balance holds for `dslashQuda`, `MatPCQuda`, `MatPCDagQuda`,
`MatPCDagMatPCQuda`, `MatQuda` and `MatDagQuda`. -/
theorem spinors_freed_exactly_once [Add V] [SMul ℚ V] (E : Extern V G) (O : ExternOps V)
    (L : Lattice) (h_in : HostSpinor V) (param : QudaInvertParam) (parity dagger : Int)
    (s : QudaState V)
    (h1 : param.cuda_prec ≠ .QUDA_DOUBLE_PRECISION) (h2 : param.cpu_prec ≠ .QUDA_HALF_PRECISION)
    (hi : param.inv_type = .QUDA_CG_INVERTER ∨ param.inv_type = .QUDA_BICGSTAB_INVERTER) :
    (∃ s' added, invertQuda E L h_in param s = .returned () s' ∧
      s'.trace = s.trace ++ added ∧ AllocFreeBalanced added ∧
      added.flatMap Event.allocated = [s.brk, s.brk + 1, s.brk + 2] ++
        (if param.solution_type = .QUDA_MAT_SOLUTION ∧
            param.preserve_source = .QUDA_PRESERVE_SOURCE_YES then [s.brk + 3, s.brk + 4]
         else [])) ∧
    (∃ added, (dslashQuda E O L h_in param parity dagger s).trace = s.trace ++ added ∧
      AllocFreeBalanced added) ∧
    (∃ added, (MatPCQuda O h_in param s).trace = s.trace ++ added ∧
      AllocFreeBalanced added) ∧
    (∃ added, (MatPCDagQuda E h_in param s).trace = s.trace ++ added ∧
      AllocFreeBalanced added) ∧
    (∃ added, (MatPCDagMatPCQuda O h_in param s).trace = s.trace ++ added ∧
      AllocFreeBalanced added) ∧
    (∃ added, (MatQuda E h_in param s).trace = s.trace ++ added ∧ AllocFreeBalanced added) ∧
    (∃ added, (MatDagQuda E h_in param s).trace = s.trace ++ added ∧
      AllocFreeBalanced added) :=
  ⟨⟨_, _, invertQuda_returns E L h_in param s h1 h2 hi,
      invertQuda_trace_calls E L h_in param s h1 h2,
      invertQuda_calls_balanced L param s.brk hi, invertQuda_calls_allocated L param s.brk hi⟩,
    ⟨_, dslashQuda_trace_calls E O L h_in param parity dagger s,
      dslashQuda_calls_balanced _ _ _ _ _ _⟩,
    ⟨_, (MatPCQuda_trace_calls E O h_in param s).1, MatPC_calls_balanced _ _ _ rfl rfl⟩,
    ⟨_, (MatPCQuda_trace_calls E O h_in param s).2.1, MatPC_calls_balanced _ _ _ rfl rfl⟩,
    ⟨_, (MatPCQuda_trace_calls E O h_in param s).2.2, MatPC_calls_balanced _ _ _ rfl rfl⟩,
    ⟨_, (MatQuda_trace_calls E h_in param s).1, Mat_calls_balanced _ _ _ _⟩,
    ⟨_, (MatQuda_trace_calls E h_in param s).2, Mat_calls_balanced _ _ _ _⟩⟩

/-- Witness of C27: a single-precision block with BiCGstab; shown for
`MatPCQuda`. -/
theorem spinors_freed_exactly_once_witness :
    param0.cuda_prec ≠ .QUDA_DOUBLE_PRECISION ∧ param0.cpu_prec ≠ .QUDA_HALF_PRECISION ∧
    (param0.inv_type = .QUDA_CG_INVERTER ∨ param0.inv_type = .QUDA_BICGSTAB_INVERTER) ∧
    (∃ added, (MatPCQuda ops0 ⟨1, 2⟩ param0 state0).trace = state0.trace ++ added ∧
      AllocFreeBalanced added) :=
  ⟨by decide, by decide, Or.inr rfl,
    (spinors_freed_exactly_once extern0 ops0 lattice0 ⟨1, 2⟩ param0 0 0 state0
      (by decide) (by decide) (Or.inr rfl)).2.2.1⟩

/-- C28. A solution type outside the three enumerators is not rejected. With
accepted precisions and a listed solver the call returns normally; the calls
it makes are the three allocations, the solver dispatch (for CG preceded by
the copy and `MatPCDagCuda`), `retrieveParitySpinor` of `out` and the three
frees, so no call reads the host source; the outcome is the same whatever
`h_b` holds; and `h_x` receives the contents of `out` in its first
parity-sized block, the second being left alone. -/
theorem invertQuda_unlisted_solution_type [Add V] [SMul ℚ V] (E : Extern V G) (L : Lattice)
    (h_b : HostSpinor V) (param : QudaInvertParam) (s : QudaState V) (code : Int)
    (h1 : param.cuda_prec ≠ .QUDA_DOUBLE_PRECISION) (h2 : param.cpu_prec ≠ .QUDA_HALF_PRECISION)
    (hi : param.inv_type = .QUDA_CG_INVERTER ∨ param.inv_type = .QUDA_BICGSTAB_INVERTER)
    (hs : param.solution_type = .unlisted code) :
    ∃ s', invertQuda E L h_b param s = .returned () s' ∧
      s'.trace = s.trace ++
        ([.allocateParitySpinor s.brk param.cuda_prec,
          .allocateParitySpinor (s.brk + 1) param.cuda_prec,
          .allocateParitySpinor (s.brk + 2) param.cuda_prec] ++
         (if param.inv_type = .QUDA_CG_INVERTER then
            [.copyCuda (s.brk + 1) s.brk,
             .MatPCDagCuda s.brk .cudaGaugePrecise (s.brk + 1) param.kappa (s.brk + 2)
               param.matpc_type,
             .invertCgCuda (s.brk + 1) s.brk .cudaGaugeSloppy (s.brk + 2)]
          else
            [.invertBiCGstabCuda (s.brk + 1) s.brk .cudaGaugeSloppy .cudaGaugePrecise
               (s.brk + 2) .QUDA_DAG_NO]) ++
         [.retrieveParitySpinor .h_x (s.brk + 1), .freeParitySpinor (s.brk + 2),
          .freeParitySpinor s.brk, .freeParitySpinor (s.brk + 1)]) ∧
      s'.h_x = ⟨s'.spinor (s.brk + 1), s.h_x.odd⟩ ∧
      ∀ h_b', invertQuda E L h_b' param s = invertQuda E L h_b param s := by
  have hp := prepared_configEq E L h_b param s
  have hc := solve_configEq E (invertQuda_prepared E L h_b param s).1
    (invertQuda_prepared E L h_b param s).2
  have hx := solve_h_x E (invertQuda_prepared E L h_b param s).1
    (invertQuda_prepared E L h_b param s).2
  have hi2 : (invertQuda_prepared E L h_b param s).2.invert_param.inv_type =
        .QUDA_CG_INVERTER ∨
      (invertQuda_prepared E L h_b param s).2.invert_param.inv_type =
        .QUDA_BICGSTAB_INVERTER := by
    rw [prepared_invert_param_inv_type]; exact hi
  have hret := solve_returns E (invertQuda_prepared E L h_b param s).1
    (invertQuda_prepared E L h_b param s).2 hi2
  have hout := (prepared_handles E L h_b param s).2.1
  have he : ∀ h_b', invertQuda_prepared E L h_b' param s = invertQuda_prepared E L h_b param s := by
    intro h_b'
    rw [prepared_of_unlisted_solution E L h_b' param s code hs,
      prepared_of_unlisted_solution E L h_b param s code hs]
  have hpx : (invertQuda_prepared E L h_b param s).2.h_x = s.h_x := by
    simp only [invertQuda_prepared, source_h_x, setup_h_x]
  cases hr : invertQuda_solve E (invertQuda_prepared E L h_b param s).1
      (invertQuda_prepared E L h_b param s).2 with
  | exited c s2 =>
    rw [hr] at hret
    cases hret
  | returned u s2 =>
    rw [hr] at hc hx
    simp only [Outcome.state] at hc hx
    have hs2 : s2.invert_param.solution_type = .unlisted code := by
      rw [(configEq_trans hp hc).2.2.2.2.1, hs]
    have hall : ∀ h_b', invertQuda E L h_b' param s = .returned ()
        (freeParitySpinor (s.brk + 1) (freeParitySpinor (invertQuda_prepared E L h_b param s).1.inp
          (freeParitySpinor (invertQuda_prepared E L h_b param s).1.tmp
            (retrieveParitySpinor .h_x (s.brk + 1) s2)))) := by
      intro h_b'
      have hr' := hr
      rw [← he h_b'] at hr'
      rw [invertQuda_of_returned E L h_b' param s s2 h1 h2 hr', he h_b',
        solution_of_unlisted_solution E h_b' _ _ code hs2, hout]
    refine ⟨_, hall h_b, ?_, ?_, fun h_b' => by rw [hall h_b', hall h_b]⟩
    · have ht := invertQuda_trace_calls E L h_b param s h1 h2
      rw [hall h_b] at ht
      simp only [Outcome.state] at ht
      rw [ht, invertQuda_calls_of_listed L param s.brk hi]
      rcases hi with hi | hi <;>
        simp [source_calls, solve_calls, solution_calls, source_locals, setup_locals, hs, hi]
    · simp [freeParitySpinor, retrieveParitySpinor, QudaState.emit, hx, hpx]

/-- Witness of C28: solution type 7 with BiCGstab. -/
theorem invertQuda_unlisted_solution_type_witness :
    param0_unlisted.cuda_prec ≠ .QUDA_DOUBLE_PRECISION ∧
    param0_unlisted.cpu_prec ≠ .QUDA_HALF_PRECISION ∧
    (param0_unlisted.inv_type = .QUDA_CG_INVERTER ∨
      param0_unlisted.inv_type = .QUDA_BICGSTAB_INVERTER) ∧
    param0_unlisted.solution_type = .unlisted 7 ∧
    ∃ s', invertQuda extern0 lattice0 ⟨1, 2⟩ param0_unlisted state0 = .returned () s' ∧
      s'.h_x = ⟨s'.spinor (state0.brk + 1), state0.h_x.odd⟩ := by
  refine ⟨by decide, by decide, Or.inr rfl, rfl, ?_⟩
  obtain ⟨s', h1, _, h3, _⟩ := invertQuda_unlisted_solution_type extern0 lattice0 ⟨1, 2⟩
    param0_unlisted state0 7 (by decide) (by decide) (Or.inr rfl) rfl
  exact ⟨s', h1, h3⟩

/-- C29. `endQuda` does not release each resident gauge storage exactly once
when the two precisions coincide. It calls `freeSpinorBuffer` once and
`freeGaugeField` once on each of the two resident structs; after
`initQuda` and a successful `loadGaugeQuda` with
`cuda_prec_sloppy = cuda_prec_precise`, line 114 has copied the precise struct
into the sloppy one, so the two calls are handed the same even and odd device
addresses: every address the created field holds is passed to
`freeGaugeField` twice. -/
theorem endQuda_frees_shared_gauge_twice (E : Extern V G) (O : ExternOps V)
    (rt : CudaRuntime) (L : Lattice) (h_gauge : G) (dev : Int) (param : QudaGaugeParam)
    (s : QudaState V)
    (h : param.X = L.L1 ∧ param.Y = L.L2 ∧ param.Z = L.L3 ∧ param.T = L.L4)
    (hp : param.cuda_prec_sloppy = param.cuda_prec_precise) :
    ∃ s2, loadGaugeQuda E L h_gauge param (initQuda rt dev s).state = .returned () s2 ∧
      s2.cudaGaugePrecise = E.createGaugeField h_gauge param.reconstruct_precise
        param.cuda_prec_precise (initQuda rt dev s).state.cudaGaugePrecise ∧
      s2.cudaGaugeSloppy = s2.cudaGaugePrecise ∧
      (endQuda O s2).trace = s2.trace ++
        [.freeSpinorBuffer, .freeGaugeField .cudaGaugePrecise,
         .freeGaugeField .cudaGaugeSloppy] ∧
      endQuda_freed O s2 =
        gaugeStorage s2.cudaGaugePrecise ++ gaugeStorage s2.cudaGaugePrecise ∧
      (∀ a ∈ gaugeStorage s2.cudaGaugePrecise, (endQuda_freed O s2).count a = 2 *
        (gaugeStorage s2.cudaGaugePrecise).count a) ∧
      (gaugeStorage s2.cudaGaugePrecise ≠ [] → ¬ (endQuda_freed O s2).Nodup) := by
  have hd : ¬ (param.X ≠ L.L1 ∨ param.Y ≠ L.L2 ∨ param.Z ≠ L.L3 ∨ param.T ≠ L.L4) := by
    simp [h.1, h.2.1, h.2.2.1, h.2.2.2]
  have hp' : ¬ param.cuda_prec_sloppy ≠ param.cuda_prec_precise := by simp [hp]
  refine ⟨_, loadGaugeQuda_one_field E L h_gauge param _ hd hp', rfl, rfl, endQuda_trace O _,
    ?_, ?_, ?_⟩
  · rw [endQuda_freed_eq]
  · intro a _
    rw [endQuda_freed_eq, List.count_append]
    simp only
    omega
  · intro hne hnd
    rw [endQuda_freed_eq] at hnd
    simp only at hnd
    obtain ⟨a, ha⟩ := List.exists_mem_of_ne_nil _ hne
    exact (List.nodup_append.mp hnd).2.2 ha ha

/-- Witness of C29: single precision for both fields; the created field
holds the addresses 10 and 11, each handed to `freeGaugeField` twice. -/
theorem endQuda_frees_shared_gauge_twice_witness :
    (gparam0_same.X = lattice0.L1 ∧ gparam0_same.Y = lattice0.L2 ∧
      gparam0_same.Z = lattice0.L3 ∧ gparam0_same.T = lattice0.L4) ∧
    gparam0_same.cuda_prec_sloppy = gparam0_same.cuda_prec_precise ∧
    ∃ s2, loadGaugeQuda extern0 lattice0 () gparam0_same (initQuda runtime0 0 state0).state =
        .returned () s2 ∧
      endQuda_freed ops0 s2 = [10, 11, 10, 11] := by
  refine ⟨by decide, rfl, ?_⟩
  obtain ⟨s2, h1, h2, _, _, h5, _⟩ := endQuda_frees_shared_gauge_twice extern0 ops0 runtime0
    lattice0 () 0 gparam0_same state0 (by decide) rfl
  refine ⟨s2, h1, ?_⟩
  rw [h5, h2]
  rfl

/-- C30. In exact arithmetic the `spinorGiB` a call of `invertQuda` that
passes the precision checks reports is `m * 4 * (Nh * spinorSiteSize) / 2^30`
with `m = 5` for (`QUDA_PRESERVE_SOURCE_NO`, CG), `7` for
(`QUDA_PRESERVE_SOURCE_NO`, another solver), `8` for (another
`preserve_source`, CG) and `9` for (another `preserve_source`, another
solver). Two calls that agree on whether `preserve_source` is
`QUDA_PRESERVE_SOURCE_NO` and on whether the solver is CG report the same
value whatever their other fields, host sources and states; and for one solver
and a lattice with `0 < Nh * spinorSiteSize` the value with source
preservation is strictly larger than the value without. -/
theorem invertQuda_spinorGiB [Add V] [SMul ℚ V] (E : Extern V G) (L : Lattice)
    (h_b : HostSpinor V) (param : QudaInvertParam) (s : QudaState V)
    (h1 : param.cuda_prec ≠ .QUDA_DOUBLE_PRECISION) (h2 : param.cpu_prec ≠ .QUDA_HALF_PRECISION) :
    (invertQuda E L h_b param s).state.invert_param.spinorGiB =
      (if param.preserve_source = .QUDA_PRESERVE_SOURCE_NO then
        (if param.inv_type = .QUDA_CG_INVERTER then 5 else 7)
       else (if param.inv_type = .QUDA_CG_INVERTER then 8 else 9) : ℚ) * 4 *
        ((L.Nh * L.spinorSiteSize : Int) : ℚ) / 2 ^ 30 ∧
    ∀ (h_b' : HostSpinor V) (param' : QudaInvertParam) (s' : QudaState V),
      param'.cuda_prec ≠ .QUDA_DOUBLE_PRECISION → param'.cpu_prec ≠ .QUDA_HALF_PRECISION →
      ((param'.preserve_source = .QUDA_PRESERVE_SOURCE_NO ↔
          param.preserve_source = .QUDA_PRESERVE_SOURCE_NO) →
        (param'.inv_type = .QUDA_CG_INVERTER ↔ param.inv_type = .QUDA_CG_INVERTER) →
        (invertQuda E L h_b' param' s').state.invert_param.spinorGiB =
          (invertQuda E L h_b param s).state.invert_param.spinorGiB) ∧
      (param'.inv_type = param.inv_type →
        param.preserve_source ≠ .QUDA_PRESERVE_SOURCE_NO →
        param'.preserve_source = .QUDA_PRESERVE_SOURCE_NO →
        0 < L.Nh * L.spinorSiteSize →
        (invertQuda E L h_b' param' s').state.invert_param.spinorGiB <
          (invertQuda E L h_b param s).state.invert_param.spinorGiB) := by
  refine ⟨invertQuda_spinorGiB_eq E L h_b param s h1 h2, ?_⟩
  intro h_b' param' s' h1' h2'
  rw [invertQuda_spinorGiB_eq E L h_b param s h1 h2,
    invertQuda_spinorGiB_eq E L h_b' param' s' h1' h2']
  constructor
  · intro hp hi
    by_cases hn : param.preserve_source = .QUDA_PRESERVE_SOURCE_NO <;>
    by_cases hc : param.inv_type = .QUDA_CG_INVERTER <;>
      simp [hn, hc, hp, hi]
  · intro hi hn hn' hpos
    have hq : (0 : ℚ) < ((L.Nh * L.spinorSiteSize : Int) : ℚ) := by exact_mod_cast hpos
    rw [hi]
    by_cases hc : param.inv_type = .QUDA_CG_INVERTER <;>
      simp only [hn, hn', hc, if_true, if_false] <;>
      apply div_lt_div_of_pos_right _ (by norm_num) <;>
      nlinarith

/-- Witness of C30: BiCGstab without source preservation on the 4x4x4x8
lattice. -/
theorem invertQuda_spinorGiB_witness :
    param0.cuda_prec ≠ .QUDA_DOUBLE_PRECISION ∧ param0.cpu_prec ≠ .QUDA_HALF_PRECISION ∧
    (invertQuda extern0 lattice0 ⟨1, 2⟩ param0 state0).state.invert_param.spinorGiB =
      (if param0.preserve_source = .QUDA_PRESERVE_SOURCE_NO then
        (if param0.inv_type = .QUDA_CG_INVERTER then 5 else 7)
       else (if param0.inv_type = .QUDA_CG_INVERTER then 8 else 9) : ℚ) * 4 *
        ((lattice0.Nh * lattice0.spinorSiteSize : Int) : ℚ) / 2 ^ 30 :=
  ⟨by decide, by decide,
    (invertQuda_spinorGiB extern0 lattice0 ⟨1, 2⟩ param0 state0 (by decide) (by decide)).1⟩

end Theorems

end Quda
